import Mathlib

/-!
# Payment service: registries, orchestration service and persistence

A shallow embedding of the Go packages `model`, `ports`, `core`, `repository`,
`service`, `controller`, `utils` and `adapters` of the payment service.

* Go values of type `error` are strings (the message); a Go result pair
  `(value, error)` is an `Except Error value`, every implementation in the
  sources returning exactly one of the two.
* The outside world (the provider API and the database) is a state `σ` that is
  passed through every interface call. A call that fails still returns the
  state it left behind.
* Every service operation returns a `Run`: its Go result, the list of interface
  calls and log lines it issued, in order, and the final state.
* Where a panic matters (`WithTransaction`, the charge of the Stripe adapter), a
  call ends in an `Outcome`: it returns or it panics.
* Concurrent charges are modelled at the grain of collaborator calls: `chargeStep`
  makes the next call of one charge, and `interleave` lets two charges take turns
  on one state.
-/

set_option autoImplicit false

/-! ## Package model -/

namespace model

/-- Go `type PaymentProvider string`. -/
abbrev PaymentProvider := String

/-- Go `map[string]string`, `none` being the nil map. -/
abbrev Metadata := Option (List (String × String))

/-- Request body of the intent and charge endpoints. `RememberMe` is a `*bool`. -/
structure PaymentIntentRequest where
  Amount : Int
  Currency : String
  CustomerID : String
  Token : String
  RememberMe : Option Bool
  Metadata : Metadata
  PaymentMethod : String
  deriving DecidableEq, Repr

/-- Response returned to the caller of the service. -/
structure PaymentIntentResponse where
  ID : String
  Amount : Int
  Currency : String
  Status : String
  ClientSecret : String
  deriving DecidableEq, Repr

/-- Normalized answer of a provider adapter. -/
structure PaymentProcessorResponse where
  ID : String
  Amount : Int
  Currency : String
  Status : String
  ClientSecret : String
  PaymentMethodID : String
  PaymentMethodType : String
  PaymentProvider : String
  PaymentMethodStatus : String
  deriving DecidableEq, Repr

/-- The `interface{}` payload of a webhook event: absent, a decoded intent, or a
plain string marker. -/
inductive EventPayload where
  | none
  | intent (r : PaymentIntentResponse)
  | text (s : String)
  deriving DecidableEq, Repr

/-- Normalized provider webhook notification. The Go field `Type` is `Type_`
here, `Type` being reserved. -/
structure PaymentEvent where
  Type_ : String
  PaymentIntent : String
  PaymentMethod : String
  Payload : EventPayload
  deriving DecidableEq, Repr

/-- Public shape of a stored payment method. -/
structure PaymentMethodResponse where
  ClientID : String
  PaymentMethodID : String
  PaymentProvider : String
  PaymentMethodType : String
  PaymentMethodStatus : String
  deriving DecidableEq, Repr

/-- The record shape shared by the transactions and the payment_methods tables.
Timestamps are natural numbers; `SavePaymentMethod` is a `*bool`. -/
structure Transaction where
  ID : String
  InternalReference : String
  Amount : Int
  Currency : String
  PaymentIntentID : String
  TxStatus : String
  CustomerID : String
  PaymentMethodID : String
  PaymentProvider : String
  PaymentMethodType : String
  PaymentMethodStatus : String
  SavePaymentMethod : Option Bool
  CreatedAt : Nat
  UpdatedAt : Nat
  Metadata : Metadata
  deriving DecidableEq, Repr

/-- The Go zero value `model.Transaction{}`. -/
def Transaction.zero : Transaction :=
  { ID := "", InternalReference := "", Amount := 0, Currency := "",
    PaymentIntentID := "", TxStatus := "", CustomerID := "", PaymentMethodID := "",
    PaymentProvider := "", PaymentMethodType := "", PaymentMethodStatus := "",
    SavePaymentMethod := none, CreatedAt := 0, UpdatedAt := 0, Metadata := none }

end model

/-! ## Shared runtime notions -/

/-- A Go `error`, identified with its message. -/
abbrev Error := String

/-- A Go `context.Context`, reduced to its time budget in seconds (`none`: no
deadline). -/
structure Context where
  timeout : Option Nat
  deriving DecidableEq, Repr

/-- Go `context.WithTimeout(ctx, d)`: the earlier of the parent deadline and `d`. -/
def Context.WithTimeout (ctx : Context) (d : Nat) : Context :=
  match ctx.timeout with
  | none => { timeout := some d }
  | some t => { timeout := some (min t d) }

/-- A Go `interface{}` value as it is handed to the database driver. -/
inductive Any where
  | str (s : String)
  | int (i : Int)
  | bool (b : Bool)
  | strMap (m : List (String × String))
  | time (t : Nat)
  | null
  deriving DecidableEq, Repr

/-- Go `map[K]V`, observed through lookup only. -/
abbrev GoMap (κ α : Type) := κ → Option α

/-- Go `make(map[K]V)`. -/
def GoMap.make {κ α : Type} : GoMap κ α := fun _ => none

/-- Go `m[k] = v`. -/
def GoMap.set {κ α : Type} [DecidableEq κ] (m : GoMap κ α) (k : κ) (v : α) : GoMap κ α :=
  fun k2 => if k2 = k then some v else m k2

/-! ## Package ports -/

namespace ports

def PaymentMethodStatus : String := "active"
def PaymentSucceeded : String := "payment_succeeded"
def PaymentFailed : String := "payment_failed"
def PaymentCancelled : String := "payment_intent.canceled"
def Pending : String := "pending"

/-- Go interface `IPaymentProcessor`, over the world state `σ`. -/
structure IPaymentProcessor (σ : Type) where
  Name : model.PaymentProvider
  CreatePaymentIntent : Context → model.PaymentIntentRequest → σ →
    Except Error model.PaymentProcessorResponse × σ
  GetPaymentIntent : Context → String → σ → Except Error model.PaymentProcessorResponse × σ
  ChargeClient : Context → model.PaymentIntentRequest → σ →
    Except Error model.PaymentProcessorResponse × σ
  ParseWebhook : Context → List UInt8 → List (String × List String) → σ →
    Except Error model.PaymentEvent × σ

/-- Go interface `ITransactionRepository`, over the world state `σ`. Filters are
the entries of the Go filter map, in the order the range loop visits them. -/
structure ITransactionRepository (σ : Type) where
  Create : Context → model.Transaction → σ → Except Error Unit × σ
  FindByID : Context → String → σ → Except Error model.Transaction × σ
  FindByPaymentIntent : Context → String → σ → Except Error model.Transaction × σ
  FindByStatus : Context → String → Nat → σ → Except Error (List model.Transaction) × σ
  UpdateStatus : Context → String → List (String × Any) → σ → Except Error Unit × σ
  FindByColumn : Context → String → Any → σ → Except Error (List model.Transaction) × σ

end ports

/-! ## Package core -/

namespace core

def TransactionRepo : String := "transactionRepo"
def PaymentRepo : String := "paymentRepo"
def RefundRepo : String := "refundRepo"

structure RepositoryRegistry (σ : Type) where
  repo : GoMap String (ports.ITransactionRepository σ)

def NewRepositoryRegistry {σ : Type} : RepositoryRegistry σ :=
  { repo := GoMap.make }

def RepositoryRegistry.Register {σ : Type} (r : RepositoryRegistry σ) (repoTab : String)
    (repo : ports.ITransactionRepository σ) : RepositoryRegistry σ :=
  { repo := r.repo.set repoTab repo }

def RepositoryRegistry.Get {σ : Type} (r : RepositoryRegistry σ) (tab : String) :
    Except Error (ports.ITransactionRepository σ) :=
  match r.repo tab with
  | some rp => .ok rp
  | none => .error ("repository " ++ tab ++ " not configured")

structure ProviderRegistry (σ : Type) where
  processors : GoMap model.PaymentProvider (ports.IPaymentProcessor σ)

def NewProviderRegistry {σ : Type} : ProviderRegistry σ :=
  { processors := GoMap.make }

def ProviderRegistry.Register {σ : Type} (r : ProviderRegistry σ)
    (provider : model.PaymentProvider) (processor : ports.IPaymentProcessor σ) :
    ProviderRegistry σ :=
  { processors := r.processors.set provider processor }

def ProviderRegistry.Get {σ : Type} (r : ProviderRegistry σ) (provider : model.PaymentProvider) :
    Except Error (ports.IPaymentProcessor σ) :=
  match r.processors provider with
  | some p => .ok p
  | none => .error ("provider " ++ provider ++ " not configured")

/-- A sequence of `Register` calls on a fresh repository registry, oldest first. -/
def RepositoryRegistry.registerAll {σ : Type}
    (calls : List (String × ports.ITransactionRepository σ)) : RepositoryRegistry σ :=
  calls.foldl (fun r c => r.Register c.1 c.2) NewRepositoryRegistry

/-- A sequence of `Register` calls on a fresh provider registry, oldest first. -/
def ProviderRegistry.registerAll {σ : Type}
    (calls : List (model.PaymentProvider × ports.IPaymentProcessor σ)) : ProviderRegistry σ :=
  calls.foldl (fun r c => r.Register c.1 c.2) NewProviderRegistry

end core

/-- The instance of the most recent registration of `key` in a sequence of
registrations (oldest first), if there is one. -/
def lastRegistered {α : Type} (key : String) (calls : List (String × α)) : Option α :=
  ((calls.filter (fun c => c.1 = key)).getLast?).map (fun c => c.2)

/-! ## Observable behaviour of an operation -/

/-- One observable step of a service operation: a call on a provider adapter
(named by the provider key it was looked up with), a call on a repository (named
by the registry key it was looked up with), or a line written with `log.Printf`. -/
inductive Call where
  | ProcCreatePaymentIntent (provider : model.PaymentProvider) (ctx : Context)
      (req : model.PaymentIntentRequest)
  | ProcGetPaymentIntent (provider : model.PaymentProvider) (ctx : Context) (id : String)
  | ProcChargeClient (provider : model.PaymentProvider) (ctx : Context)
      (req : model.PaymentIntentRequest)
  | ProcParseWebhook (provider : model.PaymentProvider) (ctx : Context) (raw : List UInt8)
      (headers : List (String × List String))
  | Create (tab : String) (ctx : Context) (tx : model.Transaction)
  | FindByID (tab : String) (ctx : Context) (id : String)
  | FindByPaymentIntent (tab : String) (ctx : Context) (id : String)
  | UpdateStatus (tab : String) (ctx : Context) (status : String) (filters : List (String × Any))
  | FindByColumn (tab : String) (ctx : Context) (column : String) (value : Any)
  | Log (line : String)
  deriving DecidableEq, Repr

/-- Outcome of running an operation from a given world state. -/
structure Run (σ α : Type) where
  result : α
  trace : List Call
  state : σ

/-- The operation returns `a` in state `w` without a further step. -/
def Run.done {σ α : Type} (a : α) (w : σ) : Run σ α :=
  { result := a, trace := [], state := w }

/-- The step `c` happens, then the operation continues as `r`. -/
def Run.after {σ α : Type} (c : Call) (r : Run σ α) : Run σ α :=
  { result := r.result, trace := c :: r.trace, state := r.state }

/-- The records handed to `Create` on the repository registered under `tab`. -/
def createdOn (tab : String) : List Call → List model.Transaction
  | [] => []
  | Call.Create t _ tx :: rest => if t = tab then tx :: createdOn tab rest else createdOn tab rest
  | _ :: rest => createdOn tab rest

/-- The status updates issued on any repository: registry key, new status and
filter entries. -/
def statusUpdates : List Call → List (String × String × List (String × Any))
  | [] => []
  | Call.UpdateStatus t _ status filters :: rest => (t, status, filters) :: statusUpdates rest
  | _ :: rest => statusUpdates rest

/-- The calls issued on the repository registered under `tab`. -/
def callsOn (tab : String) (trace : List Call) : List Call :=
  trace.filter (fun c =>
    match c with
    | Call.Create t _ _ => t = tab
    | Call.FindByID t _ _ => t = tab
    | Call.FindByPaymentIntent t _ _ => t = tab
    | Call.UpdateStatus t _ _ _ => t = tab
    | Call.FindByColumn t _ _ _ => t = tab
    | _ => false)

/-- The calls issued on provider adapters. -/
def providerCalls (trace : List Call) : List Call :=
  trace.filter (fun c =>
    match c with
    | Call.ProcCreatePaymentIntent _ _ _ => true
    | Call.ProcGetPaymentIntent _ _ _ => true
    | Call.ProcChargeClient _ _ _ => true
    | Call.ProcParseWebhook _ _ _ _ => true
    | _ => false)

/-! ## Package repository -/

namespace repository

/-- The text of a statement sent to the database, kept in structured form: the
parts the Go code joins into the query string. `Sql.text` gives the string. -/
inductive Sql where
  /-- The statement `INSERT INTO table (fields) VALUES (params)`. -/
  | Insert (table : String) (fields : List String) (params : List String)
  /-- The statement `UPDATE table SET column = $1, updated_at = NOW() WHERE conditions`, the
  conditions joined by AND. A condition `(field, pos)` reads `field = $pos`. -/
  | Update (table : String) (column : String) (conditions : List (String × Nat))
  /-- The statement `SELECT columns FROM table WHERE conditions [ORDER BY created_at DESC]`. A
  condition `(column, op, pos)` reads `column op $pos`. -/
  | Select (columns : List String) (table : String) (conditions : List (String × String × Nat))
      (newestFirst : Bool)
  deriving DecidableEq, Repr

/-- Go `fmt.Sprintf("%s = $%d", field, pos)`. -/
def conditionText (c : String × Nat) : String :=
  c.1 ++ " = $" ++ toString c.2

/-- The query string, up to the layout of white space in the SELECT literals. -/
def Sql.text : Sql → String
  | Sql.Insert table fields params =>
    "\n        INSERT INTO " ++ table ++ " (" ++ ", ".intercalate fields ++
      ")\n        VALUES (" ++ ", ".intercalate params ++ ")"
  | Sql.Update table column conditions =>
    "UPDATE " ++ table ++ " SET " ++ column ++ " = $1, updated_at = NOW()" ++ " WHERE " ++
      " AND ".intercalate (conditions.map conditionText)
  | Sql.Select columns table conditions newestFirst =>
    "SELECT " ++ ", ".intercalate columns ++ " FROM " ++ table ++ " WHERE " ++
      " AND ".intercalate (conditions.map (fun c => c.1 ++ " " ++ c.2.1 ++ " $" ++ toString c.2.2))
      ++ (if newestFirst then " ORDER BY created_at DESC" else "")

/-- The database handle the repositories hold (Go interface `DB`, implemented
by the pgx pool), over the world state `σ`.

* `Exec` returns the number of rows affected.
* `QueryRow` stands for `QueryRow(...).Scan(...)`: it returns the column values
  of the first row, or the error `Scan` reports when there is none.
* `Query` returns the column values of every row, in order; a failure while
  iterating the rows counts as a failure of the query.
* `IsErrNoRows err` is Go `errors.Is(err, sql.ErrNoRows)`.

The method `CopyFrom` is not used by the repositories; `Begin` is used by
`WithTransaction` alone and is handed to it as an argument of its own. -/
structure DB (σ : Type) where
  Exec : Context → Sql → List Any → σ → Except Error Nat × σ
  QueryRow : Context → Sql → List Any → σ → Except Error (List Any) × σ
  Query : Context → Sql → List Any → σ → Except Error (List (List Any)) × σ
  IsErrNoRows : Error → Bool

/-- The variables `fields`, `values`, `params` and `pos` of the two `Create`
methods. -/
structure InsertBuilder where
  fields : List String
  values : List Any
  params : List String
  pos : Nat
  deriving DecidableEq, Repr

/-- The initial values: three empty slices and `pos = 1`. -/
def InsertBuilder.init : InsertBuilder :=
  { fields := [], values := [], params := [], pos := 1 }

/-- The four statements that append one column:
`fields = append(fields, field)`, `values = append(values, value)`,
`params = append(params, fmt.Sprintf("$%d", pos))`, `pos++`. -/
def InsertBuilder.add (b : InsertBuilder) (field : String) (value : Any) : InsertBuilder :=
  { fields := b.fields ++ [field], values := b.values ++ [value],
    params := b.params ++ ["$" ++ toString b.pos], pos := b.pos + 1 }

/-- Append the column when `present` holds. -/
def InsertBuilder.addIf (b : InsertBuilder) (present : Bool) (field : String) (value : Any) :
    InsertBuilder :=
  if present then b.add field value else b

/-- Go `if err != nil { return nil, fmt.Errorf(msg + ": %w", err) }` around a result. -/
def wrapError {α : Type} (msg : String) : Except Error α → Except Error α
  | .ok a => .ok a
  | .error err => .error (msg ++ ": " ++ err)

/-! ### TransactionRepository -/

structure TransactionRepository (σ : Type) where
  db : DB σ

def NewTransactionRepository {σ : Type} (pool : DB σ) : TransactionRepository σ :=
  { db := pool }

/-- The column lists built by `TransactionRepository.Create` for a record. -/
def TransactionRepository.insertBuilder (tx : model.Transaction) : InsertBuilder :=
  let b := InsertBuilder.init
  let b := b.add "amount" (Any.int tx.Amount)
  let b := b.add "currency" (Any.str tx.Currency)
  let b := b.add "customer_id" (Any.str tx.CustomerID)
  let b := b.add "tx_status" (Any.str tx.TxStatus)
  let b := b.addIf (tx.ID != "") "id" (Any.str tx.ID)
  let b := b.addIf (tx.InternalReference != "") "internal_reference" (Any.str tx.InternalReference)
  let b := b.addIf (tx.PaymentIntentID != "") "payment_intent_id" (Any.str tx.PaymentIntentID)
  let b := match tx.SavePaymentMethod with
    | some v => b.add "save_payment_method" (Any.bool v)
    | none => b
  let b := match tx.Metadata with
    | some m => b.add "metadata" (Any.strMap m)
    | none => b
  b

def TransactionRepository.Create {σ : Type} (r : TransactionRepository σ) (ctx : Context)
    (tx : model.Transaction) (w : σ) : Except Error Unit × σ :=
  let b := TransactionRepository.insertBuilder tx
  let query := Sql.Insert "transactions" b.fields b.params
  match r.db.Exec ctx query b.values w with
  | (.error err, w) => (.error err, w)
  | (.ok _, w) => (.ok (), w)

/-- The `Scan` into the ten destinations of `FindByID` and `FindByStatus`: id,
internal reference, amount, currency, payment intent id, status, customer id,
created at, updated at, metadata. -/
def TransactionRepository.scan10 : List Any → Except Error model.Transaction
  | [Any.str id, Any.str ref, Any.int amount, Any.str currency, Any.str intent, Any.str status,
      Any.str customer, Any.time created, Any.time updated, metadata] =>
    match metadata with
    | Any.strMap m =>
      .ok { model.Transaction.zero with
            ID := id, InternalReference := ref, Amount := amount, Currency := currency,
            PaymentIntentID := intent, TxStatus := status, CustomerID := customer,
            CreatedAt := created, UpdatedAt := updated, Metadata := some m }
    | Any.null =>
      .ok { model.Transaction.zero with
            ID := id, InternalReference := ref, Amount := amount, Currency := currency,
            PaymentIntentID := intent, TxStatus := status, CustomerID := customer,
            CreatedAt := created, UpdatedAt := updated, Metadata := none }
    | _ => .error "cannot scan into dest"
  | _ => .error "cannot scan into dest"

/-- The `Scan` into the eleven destinations of `FindByPaymentIntent` and
`FindByColumn`: as `scan10`, with the save-payment-method flag after the
customer id. -/
def TransactionRepository.scan11 : List Any → Except Error model.Transaction
  | [id, ref, amount, currency, intent, status, customer, save, created, updated, metadata] =>
    match TransactionRepository.scan10
        [id, ref, amount, currency, intent, status, customer, created, updated, metadata] with
    | .error err => .error err
    | .ok tx =>
      match save with
      | Any.bool v => .ok { tx with SavePaymentMethod := some v }
      | Any.null => .ok { tx with SavePaymentMethod := none }
      | _ => .error "cannot scan into dest"
  | _ => .error "cannot scan into dest"

/-- The `rows.Next()` loop: scan every row, returning `msg: err` at the first row
whose scan fails with `err`. -/
def scanRows (msg : String) (scan : List Any → Except Error model.Transaction) :
    List (List Any) → Except Error (List model.Transaction)
  | [] => .ok []
  | row :: rest =>
    match scan row with
    | .error err => .error (msg ++ ": " ++ err)
    | .ok tx =>
      match scanRows msg scan rest with
      | .error err => .error err
      | .ok txs => .ok (tx :: txs)

def TransactionRepository.FindByID {σ : Type} (r : TransactionRepository σ) (ctx : Context)
    (id : String) (w : σ) : Except Error model.Transaction × σ :=
  let sql := Sql.Select ["*"] "transactions" [("id", "=", 1)] false
  match r.db.QueryRow ctx sql [Any.str id] w with
  | (.error err, w) => (.error ("error getting transaction: " ++ err), w)
  | (.ok row, w) => (wrapError "error getting transaction" (TransactionRepository.scan10 row), w)

/-- The column list of `FindByPaymentIntent` and `FindByColumn`. -/
def TransactionRepository.columns : List String :=
  ["id", "internal_reference", "amount", "currency", "payment_intent_id", "tx_status",
   "customer_id", "save_payment_method", "created_at", "updated_at", "metadata"]

/-- The lookup by payment intent id. The line it writes to the log on success is
not part of the result and is left out. -/
def TransactionRepository.FindByPaymentIntent {σ : Type} (r : TransactionRepository σ)
    (ctx : Context) (id : String) (w : σ) : Except Error model.Transaction × σ :=
  let sql := Sql.Select TransactionRepository.columns "transactions"
    [("payment_intent_id", "=", 1)] false
  match r.db.QueryRow ctx sql [Any.str id] w with
  | (.error err, w) => (.error ("error getting transaction: " ++ err), w)
  | (.ok row, w) => (wrapError "error getting transaction" (TransactionRepository.scan11 row), w)

def TransactionRepository.FindByStatus {σ : Type} (r : TransactionRepository σ) (ctx : Context)
    (status : String) (since : Nat) (w : σ) : Except Error (List model.Transaction) × σ :=
  let sql := Sql.Select
    ["id", "internal_reference", "amount", "currency", "payment_intent_id", "status",
     "customer_id", "created_at", "updated_at", "metadata"]
    "transactions" [("tx_status", "=", 1), ("created_at", ">=", 2)] true
  match r.db.Query ctx sql [Any.str status, Any.time since] w with
  | (.error err, w) => (.error ("error querying transactions by status: " ++ err), w)
  | (.ok rows, w) => (scanRows "error scanning transaction" TransactionRepository.scan10 rows, w)

/-- The filter loop of `UpdateStatus`: one condition and one argument per
filter entry, positions counting up from `pos`. -/
def updateConditions : List (String × Any) → Nat → List (String × Nat) × List Any
  | [], _ => ([], [])
  | (field, value) :: rest, pos =>
    let r := updateConditions rest (pos + 1)
    ((field, pos) :: r.1, value :: r.2)

def TransactionRepository.UpdateStatus {σ : Type} (r : TransactionRepository σ) (ctx : Context)
    (status : String) (filters : List (String × Any)) (w : σ) : Except Error Unit × σ :=
  if filters.length > 0 then
    let c := updateConditions filters 2
    let query := Sql.Update "transactions" "tx_status" c.1
    let args := Any.str status :: c.2
    match r.db.Exec ctx query args w with
    | (.error err, w) => (.error ("failed to update transaction status: " ++ err), w)
    | (.ok rowsAffected, w) =>
      if rowsAffected = 0 then (.error "no matching transaction found", w)
      else (.ok (), w)
  else (.error "at least one filter condition is required", w)

/-- The column allow-list of `TransactionRepository.FindByColumn`. -/
def TransactionRepository.validColumns : List String :=
  ["id", "internal_reference", "amount", "currency", "payment_intent_id", "tx_status",
   "customer_id", "save_payment_method", "created_at", "updated_at", "metadata"]

def TransactionRepository.FindByColumn {σ : Type} (r : TransactionRepository σ) (ctx : Context)
    (column : String) (value : Any) (w : σ) : Except Error (List model.Transaction) × σ :=
  if ¬ (column ∈ TransactionRepository.validColumns) then
    (.error ("invalid column name: " ++ column), w)
  else
    let sql := Sql.Select TransactionRepository.columns "transactions" [(column, "=", 1)] true
    match r.db.Query ctx sql [value] w with
    | (.error err, w) => (.error ("error querying transactions by " ++ column ++ ": " ++ err), w)
    | (.ok rows, w) => (scanRows "error scanning transaction" TransactionRepository.scan11 rows, w)

/-- The repository as a value of the interface `ITransactionRepository`. -/
def TransactionRepository.asRepository {σ : Type} (r : TransactionRepository σ) :
    ports.ITransactionRepository σ :=
  { Create := r.Create, FindByID := r.FindByID, FindByPaymentIntent := r.FindByPaymentIntent,
    FindByStatus := r.FindByStatus, UpdateStatus := r.UpdateStatus,
    FindByColumn := r.FindByColumn }

/-! ### PaymentMethodRepository -/

structure PaymentMethodRepository (σ : Type) where
  db : DB σ

def NewPaymentMethodRepository {σ : Type} (pool : DB σ) : PaymentMethodRepository σ :=
  { db := pool }

/-- The column lists built by `PaymentMethodRepository.Create` for a record. -/
def PaymentMethodRepository.insertBuilder (tx : model.Transaction) : InsertBuilder :=
  let b := InsertBuilder.init
  let b := b.add "customer_id" (Any.str tx.CustomerID)
  let b := b.add "payment_method_id" (Any.str tx.PaymentMethodID)
  let b := b.add "pm_provider" (Any.str tx.PaymentProvider)
  let b := b.addIf (tx.PaymentMethodType != "") "method_type" (Any.str tx.PaymentMethodType)
  let b := b.addIf (tx.PaymentMethodStatus != "") "pm_status" (Any.str tx.PaymentMethodStatus)
  b

def PaymentMethodRepository.Create {σ : Type} (r : PaymentMethodRepository σ) (ctx : Context)
    (tx : model.Transaction) (w : σ) : Except Error Unit × σ :=
  let b := PaymentMethodRepository.insertBuilder tx
  let query := Sql.Insert "payment_methods" b.fields b.params
  match r.db.Exec ctx query b.values w with
  | (.error err, w) => (.error err, w)
  | (.ok _, w) => (.ok (), w)

/-- The `Scan` into the five string destinations customer id, payment method id,
provider, method type, status. -/
def PaymentMethodRepository.scan5 : List Any → Except Error model.Transaction
  | [Any.str customer, Any.str method, Any.str provider, Any.str methodType, Any.str status] =>
    .ok { model.Transaction.zero with
          CustomerID := customer, PaymentMethodID := method, PaymentProvider := provider,
          PaymentMethodType := methodType, PaymentMethodStatus := status }
  | _ => .error "cannot scan into dest"

/-- The column list of `FindByID` and `FindByColumn`. -/
def PaymentMethodRepository.columns : List String :=
  ["customer_id", "payment_method_id", "pm_provider", "method_type", "pm_status"]

/-- The error returned by `FindByID` for the error `err` of the row scan. -/
def PaymentMethodRepository.findError {σ : Type} (r : PaymentMethodRepository σ) (err : Error) :
    Error :=
  if r.db.IsErrNoRows err then "Not found: " ++ err else "error getting payment Method: " ++ err

def PaymentMethodRepository.FindByID {σ : Type} (r : PaymentMethodRepository σ) (ctx : Context)
    (id : String) (w : σ) : Except Error model.Transaction × σ :=
  let rawsql := Sql.Select PaymentMethodRepository.columns "payment_methods"
    [("payment_method_id", "=", 1)] false
  match r.db.QueryRow ctx rawsql [Any.str id] w with
  | (.error err, w) => (.error (r.findError err), w)
  | (.ok row, w) =>
    match PaymentMethodRepository.scan5 row with
    | .error err => (.error (r.findError err), w)
    | .ok tx => (.ok tx, w)

def PaymentMethodRepository.FindByPaymentIntent {σ : Type} (_r : PaymentMethodRepository σ)
    (_ctx : Context) (_id : String) (w : σ) : Except Error model.Transaction × σ :=
  (.ok model.Transaction.zero, w)

def PaymentMethodRepository.FindByStatus {σ : Type} (r : PaymentMethodRepository σ)
    (ctx : Context) (status : String) (since : Nat) (w : σ) :
    Except Error (List model.Transaction) × σ :=
  let rawsql := Sql.Select
    ["customer_id", "payment_method_id", "pm_provider", "method_type", "pm_status",
     "created_at", "updated_at"]
    "payment_methods" [("pm_status", "=", 1), ("created_at", ">=", 2)] true
  match r.db.Query ctx rawsql [Any.str status, Any.time since] w with
  | (.error err, w) => (.error ("error querying payment_methods by status: " ++ err), w)
  | (.ok rows, w) =>
    (scanRows "error scanning payment method" PaymentMethodRepository.scan5 rows, w)

def PaymentMethodRepository.UpdateStatus {σ : Type} (r : PaymentMethodRepository σ)
    (ctx : Context) (status : String) (filters : List (String × Any)) (w : σ) :
    Except Error Unit × σ :=
  if filters.length > 0 then
    let c := updateConditions filters 2
    let query := Sql.Update "payment_methods" "pm_status" c.1
    let args := Any.str status :: c.2
    match r.db.Exec ctx query args w with
    | (.error err, w) => (.error ("failed to update payment method status: " ++ err), w)
    | (.ok rowsAffected, w) =>
      if rowsAffected = 0 then (.error "no matching payment method found", w)
      else (.ok (), w)
  else (.error "at least one filter condition is required", w)

/-- The column allow-list of `PaymentMethodRepository.FindByColumn`. -/
def PaymentMethodRepository.validColumns : List String :=
  ["customer_id", "payment_method_id", "pm_provider", "method_type", "pm_status",
   "created_at", "updated_at"]

def PaymentMethodRepository.FindByColumn {σ : Type} (r : PaymentMethodRepository σ)
    (ctx : Context) (column : String) (value : Any) (w : σ) :
    Except Error (List model.Transaction) × σ :=
  if ¬ (column ∈ PaymentMethodRepository.validColumns) then
    (.error ("invalid column name: " ++ column), w)
  else
    let sql := Sql.Select PaymentMethodRepository.columns "payment_methods" [(column, "=", 1)] true
    match r.db.Query ctx sql [value] w with
    | (.error err, w) => (.error ("error querying payment method by " ++ column ++ ": " ++ err), w)
    | (.ok rows, w) =>
      (scanRows "error scanning payment method" PaymentMethodRepository.scan5 rows, w)

/-- The repository as a value of the interface `ITransactionRepository`. -/
def PaymentMethodRepository.asRepository {σ : Type} (r : PaymentMethodRepository σ) :
    ports.ITransactionRepository σ :=
  { Create := r.Create, FindByID := r.FindByID, FindByPaymentIntent := r.FindByPaymentIntent,
    FindByStatus := r.FindByStatus, UpdateStatus := r.UpdateStatus,
    FindByColumn := r.FindByColumn }

end repository

/-! ## The database

An executable stand-in for the PostgreSQL server behind the pgx pool: two
tables of rows and the effect of the three statement shapes on them. -/

namespace postgres

/-- Modelled from the spec: the database, whose schema is not part of the
sources. The rows of the tables `transactions` and `payment_methods` (section 6
of the spec lists their columns), oldest first, and the clock read by `NOW()`.
A row is kept in the record shape the repositories scan it into. -/
structure Store where
  transactions : List model.Transaction
  payment_methods : List model.Transaction
  now : Nat
  deriving DecidableEq, Repr

/-- A nullable boolean column value. -/
def ofBool : Option Bool → Any
  | some b => Any.bool b
  | none => Any.null

/-- A nullable JSON column value. -/
def ofMetadata : model.Metadata → Any
  | some m => Any.strMap m
  | none => Any.null

/-- Modelled from the spec: the columns of table `transactions` (section 6). -/
def transactionColumns : List String :=
  ["id", "internal_reference", "amount", "currency", "payment_intent_id", "tx_status",
   "customer_id", "save_payment_method", "created_at", "updated_at", "metadata"]

/-- Modelled from the spec: the columns of table `payment_methods` (section 6). -/
def paymentMethodColumns : List String :=
  ["customer_id", "payment_method_id", "pm_provider", "method_type", "pm_status",
   "created_at", "updated_at"]

/-- The value of a column of a `transactions` row. -/
def transactionValue (column : String) (r : model.Transaction) : Any :=
  if column = "id" then Any.str r.ID
  else if column = "internal_reference" then Any.str r.InternalReference
  else if column = "amount" then Any.int r.Amount
  else if column = "currency" then Any.str r.Currency
  else if column = "payment_intent_id" then Any.str r.PaymentIntentID
  else if column = "tx_status" then Any.str r.TxStatus
  else if column = "customer_id" then Any.str r.CustomerID
  else if column = "save_payment_method" then ofBool r.SavePaymentMethod
  else if column = "created_at" then Any.time r.CreatedAt
  else if column = "updated_at" then Any.time r.UpdatedAt
  else if column = "metadata" then ofMetadata r.Metadata
  else Any.null

/-- The value of a column of a `payment_methods` row. -/
def paymentMethodValue (column : String) (r : model.Transaction) : Any :=
  if column = "customer_id" then Any.str r.CustomerID
  else if column = "payment_method_id" then Any.str r.PaymentMethodID
  else if column = "pm_provider" then Any.str r.PaymentProvider
  else if column = "method_type" then Any.str r.PaymentMethodType
  else if column = "pm_status" then Any.str r.PaymentMethodStatus
  else if column = "created_at" then Any.time r.CreatedAt
  else if column = "updated_at" then Any.time r.UpdatedAt
  else Any.null

/-- Store a value in a column of a `transactions` row; `none` when the column
does not exist or the value has the wrong type. -/
def setTransactionValue (r : model.Transaction) (column : String) (v : Any) :
    Option model.Transaction :=
  if column = "id" then
    match v with
    | Any.str s => some { r with ID := s }
    | _ => none
  else if column = "internal_reference" then
    match v with
    | Any.str s => some { r with InternalReference := s }
    | _ => none
  else if column = "amount" then
    match v with
    | Any.int i => some { r with Amount := i }
    | _ => none
  else if column = "currency" then
    match v with
    | Any.str s => some { r with Currency := s }
    | _ => none
  else if column = "payment_intent_id" then
    match v with
    | Any.str s => some { r with PaymentIntentID := s }
    | _ => none
  else if column = "tx_status" then
    match v with
    | Any.str s => some { r with TxStatus := s }
    | _ => none
  else if column = "customer_id" then
    match v with
    | Any.str s => some { r with CustomerID := s }
    | _ => none
  else if column = "save_payment_method" then
    match v with
    | Any.bool b => some { r with SavePaymentMethod := some b }
    | Any.null => some { r with SavePaymentMethod := none }
    | _ => none
  else if column = "created_at" then
    match v with
    | Any.time t => some { r with CreatedAt := t }
    | _ => none
  else if column = "updated_at" then
    match v with
    | Any.time t => some { r with UpdatedAt := t }
    | _ => none
  else if column = "metadata" then
    match v with
    | Any.strMap m => some { r with Metadata := some m }
    | Any.null => some { r with Metadata := none }
    | _ => none
  else none

/-- Store a value in a column of a `payment_methods` row; `none` when the column
does not exist or the value has the wrong type. -/
def setPaymentMethodValue (r : model.Transaction) (column : String) (v : Any) :
    Option model.Transaction :=
  if column = "customer_id" then
    match v with
    | Any.str s => some { r with CustomerID := s }
    | _ => none
  else if column = "payment_method_id" then
    match v with
    | Any.str s => some { r with PaymentMethodID := s }
    | _ => none
  else if column = "pm_provider" then
    match v with
    | Any.str s => some { r with PaymentProvider := s }
    | _ => none
  else if column = "method_type" then
    match v with
    | Any.str s => some { r with PaymentMethodType := s }
    | _ => none
  else if column = "pm_status" then
    match v with
    | Any.str s => some { r with PaymentMethodStatus := s }
    | _ => none
  else if column = "created_at" then
    match v with
    | Any.time t => some { r with CreatedAt := t }
    | _ => none
  else if column = "updated_at" then
    match v with
    | Any.time t => some { r with UpdatedAt := t }
    | _ => none
  else none

/-- Fill a new row from the column list and the argument list of an INSERT. -/
def fillRow (set : model.Transaction → String → Any → Option model.Transaction) :
    model.Transaction → List String → List Any → Option model.Transaction
  | r, [], [] => some r
  | r, field :: fields, v :: values =>
    match set r field v with
    | some r2 => fillRow set r2 fields values
    | none => none
  | _, _, _ => none

/-- Modelled from the spec: the column defaults of a new `transactions` row.
The timestamps default to `NOW()`; every other omitted column reads back as the
zero value of its Go field. -/
def newTransactionRow (now : Nat) : model.Transaction :=
  { model.Transaction.zero with CreatedAt := now, UpdatedAt := now }

/-- Modelled from the spec: the column defaults of a new `payment_methods` row:
status "active" (section 3), timestamps `NOW()`. -/
def newPaymentMethodRow (now : Nat) : model.Transaction :=
  { model.Transaction.zero with PaymentMethodStatus := "active", CreatedAt := now,
                                UpdatedAt := now }

/-- The comparison `value op argument` of a WHERE clause. A comparison with
NULL, or of values of different types, does not hold. -/
def compare (op : String) (value argument : Any) : Bool :=
  if op = "=" then value ≠ Any.null ∧ value = argument
  else if op = ">=" then
    match value, argument with
    | Any.time a, Any.time b => b ≤ a
    | Any.int a, Any.int b => b ≤ a
    | _, _ => false
  else false

/-- The row satisfies every condition `column op $pos` of the WHERE clause. -/
def rowMatches (valueOf : String → model.Transaction → Any)
    (conditions : List (String × String × Nat)) (args : List Any) (r : model.Transaction) : Bool :=
  conditions.all (fun c =>
    match args.get? (c.2.2 - 1) with
    | some a => compare c.2.1 (valueOf c.1 r) a
    | none => false)

/-- The statement refers to existing columns and supplied parameters only. -/
def wellFormed (columns : List String) (conditions : List (String × String × Nat))
    (args : List Any) : Bool :=
  conditions.all (fun c => decide (c.1 ∈ columns) && decide (1 ≤ c.2.2) && decide (c.2.2 ≤ args.length))

/-- Insert a row into a list sorted by creation time, newest first, after the
rows that are at least as new. -/
def insertNewestFirst (r : model.Transaction) : List model.Transaction → List model.Transaction
  | [] => [r]
  | x :: xs => if r.CreatedAt ≤ x.CreatedAt then x :: insertNewestFirst r xs else r :: x :: xs

/-- The clause `ORDER BY created_at DESC`. -/
def newestFirst (rows : List model.Transaction) : List model.Transaction :=
  rows.foldr insertNewestFirst []

/-- The conditions of an UPDATE as conditions of a WHERE clause. -/
def equalities (conditions : List (String × Nat)) : List (String × String × Nat) :=
  conditions.map (fun c => (c.1, "=", c.2))

/-- The statement `UPDATE ... SET status = $1, updated_at = NOW() WHERE ...` on the rows of one
table: the new rows and the number of rows affected. -/
def updateRows (valueOf : String → model.Transaction → Any)
    (setStatus : model.Transaction → String → model.Transaction)
    (conditions : List (String × Nat)) (args : List Any) (status : String)
    (rows : List model.Transaction) : List model.Transaction × Nat :=
  (rows.map (fun r => if rowMatches valueOf (equalities conditions) args r
      then setStatus r status else r),
   rows.countP (fun r => rowMatches valueOf (equalities conditions) args r))

/-- Modelled from the spec: the effect of `Exec` on the database. -/
def Exec (_ctx : Context) (sql : repository.Sql) (args : List Any) (w : Store) :
    Except Error Nat × Store :=
  match sql with
  | repository.Sql.Insert table fields _ =>
    if table = "transactions" then
      match fillRow setTransactionValue (newTransactionRow w.now) fields args with
      | some row => (.ok 1, { w with transactions := w.transactions ++ [row] })
      | none => (.error "invalid insert into transactions", w)
    else if table = "payment_methods" then
      match fillRow setPaymentMethodValue (newPaymentMethodRow w.now) fields args with
      | some row => (.ok 1, { w with payment_methods := w.payment_methods ++ [row] })
      | none => (.error "invalid insert into payment_methods", w)
    else (.error ("relation " ++ table ++ " does not exist"), w)
  | repository.Sql.Update table column conditions =>
    match args with
    | Any.str status :: _ =>
      if table = "transactions" ∧ column = "tx_status" then
        if wellFormed transactionColumns (equalities conditions) args then
          let r := updateRows transactionValue
            (fun r s => { r with TxStatus := s, UpdatedAt := w.now }) conditions args status
            w.transactions
          (.ok r.2, { w with transactions := r.1 })
        else (.error "invalid update of transactions", w)
      else if table = "payment_methods" ∧ column = "pm_status" then
        if wellFormed paymentMethodColumns (equalities conditions) args then
          let r := updateRows paymentMethodValue
            (fun r s => { r with PaymentMethodStatus := s, UpdatedAt := w.now }) conditions args
            status w.payment_methods
          (.ok r.2, { w with payment_methods := r.1 })
        else (.error "invalid update of payment_methods", w)
      else (.error ("cannot update " ++ table), w)
    | _ => (.error "invalid status parameter", w)
  | repository.Sql.Select _ _ _ _ => (.error "not a command", w)

/-- Modelled from the spec: the rows a SELECT returns, as lists of column
values; the column list `*` stands for every column of the table. -/
def selectRows (sql : repository.Sql) (args : List Any) (w : Store) :
    Except Error (List (List Any)) :=
  match sql with
  | repository.Sql.Select columns table conditions newest =>
    if table = "transactions" then
      let columns := if columns = ["*"] then transactionColumns else columns
      if columns.all (fun c => decide (c ∈ transactionColumns)) &&
          wellFormed transactionColumns conditions args then
        let rows := w.transactions.filter (rowMatches transactionValue conditions args)
        let rows := if newest then newestFirst rows else rows
        .ok (rows.map (fun r => columns.map (fun c => transactionValue c r)))
      else .error "invalid select from transactions"
    else if table = "payment_methods" then
      let columns := if columns = ["*"] then paymentMethodColumns else columns
      if columns.all (fun c => decide (c ∈ paymentMethodColumns)) &&
          wellFormed paymentMethodColumns conditions args then
        let rows := w.payment_methods.filter (rowMatches paymentMethodValue conditions args)
        let rows := if newest then newestFirst rows else rows
        .ok (rows.map (fun r => columns.map (fun c => paymentMethodValue c r)))
      else .error "invalid select from payment_methods"
    else .error ("relation " ++ table ++ " does not exist")
  | _ => .error "not a query"

def Query (_ctx : Context) (sql : repository.Sql) (args : List Any) (w : Store) :
    Except Error (List (List Any)) × Store :=
  (selectRows sql args w, w)

def QueryRow (_ctx : Context) (sql : repository.Sql) (args : List Any) (w : Store) :
    Except Error (List Any) × Store :=
  match selectRows sql args w with
  | .error err => (.error err, w)
  | .ok [] => (.error "no rows in result set", w)
  | .ok (row :: _) => (.ok row, w)

/-- The connection pool of `config.InitPostgresPool`, as a database handle. -/
def pool : repository.DB Store :=
  { Exec := Exec, QueryRow := QueryRow, Query := Query,
    IsErrNoRows := fun err => err = "no rows in result set" }

/-- A handle whose connection is lost: every call fails and changes nothing. -/
def unreachable : repository.DB Store :=
  { Exec := fun _ _ _ w => (.error "connection refused", w),
    QueryRow := fun _ _ _ w => (.error "connection refused", w),
    Query := fun _ _ _ w => (.error "connection refused", w),
    IsErrNoRows := fun _ => false }

end postgres

/-! ## Package service -/

namespace service

structure PaymentService (σ : Type) where
  providerRegistry : core.ProviderRegistry σ
  repositoryRegistry : core.RepositoryRegistry σ

def NewPaymentService {σ : Type} (providerRegistry : core.ProviderRegistry σ)
    (repositoryRegistry : core.RepositoryRegistry σ) : PaymentService σ :=
  { providerRegistry := providerRegistry, repositoryRegistry := repositoryRegistry }

/-- The transaction record built by `CreatePaymentIntent`. -/
def CreatePaymentIntent.newPi (pi_response : model.PaymentProcessorResponse)
    (req : model.PaymentIntentRequest) : model.Transaction :=
  { model.Transaction.zero with
    Amount := pi_response.Amount
    Currency := pi_response.Currency
    PaymentIntentID := pi_response.ID
    TxStatus := ports.Pending
    CustomerID := req.CustomerID
    SavePaymentMethod := req.RememberMe }

/-- The response built from a provider answer (same in every operation). -/
def intentResponse (res : model.PaymentProcessorResponse) : model.PaymentIntentResponse :=
  { ID := res.ID, Amount := res.Amount, Currency := res.Currency, Status := res.Status,
    ClientSecret := res.ClientSecret }

def PaymentService.CreatePaymentIntent {σ : Type} (s : PaymentService σ) (ctx : Context)
    (provider : model.PaymentProvider) (req : model.PaymentIntentRequest) (w : σ) :
    Run σ (Except Error model.PaymentIntentResponse) :=
  match s.providerRegistry.Get provider with
  | .error err => Run.done (.error err) w
  | .ok processor =>
  match s.repositoryRegistry.Get core.TransactionRepo with
  | .error err => Run.done (.error err) w
  | .ok transaction =>
  let ctx := ctx.WithTimeout 2
  Run.after (.ProcCreatePaymentIntent provider ctx req) <|
  match processor.CreatePaymentIntent ctx req w with
  | (.error err, w) => Run.done (.error err) w
  | (.ok pi_response, w) =>
  let newPi := CreatePaymentIntent.newPi pi_response req
  Run.after (.Create core.TransactionRepo ctx newPi) <|
  match transaction.Create ctx newPi w with
  | (.error err, w) => Run.done (.error err) w
  | (.ok _, w) => Run.done (.ok (intentResponse pi_response)) w

/-- The transaction record built by `ChargeClient`. -/
def ChargeClient.newPi (res : model.PaymentProcessorResponse)
    (req : model.PaymentIntentRequest) : model.Transaction :=
  { model.Transaction.zero with
    Amount := res.Amount
    Currency := res.Currency
    PaymentIntentID := res.ID
    TxStatus := ports.PaymentSucceeded
    CustomerID := req.CustomerID
    SavePaymentMethod := req.RememberMe }

/-- The payment-method record built by `ChargeClient` and by `ParseWebhook`. -/
def newPm (customerID paymentMethodID : String) (provider : model.PaymentProvider) :
    model.Transaction :=
  { model.Transaction.zero with
    CustomerID := customerID
    PaymentMethodID := paymentMethodID
    PaymentMethodStatus := ports.PaymentMethodStatus
    PaymentProvider := provider }

def PaymentService.ChargeClient {σ : Type} (s : PaymentService σ) (ctx : Context)
    (provider : model.PaymentProvider) (req : model.PaymentIntentRequest) (w : σ) :
    Run σ (Except Error model.PaymentIntentResponse) :=
  match s.providerRegistry.Get provider with
  | .error err => Run.done (.error err) w
  | .ok processor =>
  match s.repositoryRegistry.Get core.TransactionRepo with
  | .error err => Run.done (.error err) w
  | .ok transaction =>
  match s.repositoryRegistry.Get core.PaymentRepo with
  | .error err => Run.done (.error err) w
  | .ok payment_method =>
  let ctx := ctx.WithTimeout 2
  Run.after (.ProcChargeClient provider ctx req) <|
  match processor.ChargeClient ctx req w with
  | (.error err, w) => Run.done (.error err) w
  | (.ok res, w) =>
  let newPi := ChargeClient.newPi res req
  Run.after (.Create core.TransactionRepo ctx newPi) <|
  match transaction.Create ctx newPi w with
  | (.error err, w) => Run.done (.error err) w
  | (.ok _, w) =>
  if req.RememberMe = some true then
    Run.after (.FindByID core.PaymentRepo ctx res.PaymentMethodID) <|
    match payment_method.FindByID ctx res.PaymentMethodID w with
    | (.ok _, w) => Run.done (.ok (intentResponse res)) w
    | (.error err, w) =>
      Run.after (.Log ("error: " ++ err)) <|
      let newPm := newPm req.CustomerID res.PaymentMethodID provider
      Run.after (.Create core.PaymentRepo ctx newPm) <|
      match payment_method.Create ctx newPm w with
      | (.error err, w) =>
        Run.after (.Log ("Saving payment method--Event: " ++ err)) <|
        Run.done (.ok (intentResponse res)) w
      | (.ok _, w) => Run.done (.ok (intentResponse res)) w
  else Run.done (.ok (intentResponse res)) w

def PaymentService.GetPaymentIntent {σ : Type} (s : PaymentService σ) (ctx : Context)
    (provider : model.PaymentProvider) (id : String) (w : σ) :
    Run σ (Except Error model.PaymentIntentResponse) :=
  match s.providerRegistry.Get provider with
  | .error err => Run.done (.error err) w
  | .ok processor =>
  let ctx := ctx.WithTimeout 2
  Run.after (.ProcGetPaymentIntent provider ctx id) <|
  match processor.GetPaymentIntent ctx id w with
  | (.error err, w) => Run.done (.error err) w
  | (.ok pi_response, w) => Run.done (.ok (intentResponse pi_response)) w

/-- The filter map `{"payment_intent_id": event.PaymentIntent}` of `ParseWebhook`. -/
def intentFilter (event : model.PaymentEvent) : List (String × Any) :=
  [("payment_intent_id", Any.str event.PaymentIntent)]

def PaymentService.ParseWebhook {σ : Type} (s : PaymentService σ) (ctx : Context)
    (provider : model.PaymentProvider) (raw : List UInt8)
    (headers : List (String × List String)) (w : σ) :
    Run σ (Except Error model.PaymentEvent) :=
  match s.providerRegistry.Get provider with
  | .error err => Run.done (.error err) w
  | .ok processor =>
  match s.repositoryRegistry.Get core.TransactionRepo with
  | .error err => Run.done (.error err) w
  | .ok transaction =>
  match s.repositoryRegistry.Get core.PaymentRepo with
  | .error err => Run.done (.error err) w
  | .ok payment_method =>
  let ctx := ctx.WithTimeout 5
  Run.after (.ProcParseWebhook provider ctx raw headers) <|
  match processor.ParseWebhook ctx raw headers w with
  | (.error err, w) => Run.done (.error err) w
  | (.ok event, w) =>
  if event.Type_ = ports.PaymentSucceeded then
    Run.after (.UpdateStatus core.TransactionRepo ctx ports.PaymentSucceeded (intentFilter event)) <|
    match transaction.UpdateStatus ctx ports.PaymentSucceeded (intentFilter event) w with
    | (.error err, w) => Run.done (.error err) w
    | (.ok _, w) =>
    Run.after (.FindByPaymentIntent core.TransactionRepo ctx event.PaymentIntent) <|
    match transaction.FindByPaymentIntent ctx event.PaymentIntent w with
    | (.error err, w) => Run.done (.error ("Error while finding payment intent: " ++ err)) w
    | (.ok txdata, w) =>
    if txdata.SavePaymentMethod = some true then
      Run.after (.FindByID core.PaymentRepo ctx event.PaymentMethod) <|
      match payment_method.FindByID ctx event.PaymentMethod w with
      | (.ok _, w) => Run.done (.ok event) w
      | (.error _, w) =>
        let newPm := newPm txdata.CustomerID event.PaymentMethod provider
        Run.after (.Create core.PaymentRepo ctx newPm) <|
        match payment_method.Create ctx newPm w with
        | (.error err, w) =>
          Run.after (.Log ("Saving payment method--Event: " ++ err)) <|
          Run.done (.ok event) w
        | (.ok _, w) => Run.done (.ok event) w
    else Run.done (.ok event) w
  else if event.Type_ = ports.PaymentFailed then
    Run.after (.UpdateStatus core.TransactionRepo ctx ports.PaymentFailed (intentFilter event)) <|
    match transaction.UpdateStatus ctx ports.PaymentFailed (intentFilter event) w with
    | (.error err, w) => Run.done (.error err) w
    | (.ok _, w) => Run.done (.ok event) w
  else if event.Type_ = ports.PaymentCancelled then
    Run.after (.UpdateStatus core.TransactionRepo ctx ports.PaymentCancelled (intentFilter event)) <|
    match transaction.UpdateStatus ctx ports.PaymentCancelled (intentFilter event) w with
    | (.error err, w) => Run.done (.error err) w
    | (.ok _, w) => Run.done (.ok event) w
  else Run.done (.ok event) w

/-- The projection of a stored payment method in `GetUserPMethods`. -/
def paymentMethodResponse (pm : model.Transaction) : model.PaymentMethodResponse :=
  { ClientID := pm.CustomerID, PaymentMethodID := pm.PaymentMethodID,
    PaymentProvider := pm.PaymentProvider, PaymentMethodType := pm.PaymentMethodType,
    PaymentMethodStatus := pm.PaymentMethodStatus }

def PaymentService.GetUserPMethods {σ : Type} (s : PaymentService σ) (ctx : Context)
    (userId : String) (w : σ) : Run σ (Except Error (List model.PaymentMethodResponse)) :=
  match s.repositoryRegistry.Get core.PaymentRepo with
  | .error err => Run.done (.error err) w
  | .ok payment_method =>
  Run.after (.FindByColumn core.PaymentRepo ctx "customer_id" (Any.str userId)) <|
  match payment_method.FindByColumn ctx "customer_id" (Any.str userId) w with
  | (.error err, w) =>
    Run.after (.Log ("Error fetching payment methods: " ++ err)) <|
    Run.done (.error ("failed to get payment methods: " ++ err)) w
  | (.ok paymentMethods, w) => Run.done (.ok (paymentMethods.map paymentMethodResponse)) w

end service


/-! ## Parts of the operations

The blocks of the service operations that the proofs treat on their own. -/

section Parts

open model ports core service

/-- What `ChargeClient` does after the transaction record has been written: the
remember-me block and the response. -/
def chargeTail {σ : Type} (payment_method : ITransactionRepository σ) (ctx : Context)
    (provider : PaymentProvider) (req : PaymentIntentRequest) (res : PaymentProcessorResponse)
    (w : σ) : Run σ (Except Error PaymentIntentResponse) :=
  if req.RememberMe = some true then
    Run.after (.FindByID PaymentRepo ctx res.PaymentMethodID)
      (match payment_method.FindByID ctx res.PaymentMethodID w with
       | (.ok _, w) => Run.done (.ok (intentResponse res)) w
       | (.error err, w) =>
         Run.after (.Log ("error: " ++ err))
           (Run.after (.Create PaymentRepo ctx (newPm req.CustomerID res.PaymentMethodID provider))
             (match payment_method.Create ctx
                 (newPm req.CustomerID res.PaymentMethodID provider) w with
              | (.error err, w) =>
                Run.after (.Log ("Saving payment method--Event: " ++ err))
                  (Run.done (.ok (intentResponse res)) w)
              | (.ok _, w) => Run.done (.ok (intentResponse res)) w)))
  else Run.done (.ok (intentResponse res)) w

/-- The block of the succeeded branch of `ParseWebhook` that follows the status
update: the transaction lookup and the remember-me block. -/
def succeededTail {σ : Type} (transaction payment_method : ITransactionRepository σ)
    (ctx : Context) (provider : PaymentProvider) (event : PaymentEvent) (w : σ) :
    Run σ (Except Error PaymentEvent) :=
  Run.after (.FindByPaymentIntent TransactionRepo ctx event.PaymentIntent)
    (match transaction.FindByPaymentIntent ctx event.PaymentIntent w with
     | (.error err, w) => Run.done (.error ("Error while finding payment intent: " ++ err)) w
     | (.ok txdata, w) =>
       if txdata.SavePaymentMethod = some true then
         Run.after (.FindByID PaymentRepo ctx event.PaymentMethod)
           (match payment_method.FindByID ctx event.PaymentMethod w with
            | (.ok _, w) => Run.done (.ok event) w
            | (.error _, w) =>
              Run.after (.Create PaymentRepo ctx (newPm txdata.CustomerID event.PaymentMethod provider))
                (match payment_method.Create ctx
                    (newPm txdata.CustomerID event.PaymentMethod provider) w with
                 | (.error err, w) =>
                   Run.after (.Log ("Saving payment method--Event: " ++ err))
                     (Run.done (.ok event) w)
                 | (.ok _, w) => Run.done (.ok event) w))
       else Run.done (.ok event) w)

/-- The `switch event.Type` of `ParseWebhook` and the final return. -/
def dispatch {σ : Type} (transaction payment_method : ITransactionRepository σ)
    (ctx : Context) (provider : PaymentProvider) (event : PaymentEvent) (w : σ) :
    Run σ (Except Error PaymentEvent) :=
  if event.Type_ = PaymentSucceeded then
    Run.after (.UpdateStatus TransactionRepo ctx PaymentSucceeded (intentFilter event))
      (match transaction.UpdateStatus ctx PaymentSucceeded (intentFilter event) w with
       | (.error err, w) => Run.done (.error err) w
       | (.ok _, w) => succeededTail transaction payment_method ctx provider event w)
  else if event.Type_ = PaymentFailed then
    Run.after (.UpdateStatus TransactionRepo ctx PaymentFailed (intentFilter event))
      (match transaction.UpdateStatus ctx PaymentFailed (intentFilter event) w with
       | (.error err, w) => Run.done (.error err) w
       | (.ok _, w) => Run.done (.ok event) w)
  else if event.Type_ = PaymentCancelled then
    Run.after (.UpdateStatus TransactionRepo ctx PaymentCancelled (intentFilter event))
      (match transaction.UpdateStatus ctx PaymentCancelled (intentFilter event) w with
       | (.error err, w) => Run.done (.error err) w
       | (.ok _, w) => Run.done (.ok event) w)
  else Run.done (.ok event) w

/-- Go `pm == nil` for the record returned by a lookup `pm, err := ...`: the
lookup returned no record. -/
def isNil {α : Type} : Except Error α → Bool
  | .ok _ => false
  | .error _ => true

end Parts

/-! ## Package controller -/

namespace controller

/-- The JSON body written by `utils.RespondWithJSON` or `utils.RespondWithError`. -/
inductive Body where
  | Error (message : String)
  | Intent (response : model.PaymentIntentResponse)
  | Event (event : model.PaymentEvent)
  deriving DecidableEq, Repr

/-- What a handler writes to the `http.ResponseWriter`: status code and body. -/
structure Response where
  code : Nat
  body : Body
  deriving DecidableEq, Repr

def RespondWithError (code : Nat) (message : String) : Response :=
  { code := code, body := Body.Error message }

def StatusBadRequest : Nat := 400
def StatusOK : Nat := 200

structure PaymentController (σ : Type) where
  service : service.PaymentService σ

def NewPaymentController {σ : Type} (service : service.PaymentService σ) : PaymentController σ :=
  { service := service }

/-- The block of `CreatePaymentIntent` that sets `remember_me` to false when the
JSON body did not specify it. -/
def defaultRememberMe (req : model.PaymentIntentRequest) : model.PaymentIntentRequest :=
  match req.RememberMe with
  | none => { req with RememberMe := some false }
  | some _ => req

/-- Handler of `POST /payments/{provider}/intent`. `ctx` is the request context,
`provider` the path value and `decoded` the outcome of decoding the JSON body. -/
def PaymentController.CreatePaymentIntent {σ : Type} (c : PaymentController σ) (ctx : Context)
    (provider : model.PaymentProvider) (decoded : Except Error model.PaymentIntentRequest)
    (w : σ) : Run σ Response :=
  let ctx := ctx.WithTimeout 5
  match decoded with
  | .error _ => Run.done (RespondWithError StatusBadRequest "Invalid request") w
  | .ok req =>
  let req := defaultRememberMe req
  let r := c.service.CreatePaymentIntent ctx provider req w
  match r.result with
  | .error err =>
    { result := RespondWithError StatusBadRequest err, trace := r.trace, state := r.state }
  | .ok response =>
    { result := { code := StatusOK, body := Body.Intent response }, trace := r.trace,
      state := r.state }

/-- Handler of `POST /payments/{provider}/charge`. -/
def PaymentController.ChargeClient {σ : Type} (c : PaymentController σ) (ctx : Context)
    (provider : model.PaymentProvider) (decoded : Except Error model.PaymentIntentRequest)
    (w : σ) : Run σ Response :=
  let ctx := ctx.WithTimeout 10
  match decoded with
  | .error _ => Run.done (RespondWithError StatusBadRequest "Invalid request") w
  | .ok req =>
  let r := c.service.ChargeClient ctx provider req w
  match r.result with
  | .error err =>
    { result := RespondWithError StatusBadRequest err, trace := r.trace, state := r.state }
  | .ok response =>
    { result := { code := StatusOK, body := Body.Intent response }, trace := r.trace,
      state := r.state }

end controller

/-! ## Package main -/

namespace main

/-- The provider key declared in `main`. -/
def stripe : model.PaymentProvider := "stripe"

/-- The service as `main` assembles it: the adapter registered under "stripe",
the two repositories over the given pool. -/
def paymentService {σ : Type} (adapter : ports.IPaymentProcessor σ) (pool : repository.DB σ) :
    service.PaymentService σ :=
  let providerRegistry := core.NewProviderRegistry.Register stripe adapter
  let repositoryRegistry := core.NewRepositoryRegistry.Register core.TransactionRepo
    (repository.NewTransactionRepository pool).asRepository
  let repositoryRegistry := repositoryRegistry.Register core.PaymentRepo
    (repository.NewPaymentMethodRepository pool).asRepository
  service.NewPaymentService providerRegistry repositoryRegistry

end main

/-! ## Sample collaborators

Concrete provider adapters and states on which the operations are evaluated. -/

namespace sample

/-- A provider that accepts every intent and every charge, and answers every
webhook with the given event. -/
def provider (event : model.PaymentEvent) : ports.IPaymentProcessor postgres.Store :=
  { Name := "stripe"
    CreatePaymentIntent := fun _ req w =>
      (.ok { ID := "pi_1", Amount := req.Amount, Currency := req.Currency,
             Status := "requires_payment_method", ClientSecret := "pi_1_secret",
             PaymentMethodID := "", PaymentMethodType := "", PaymentProvider := "",
             PaymentMethodStatus := "" }, w)
    GetPaymentIntent := fun _ id w =>
      (.ok { ID := id, Amount := 1000, Currency := "usd", Status := "succeeded",
             ClientSecret := "", PaymentMethodID := "", PaymentMethodType := "",
             PaymentProvider := "", PaymentMethodStatus := "" }, w)
    ChargeClient := fun _ req w =>
      (.ok { ID := "pi_2", Amount := req.Amount, Currency := req.Currency,
             Status := "succeeded", ClientSecret := "", PaymentMethodID := req.Token,
             PaymentMethodType := "", PaymentProvider := "", PaymentMethodStatus := "" }, w)
    ParseWebhook := fun _ _ _ w => (.ok event, w) }

/-- A provider that rejects every call. -/
def rejecting : ports.IPaymentProcessor postgres.Store :=
  { Name := "stripe"
    CreatePaymentIntent := fun _ _ w => (.error "Payment creation failed #acpi0", w)
    GetPaymentIntent := fun _ _ w => (.error "Collecting payment details failed #agpi0", w)
    ChargeClient := fun _ _ w => (.error "Direct charge failed #acc0", w)
    ParseWebhook := fun _ _ _ w => (.error "invalid webhook signature", w) }

/-- An event that no dispatch branch handles. -/
def otherEvent : model.PaymentEvent :=
  { Type_ := "charge.refunded", PaymentIntent := "", PaymentMethod := "",
    Payload := model.EventPayload.text "Omitted" }

/-- A webhook event of the given normalized type for intent `pi_1`. -/
def event (type : String) : model.PaymentEvent :=
  { Type_ := type, PaymentIntent := "pi_1", PaymentMethod := "pm_1",
    Payload := model.EventPayload.none }

/-- A webhook event of the given normalized type for an intent that was never
stored. -/
def unknownEvent (type : String) : model.PaymentEvent :=
  { Type_ := type, PaymentIntent := "pi_404", PaymentMethod := "pm_1",
    Payload := model.EventPayload.none }

/-- A request of 1000 usd for customer `cust_1` with the given remember-me flag. -/
def request (rememberMe : Option Bool) : model.PaymentIntentRequest :=
  { Amount := 1000, Currency := "usd", CustomerID := "cust_1", Token := "pm_1",
    RememberMe := rememberMe, Metadata := none, PaymentMethod := "" }

/-- The empty database at time 7. -/
def emptyStore : postgres.Store :=
  { transactions := [], payment_methods := [], now := 7 }

/-- A database holding one pending transaction for intent `pi_1` of customer
`cust_1`, who asked to remember the payment method. -/
def pendingStore : postgres.Store :=
  { transactions :=
      [{ model.Transaction.zero with
         Amount := 1000, Currency := "usd", PaymentIntentID := "pi_1",
         TxStatus := ports.Pending, CustomerID := "cust_1", SavePaymentMethod := some true,
         CreatedAt := 3, UpdatedAt := 3 }],
    payment_methods := [], now := 7 }

/-- A request context without deadline. -/
def background : Context := { timeout := none }

/-- A service whose payment-method repository has lost its connection while the
transaction repository works. -/
def halfBroken : service.PaymentService postgres.Store :=
  service.NewPaymentService
    (core.NewProviderRegistry.Register main.stripe (provider otherEvent))
    ((core.NewRepositoryRegistry.Register core.TransactionRepo
        (repository.NewTransactionRepository postgres.pool).asRepository).Register
      core.PaymentRepo (repository.NewPaymentMethodRepository postgres.unreachable).asRepository)

/-- A service without any repository registered. -/
def noRepositories : service.PaymentService postgres.Store :=
  service.NewPaymentService
    (core.NewProviderRegistry.Register main.stripe (provider otherEvent))
    core.NewRepositoryRegistry

end sample

/-! ## The statements a repository hands to the database -/

namespace repository

/-- One call on the database handle: the statement and its arguments. -/
structure Statement where
  sql : Sql
  args : List Any
  deriving DecidableEq, Repr

/-- The handle `db` together with a journal of the statements handed to it,
oldest first. Every call is passed on to `db` and written to the journal. -/
def DB.journaled {σ : Type} (db : DB σ) : DB (σ × List Statement) :=
  { Exec := fun ctx sql args w =>
      ((db.Exec ctx sql args w.1).1,
       ((db.Exec ctx sql args w.1).2, w.2 ++ [{ sql := sql, args := args }]))
    QueryRow := fun ctx sql args w =>
      ((db.QueryRow ctx sql args w.1).1,
       ((db.QueryRow ctx sql args w.1).2, w.2 ++ [{ sql := sql, args := args }]))
    Query := fun ctx sql args w =>
      ((db.Query ctx sql args w.1).1,
       ((db.Query ctx sql args w.1).2, w.2 ++ [{ sql := sql, args := args }]))
    IsErrNoRows := db.IsErrNoRows }

/-- The placeholders of a parameter list of length `n`: `$1`, ..., `$n`. -/
def placeholders (n : Nat) : List String :=
  (List.range n).map (fun i => "$" ++ toString (i + 1))

/-- The columns of an INSERT into `transactions` as the specification lists them,
each with the value bound to it: the four required columns, then the optional
columns whose field is set, in the order id, internal_reference,
payment_intent_id, save_payment_method, metadata. -/
def transactionInsertColumns (tx : model.Transaction) : List (String × Any) :=
  [("amount", Any.int tx.Amount), ("currency", Any.str tx.Currency),
   ("customer_id", Any.str tx.CustomerID), ("tx_status", Any.str tx.TxStatus)] ++
  (if tx.ID = "" then [] else [("id", Any.str tx.ID)]) ++
  (if tx.InternalReference = "" then []
   else [("internal_reference", Any.str tx.InternalReference)]) ++
  (if tx.PaymentIntentID = "" then [] else [("payment_intent_id", Any.str tx.PaymentIntentID)]) ++
  (match tx.SavePaymentMethod with
   | some v => [("save_payment_method", Any.bool v)]
   | none => []) ++
  (match tx.Metadata with
   | some m => [("metadata", Any.strMap m)]
   | none => [])

/-- The columns of an INSERT into `payment_methods` as the specification lists
them: the three required columns, then method_type and pm_status when set. -/
def paymentMethodInsertColumns (tx : model.Transaction) : List (String × Any) :=
  [("customer_id", Any.str tx.CustomerID), ("payment_method_id", Any.str tx.PaymentMethodID),
   ("pm_provider", Any.str tx.PaymentProvider)] ++
  (if tx.PaymentMethodType = "" then [] else [("method_type", Any.str tx.PaymentMethodType)]) ++
  (if tx.PaymentMethodStatus = "" then [] else [("pm_status", Any.str tx.PaymentMethodStatus)])

/-- The fixed column names an INSERT into `transactions` can list. -/
def transactionInsertNames : List String :=
  ["amount", "currency", "customer_id", "tx_status", "id", "internal_reference",
   "payment_intent_id", "save_payment_method", "metadata"]

/-- The fixed column names an INSERT into `payment_methods` can list. -/
def paymentMethodInsertNames : List String :=
  ["customer_id", "payment_method_id", "pm_provider", "method_type", "pm_status"]

/-- A sequence of column appends on a builder. -/
def InsertBuilder.addAll (b : InsertBuilder) (columns : List (String × Any)) : InsertBuilder :=
  columns.foldl (fun b c => b.add c.1 c.2) b

/-- The conditions of an UPDATE with the given filter names: the i-th name is
compared with placeholder number i + 1, counting names from 1. -/
def filterConditions (names : List String) : List (String × Nat) :=
  names.zip (List.range' 2 names.length)

end repository

/-! ## Package utils -/

namespace utils

/-- Go `GetHeader(headers, key)`: the first value of the first header, in the
order the range loop visits the map, whose name equals `key` under `EqualFold`
and which has a value; the empty string when there is none. `EqualFold` is
`strings.EqualFold`. -/
def GetHeader (EqualFold : String → String → Bool) :
    List (String × List String) → String → String
  | [], _ => ""
  | (k, v) :: rest, key =>
    match v with
    | first :: _ => if EqualFold k key then first else GetHeader EqualFold rest key
    | [] => GetHeader EqualFold rest key

end utils

/-! ## The stripe-go library -/

namespace stripe

/-- The part of `stripe.Customer` the adapter reads and writes. -/
structure Customer where
  ID : String
  deriving DecidableEq, Repr

/-- The part of `stripe.PaymentMethod` the adapter reads; `Customer` is a pointer,
nil when the method is attached to no customer. -/
structure PaymentMethod where
  ID : String
  Customer : Option Customer := none
  deriving DecidableEq, Repr

/-- The part of `stripe.Error` the adapter reads; the payment method is a pointer. -/
structure Error where
  PaymentMethod : Option PaymentMethod
  deriving DecidableEq, Repr

/-- The part of `stripe.PaymentIntent` the adapter reads; `PaymentMethod` and
`LastPaymentError` are pointers. -/
structure PaymentIntent where
  ID : String
  Amount : Int
  Currency : String
  Status : String
  PaymentMethod : Option PaymentMethod
  LastPaymentError : Option Error
  deriving DecidableEq, Repr

/-- The part of `stripe.Event` the adapter reads: `Type` and `Data.Raw`. -/
structure Event where
  Type_ : String
  DataRaw : List UInt8
  deriving DecidableEq, Repr

end stripe

/-! ## Package adapters -/

namespace adapters

/-- The library functions `StripeAdapter.ParseWebhook` calls:
`strings.EqualFold`, `webhook.ConstructEvent(payload, header, secret)` and
`json.Unmarshal` into a `stripe.PaymentIntent`. -/
structure Library where
  EqualFold : String → String → Bool
  ConstructEvent : List UInt8 → String → String → Except Error stripe.Event
  Unmarshal : List UInt8 → Except Error stripe.PaymentIntent

structure StripeAdapter where
  apiKey : String
  webhookSecret : String

def NewStripeAdapter (apiKey : String) (webhookSecret : String) : StripeAdapter :=
  { apiKey := apiKey, webhookSecret := webhookSecret }

def StripeAdapter.Name (_s : StripeAdapter) : model.PaymentProvider := "stripe"

/-- The payment method id of a decoded intent: that of the attached method, else
that of the method of the last payment error, else empty. -/
def paymentMethodID (paymentIntent : stripe.PaymentIntent) : String :=
  match paymentIntent.PaymentMethod with
  | some pm => pm.ID
  | none =>
    match paymentIntent.LastPaymentError with
    | some err =>
      match err.PaymentMethod with
      | some pm => pm.ID
      | none => ""
    | none => ""

/-- The normalized type of one of the three payment-intent events. -/
def eventType (type : String) : String :=
  if type = "payment_intent.payment_failed" then ports.PaymentFailed
  else if type = "payment_intent.canceled" then ports.PaymentCancelled
  else ports.PaymentSucceeded

/-- The method `ParseWebhook` of the adapter, the library being given. It reads
and writes nothing but its arguments. -/
def StripeAdapter.ParseWebhook (s : StripeAdapter) (lib : Library) (_ctx : Context)
    (raw : List UInt8) (headers : List (String × List String)) :
    Except Error model.PaymentEvent :=
  let sigHeader := utils.GetHeader lib.EqualFold headers "Stripe-Signature"
  if sigHeader = "" then .error "missing stripe-signature header"
  else
    match lib.ConstructEvent raw sigHeader s.webhookSecret with
    | .error _ => .error "invalid webhook signature"
    | .ok event =>
      if event.Type_ = "payment_intent.succeeded" ∨
          event.Type_ = "payment_intent.payment_failed" ∨
          event.Type_ = "payment_intent.canceled" then
        match lib.Unmarshal event.DataRaw with
        | .error _ => .error "failed to parse event data"
        | .ok paymentIntent =>
          .ok { Type_ := eventType event.Type_
                PaymentIntent := paymentIntent.ID
                PaymentMethod := paymentMethodID paymentIntent
                Payload := model.EventPayload.intent
                  { ID := paymentIntent.ID, Amount := paymentIntent.Amount,
                    Currency := paymentIntent.Currency, Status := paymentIntent.Status,
                    ClientSecret := "" } }
      else
        .ok { Type_ := event.Type_, PaymentIntent := "", PaymentMethod := "",
              Payload := model.EventPayload.text "Omitted" }

/-- The method `ParseWebhook` as a field of the interface `IPaymentProcessor`:
the world is left as it is. -/
def StripeAdapter.webhookMethod {σ : Type} (s : StripeAdapter) (lib : Library) :
    Context → List UInt8 → List (String × List String) → σ →
      Except Error model.PaymentEvent × σ :=
  fun ctx raw headers w => (s.ParseWebhook lib ctx raw headers, w)

end adapters

/-! ## Sample webhooks -/

namespace sample

/-- A comparison of header names that ignores the case of ASCII letters. It agrees
with `strings.EqualFold` on ASCII names, the only ones the samples use;
`strings.EqualFold` folds other Unicode letters as well. -/
def equalFold (a b : String) : Bool :=
  a.data.map Char.toLower = b.data.map Char.toLower

/-- A library that accepts the signature `good` only, reads the event type off
the first byte of the payload (0 succeeded, 1 payment failed, 2 canceled, 3 an
event named like the normalized succeeded type, else a refund) and decodes every
payload to the intent `pi_1` with payment method `pm_1`. -/
def library : adapters.Library :=
  { EqualFold := equalFold
    ConstructEvent := fun raw header _ =>
      if header = "good" then
        .ok { Type_ :=
                match raw with
                | 0 :: _ => "payment_intent.succeeded"
                | 1 :: _ => "payment_intent.payment_failed"
                | 2 :: _ => "payment_intent.canceled"
                | 3 :: _ => "payment_succeeded"
                | _ => "charge.refunded",
              DataRaw := raw }
      else .error "signature mismatch"
    Unmarshal := fun _ =>
      .ok { ID := "pi_1", Amount := 1000, Currency := "usd", Status := "requires_payment_method",
            PaymentMethod := some { ID := "pm_1" }, LastPaymentError := none } }

/-- The adapter with sample keys. -/
def adapter : adapters.StripeAdapter :=
  adapters.NewStripeAdapter "sk_test" "whsec_test"

/-- A provider whose webhook parsing is that of the Stripe adapter over the
sample library. -/
def stripeProvider : ports.IPaymentProcessor postgres.Store :=
  { provider otherEvent with ParseWebhook := adapter.webhookMethod library }

/-- Headers carrying the accepted signature under a lower-case name. -/
def signedHeaders : List (String × List String) :=
  [("Content-Type", ["application/json"]), ("stripe-signature", ["good"])]

/-- A database holding one transaction for intent `pi_1` that has succeeded. -/
def succeededStore : postgres.Store :=
  { transactions :=
      [{ model.Transaction.zero with
         Amount := 1000, Currency := "usd", PaymentIntentID := "pi_1",
         TxStatus := ports.PaymentSucceeded, CustomerID := "cust_1",
         SavePaymentMethod := some false, CreatedAt := 3, UpdatedAt := 5 }],
    payment_methods := [], now := 7 }

end sample

/-! ## Webhook deliveries on the database -/

section Deliveries

open model ports core service

/-- The rows of `transactions` after a status update by payment intent id at
time `now`: every row of that intent gets the status and the time, the other
rows stay as they are. -/
def updatedRows (status id : String) (now : Nat) (rows : List Transaction) :
    List Transaction :=
  rows.map (fun r =>
    if r.PaymentIntentID = id then { r with TxStatus := status, UpdatedAt := now } else r)

/-- The row of `payment_methods` added for a remembered payment method at time
`now`. -/
def rememberedRow (customerID paymentMethodID : String) (provider : PaymentProvider)
    (now : Nat) : Transaction :=
  { newPm customerID paymentMethodID provider with CreatedAt := now, UpdatedAt := now }

/-- The number of payment-method rows with the given payment method id. -/
def paymentMethodCount (id : String) (w : postgres.Store) : Nat :=
  w.payment_methods.countP (fun p => decide (p.PaymentMethodID = id))

end Deliveries

/-! ## Storage transactions -/

/-- How a Go call ends: it returns a value, or it panics. -/
inductive Outcome (α : Type) where
  | returned (a : α)
  | panicked (p : String)
  deriving DecidableEq, Repr

/-- The run-time panic of a read or write through a nil pointer. -/
def nilDereference : String :=
  "runtime error: invalid memory address or nil pointer dereference"

namespace repository

/-- A `pgx.Tx`: a handle with the query methods of `DB`, `Commit` and
`Rollback`. -/
structure Tx (σ : Type) where
  db : DB σ
  Commit : Context → σ → Except Error Unit × σ
  Rollback : Context → σ → Except Error Unit × σ

/-- One step of `WithTransaction`: a call on the storage handle, or the call of
`fn`. -/
inductive TxCall where
  | Begin (ctx : Context)
  | Fn
  | Commit (ctx : Context)
  | Rollback (ctx : Context)
  deriving DecidableEq, Repr

/-- Outcome of `WithTransaction`: how it ends, the steps it made, the state it
leaves. -/
structure TxRun (σ : Type) where
  outcome : Outcome (Except Error Unit)
  calls : List TxCall
  state : σ

/-- The method `WithTransaction`. `Begin` is the method `r.db.Begin`, which the
structure `DB` does not carry; `fn` may return an error or panic. The deferred
function rolls back and panics again when `fn` panicked, and does nothing
otherwise. -/
def TransactionRepository.WithTransaction {σ : Type} (_r : TransactionRepository σ)
    (Begin : Context → σ → Except Error (Tx σ) × σ) (ctx : Context)
    (fn : TransactionRepository σ → σ → Outcome (Except Error Unit) × σ) (w : σ) : TxRun σ :=
  match Begin ctx w with
  | (.error err, w) =>
    { outcome := .returned (.error ("failed to begin transaction: " ++ err))
      calls := [.Begin ctx], state := w }
  | (.ok tx, w) =>
    let txRepo : TransactionRepository σ := { db := tx.db }
    match fn txRepo w with
    | (.panicked p, w) =>
      { outcome := .panicked p
        calls := [.Begin ctx, .Fn, .Rollback ctx], state := (tx.Rollback ctx w).2 }
    | (.returned (.error err), w) =>
      match tx.Rollback ctx w with
      | (.error rbErr, w) =>
        { outcome := .returned
            (.error ("transaction error: " ++ err ++ ", rollback failed: " ++ rbErr))
          calls := [.Begin ctx, .Fn, .Rollback ctx], state := w }
      | (.ok _, w) =>
        { outcome := .returned (.error err)
          calls := [.Begin ctx, .Fn, .Rollback ctx], state := w }
    | (.returned (.ok _), w) =>
      { outcome := .returned (tx.Commit ctx w).1
        calls := [.Begin ctx, .Fn, .Commit ctx], state := (tx.Commit ctx w).2 }

/-- The method `WithTransaction` of the payment-method repository, the same code
over a transaction-scoped `PaymentMethodRepository`. -/
def PaymentMethodRepository.WithTransaction {σ : Type} (_r : PaymentMethodRepository σ)
    (Begin : Context → σ → Except Error (Tx σ) × σ) (ctx : Context)
    (fn : PaymentMethodRepository σ → σ → Outcome (Except Error Unit) × σ) (w : σ) : TxRun σ :=
  match Begin ctx w with
  | (.error err, w) =>
    { outcome := .returned (.error ("failed to begin transaction: " ++ err))
      calls := [.Begin ctx], state := w }
  | (.ok tx, w) =>
    let txRepo : PaymentMethodRepository σ := { db := tx.db }
    match fn txRepo w with
    | (.panicked p, w) =>
      { outcome := .panicked p
        calls := [.Begin ctx, .Fn, .Rollback ctx], state := (tx.Rollback ctx w).2 }
    | (.returned (.error err), w) =>
      match tx.Rollback ctx w with
      | (.error rbErr, w) =>
        { outcome := .returned
            (.error ("transaction error: " ++ err ++ ", rollback failed: " ++ rbErr))
          calls := [.Begin ctx, .Fn, .Rollback ctx], state := w }
      | (.ok _, w) =>
        { outcome := .returned (.error err)
          calls := [.Begin ctx, .Fn, .Rollback ctx], state := w }
    | (.returned (.ok _), w) =>
      { outcome := .returned (tx.Commit ctx w).1
        calls := [.Begin ctx, .Fn, .Commit ctx], state := (tx.Commit ctx w).2 }

end repository

namespace postgres

/-- Modelled from the spec: the transaction handle of the connection pool, which
is not part of the sources, for a transaction begun in state `w`. The unit of work
runs on the database itself; `Commit` keeps what it did and `Rollback` restores
the database as it was at `Begin`. -/
def session (w : Store) : repository.Tx Store :=
  { db := pool
    Commit := fun _ w2 => (.ok (), w2)
    Rollback := fun _ _ => (.ok (), w) }

/-- The method `Begin` of the connection pool. -/
def Begin (_ctx : Context) (w : Store) : Except Error (repository.Tx Store) × Store :=
  (.ok (session w), w)

/-- The method `Begin` of a pool whose connection is lost. -/
def refused (_ctx : Context) (w : Store) : Except Error (repository.Tx Store) × Store :=
  (.error "connection refused", w)

end postgres

/-! ## The charge of the Stripe adapter -/

namespace stripe

/-- The fields of `stripe.PaymentIntentParams` the adapter sets; all are
pointers. -/
structure PaymentIntentParams where
  Amount : Option Int
  Currency : Option String
  Customer : Option String
  PaymentMethod : Option String
  Confirm : Option Bool
  deriving DecidableEq, Repr

end stripe

namespace adapters

/-- The calls of the Stripe API `StripeAdapter.ChargeClient` makes:
`paymentmethod.Get(id, nil)`, `customer.New(&stripe.CustomerParams{})`,
`paymentmethod.Attach(id, params)` with the customer id of the params, and
`paymentintent.New(params)`. Each may change the world. -/
structure Api (σ : Type) where
  PaymentMethodGet : String → σ → Except Error stripe.PaymentMethod × σ
  CustomerNew : σ → Except Error stripe.Customer × σ
  PaymentMethodAttach : String → String → σ → Except Error stripe.PaymentMethod × σ
  PaymentIntentNew : stripe.PaymentIntentParams → σ → Except Error stripe.PaymentIntent × σ

/-- One call of the Stripe API. -/
inductive ApiCall where
  | PaymentMethodGet (id : String)
  | CustomerNew
  | PaymentMethodAttach (id customer : String)
  | PaymentIntentNew (params : stripe.PaymentIntentParams)
  deriving DecidableEq, Repr

/-- Outcome of an adapter method: how it ends, the API calls it made, the state
it leaves. -/
structure ApiRun (σ : Type) where
  outcome : Outcome (Except Error model.PaymentProcessorResponse)
  calls : List ApiCall
  state : σ

/-- Go `p.ID = id` through the customer pointer `p`. -/
def setCustomerID : Option stripe.Customer → String → Outcome (Option stripe.Customer)
  | none, _ => .panicked nilDereference
  | some c, id => .returned (some { c with ID := id })

/-- Go `p.ID` through the customer pointer `p`. -/
def customerID : Option stripe.Customer → Outcome String
  | none => .panicked nilDereference
  | some c => .returned c.ID

/-- The end of `ChargeClient`, from the comment "Use it in a PaymentIntent" on:
`pm` is the payment method as the code holds it there and `calls` the API calls
made so far. -/
def StripeAdapter.confirm {σ : Type} (api : Api σ) (req : model.PaymentIntentRequest)
    (pm : stripe.PaymentMethod) (calls : List ApiCall) (w : σ) : ApiRun σ :=
  match customerID pm.Customer with
  | .panicked p => { outcome := .panicked p, calls := calls, state := w }
  | .returned customer =>
    let params : stripe.PaymentIntentParams :=
      { Amount := some req.Amount, Currency := some req.Currency, Customer := some customer,
        PaymentMethod := some req.Token, Confirm := some true }
    match api.PaymentIntentNew params w with
    | (.error _, w) =>
      { outcome := .returned (.error "Direct charge failed #acc3")
        calls := calls ++ [.PaymentIntentNew params], state := w }
    | (.ok pi, w) =>
      match pi.PaymentMethod with
      | none =>
        { outcome := .panicked nilDereference
          calls := calls ++ [.PaymentIntentNew params], state := w }
      | some method =>
        { outcome := .returned (.ok
            { ID := pi.ID, Amount := pi.Amount, Currency := pi.Currency, Status := pi.Status,
              ClientSecret := "", PaymentMethodID := method.ID, PaymentMethodType := "",
              PaymentProvider := "", PaymentMethodStatus := "" })
          calls := calls ++ [.PaymentIntentNew params], state := w }

/-- The method `ChargeClient` of the adapter, the Stripe API being given. -/
def StripeAdapter.ChargeClient {σ : Type} (_s : StripeAdapter) (api : Api σ) (_ctx : Context)
    (req : model.PaymentIntentRequest) (w : σ) : ApiRun σ :=
  match api.PaymentMethodGet req.Token w with
  | (.error _, w) =>
    { outcome := .returned (.error "Direct charge failed #acc0")
      calls := [.PaymentMethodGet req.Token], state := w }
  | (.ok pm, w) =>
    match pm.Customer with
    | none =>
      match api.CustomerNew w with
      | (.error _, w) =>
        { outcome := .returned (.error "Direct charge failed #acc1")
          calls := [.PaymentMethodGet req.Token, .CustomerNew], state := w }
      | (.ok customer, w) =>
        match api.PaymentMethodAttach req.Token customer.ID w with
        | (.error _, w) =>
          { outcome := .returned (.error "Direct charge failed #acc2")
            calls := [.PaymentMethodGet req.Token, .CustomerNew,
                      .PaymentMethodAttach req.Token customer.ID], state := w }
        | (.ok _, w) =>
          match setCustomerID pm.Customer customer.ID with
          | .panicked p =>
            { outcome := .panicked p
              calls := [.PaymentMethodGet req.Token, .CustomerNew,
                        .PaymentMethodAttach req.Token customer.ID], state := w }
          | .returned attached =>
            StripeAdapter.confirm api req { pm with Customer := attached }
              [.PaymentMethodGet req.Token, .CustomerNew,
               .PaymentMethodAttach req.Token customer.ID] w
    | some _ =>
      StripeAdapter.confirm api req pm [.PaymentMethodGet req.Token] w

end adapters

/-! ## The contract of WithTransaction -/

namespace repository

/-- The contract of `WithTransaction` as the specification words it, for a run
`run` from state `w` in which `body` is `fn` applied to the transaction-scoped
repository: a failed `Begin` gives an error without running `fn`; once begun,
`Commit` is called exactly when `fn` returns no error; an error of `fn` gives a
`Rollback`, no `Commit` and an error, that of `fn` when the rollback succeeds. -/
def TransactionContract {σ : Type} (Begin : Context → σ → Except Error (Tx σ) × σ)
    (ctx : Context) (body : Tx σ → σ → Outcome (Except Error Unit) × σ) (w : σ)
    (run : TxRun σ) : Prop :=
  (∀ err w1, Begin ctx w = (.error err, w1) →
    TxCall.Fn ∉ run.calls ∧ TxCall.Commit ctx ∉ run.calls ∧ run.state = w1 ∧
    ∃ e, run.outcome = .returned (.error e)) ∧
  (∀ tx w1, Begin ctx w = (.ok tx, w1) →
    (TxCall.Commit ctx ∈ run.calls ↔ ∃ w2, body tx w1 = (.returned (.ok ()), w2)) ∧
    (∀ err w2, body tx w1 = (.returned (.error err), w2) →
      TxCall.Rollback ctx ∈ run.calls ∧ TxCall.Commit ctx ∉ run.calls ∧
      (∃ e, run.outcome = .returned (.error e)) ∧
      ((tx.Rollback ctx w2).1 = .ok () → run.outcome = .returned (.error err))))

end repository

/-! ## A sample Stripe account -/

namespace sample

/-- A Stripe account in which payment method `pm_1` is attached to no customer
and `pm_2` to customer `cus_9`; a new customer gets the id `cus_1`, and every
charge succeeds as intent `pi_2`. -/
def api : adapters.Api postgres.Store :=
  { PaymentMethodGet := fun id w =>
      if id = "pm_1" then (.ok { ID := id, Customer := none }, w)
      else if id = "pm_2" then (.ok { ID := id, Customer := some { ID := "cus_9" } }, w)
      else (.error "No such payment_method", w)
    CustomerNew := fun w => (.ok { ID := "cus_1" }, w)
    PaymentMethodAttach := fun id customer w =>
      (.ok { ID := id, Customer := some { ID := customer } }, w)
    PaymentIntentNew := fun params w =>
      (.ok { ID := "pi_2", Amount := params.Amount.getD 0, Currency := params.Currency.getD "",
             Status := "succeeded",
             PaymentMethod := params.PaymentMethod.map (fun id => { ID := id }),
             LastPaymentError := none }, w) }

/-- A unit of work that inserts a transaction and then fails. -/
def failingWork (repo : repository.TransactionRepository postgres.Store)
    (w : postgres.Store) : Outcome (Except Error Unit) × postgres.Store :=
  (.returned (.error "work failed"),
   (repo.Create background
      { model.Transaction.zero with
        Amount := 500, Currency := "eur", TxStatus := ports.Pending, CustomerID := "cust_2" }
      w).2)

end sample

/-! ## Failing reads -/

namespace postgres

/-- A handle of the pool on which every read times out while writes go through:
`QueryRow` and `Query` fail and change nothing, `Exec` is that of the pool. -/
def failingReads : repository.DB Store :=
  { Exec := Exec
    QueryRow := fun _ _ _ w => (.error "canceling statement due to statement timeout", w)
    Query := fun _ _ _ w => (.error "canceling statement due to statement timeout", w)
    IsErrNoRows := fun err => err = "no rows in result set" }

end postgres

namespace sample

/-- A service whose payment-method repository cannot read while it can write; the
transaction repository works. -/
def blindMethods (event : model.PaymentEvent) : service.PaymentService postgres.Store :=
  service.NewPaymentService
    (core.NewProviderRegistry.Register main.stripe (provider event))
    ((core.NewRepositoryRegistry.Register core.TransactionRepo
        (repository.NewTransactionRepository postgres.pool).asRepository).Register
      core.PaymentRepo
      (repository.NewPaymentMethodRepository postgres.failingReads).asRepository)

/-- A service whose transaction repository cannot read while it can write; the
payment-method repository works. -/
def blindTransactions (event : model.PaymentEvent) : service.PaymentService postgres.Store :=
  service.NewPaymentService
    (core.NewProviderRegistry.Register main.stripe (provider event))
    ((core.NewRepositoryRegistry.Register core.TransactionRepo
        (repository.NewTransactionRepository postgres.failingReads).asRepository).Register
      core.PaymentRepo (repository.NewPaymentMethodRepository postgres.pool).asRepository)

/-- The database of `pendingStore` in which the payment method `pm_1` of
customer `cust_1` is already stored. -/
def rememberedStore : postgres.Store :=
  { pendingStore with
    payment_methods :=
      [{ service.newPm "cust_1" "pm_1" "stripe" with CreatedAt := 5, UpdatedAt := 5 }] }

end sample

/-! ## ChargeClient call by call

The calls of one `ChargeClient` on its collaborators, one at a time, so that the
calls of two charges can take turns on one database. -/

section Steps

open model ports core service

/-- Where a `ChargeClient` call stands between two calls on its collaborators:
before the provider charge, before the transaction insert, before the
payment-method lookup, before the payment-method insert (the lookup returned no
record), or returned. -/
inductive ChargePoint where
  | start
  | charged (res : PaymentProcessorResponse)
  | written (res : PaymentProcessorResponse)
  | missing (res : PaymentProcessorResponse)
  | returned (result : Except Error PaymentIntentResponse)

/-- The next call of a `ChargeClient` whose lookups in the registries have
succeeded, `ctx` being the context with the timeout: the call is made on the
state `w` and the charge moves to its next point. -/
def chargeStep {σ : Type} (processor : IPaymentProcessor σ)
    (transaction payment_method : ITransactionRepository σ) (ctx : Context)
    (provider : PaymentProvider) (req : PaymentIntentRequest) :
    ChargePoint → σ → ChargePoint × σ
  | .start, w =>
    match processor.ChargeClient ctx req w with
    | (.error err, w) => (.returned (.error err), w)
    | (.ok res, w) => (.charged res, w)
  | .charged res, w =>
    match transaction.Create ctx (ChargeClient.newPi res req) w with
    | (.error err, w) => (.returned (.error err), w)
    | (.ok _, w) =>
      if req.RememberMe = some true then (.written res, w)
      else (.returned (.ok (intentResponse res)), w)
  | .written res, w =>
    match payment_method.FindByID ctx res.PaymentMethodID w with
    | (.ok _, w) => (.returned (.ok (intentResponse res)), w)
    | (.error _, w) => (.missing res, w)
  | .missing res, w =>
    (.returned (.ok (intentResponse res)),
     (payment_method.Create ctx (newPm req.CustomerID res.PaymentMethodID provider) w).2)
  | .returned result, w => (.returned result, w)

/-- The first `n` calls of a charge, one after the other. -/
def chargeSteps {σ : Type} (step : ChargePoint → σ → ChargePoint × σ) :
    Nat → ChargePoint × σ → ChargePoint × σ
  | 0, c => c
  | n + 1, c => chargeSteps step n (step c.1 c.2)

/-- Two charges on one state taking turns: at `true` the first makes its next
call, at `false` the second. -/
def interleave {σ : Type} (first second : ChargePoint → σ → ChargePoint × σ) :
    List Bool → ChargePoint × ChargePoint × σ → ChargePoint × ChargePoint × σ
  | [], c => c
  | true :: rest, (a, b, w) => interleave first second rest ((first a w).1, b, (first a w).2)
  | false :: rest, (a, b, w) => interleave first second rest (a, (second b w).1, (second b w).2)

/-- The number of payment-method rows of a customer and payment method. -/
def pairCount (customer id : String) (w : postgres.Store) : Nat :=
  w.payment_methods.countP
    (fun p => decide (p.CustomerID = customer ∧ p.PaymentMethodID = id))

/-- The schedule in which the first charge returns before the second starts. -/
def oneAfterTheOther : List Bool :=
  [true, true, true, true, false, false, false, false]

/-- The schedule in which both charges have looked the payment method up before
either inserts it. -/
def lookupsFirst : List Bool :=
  [true, true, true, false, false, false, true, false]

end Steps

/-! ## Lemmas -/

section Lemmas

open model ports core service repository

/-! ### Registries -/

theorem lastRegistered_cons {α : Type} (key : String) (c : String × α)
    (cs : List (String × α)) :
    lastRegistered key (c :: cs) =
      match lastRegistered key cs with
      | some v => some v
      | none => if c.1 = key then some c.2 else none := by
  unfold lastRegistered
  by_cases hc : c.1 = key
  · simp only [List.filter_cons, hc, decide_True, if_true]
    cases hf : cs.filter (fun c => decide (c.1 = key)) with
    | nil => simp
    | cons d ds =>
      rw [List.getLast?_cons_cons]
      have hne : (d :: ds).getLast? = some ((d :: ds).getLast (by simp)) :=
        List.getLast?_eq_getLast _ _
      rw [hne]
      rfl
  · have hf : (c :: cs).filter (fun c => decide (c.1 = key)) =
        cs.filter (fun c => decide (c.1 = key)) :=
      List.filter_cons_of_neg (by simp [hc])
    rw [hf]
    simp only [hc, if_false]
    generalize Option.map (fun c : String × α => c.2)
      (cs.filter (fun c => decide (c.1 = key))).getLast? = o
    cases o <;> rfl

/-- A key has a most recent registration exactly when it was registered. -/
theorem lastRegistered_isSome {α : Type} (key : String) (calls : List (String × α)) :
    (lastRegistered key calls).isSome = true ↔ key ∈ calls.map (fun c => c.1) := by
  unfold lastRegistered
  cases hf : calls.filter (fun c => decide (c.1 = key)) with
  | nil =>
    simp only [List.getLast?_nil, Option.map_none', Option.isSome_none, Bool.false_eq_true,
      false_iff, List.mem_map, not_exists, not_and]
    intro c hc heq
    have hmem : c ∈ calls.filter (fun c => decide (c.1 = key)) := by
      simp [List.mem_filter, hc, heq]
    rw [hf] at hmem
    cases hmem
  | cons d ds =>
    have hmem : d ∈ calls.filter (fun c => decide (c.1 = key)) := by rw [hf]; simp
    have hd := List.mem_filter.mp hmem
    have hne : (d :: ds).getLast? = some ((d :: ds).getLast (by simp)) :=
      List.getLast?_eq_getLast _ _
    rw [hne]
    simp only [Option.map_some', Option.isSome_some, true_iff, List.mem_map]
    exact ⟨d, hd.1, by simpa using hd.2⟩

theorem repositoryRegistry_foldl_repo {σ : Type}
    (calls : List (String × ITransactionRepository σ)) (r : RepositoryRegistry σ)
    (key : String) :
    (calls.foldl (fun r c => r.Register c.1 c.2) r).repo key =
      match lastRegistered key calls with
      | some v => some v
      | none => r.repo key := by
  induction calls generalizing r with
  | nil => simp [lastRegistered]
  | cons c cs ih =>
    rw [List.foldl_cons, ih, lastRegistered_cons]
    cases lastRegistered key cs with
    | some v => rfl
    | none =>
      by_cases hc : c.1 = key
      · simp [RepositoryRegistry.Register, GoMap.set, hc]
      · have hk : ¬ key = c.1 := fun h => hc h.symm
        simp [RepositoryRegistry.Register, GoMap.set, hc, hk]

theorem providerRegistry_foldl_processors {σ : Type}
    (calls : List (PaymentProvider × IPaymentProcessor σ)) (r : ProviderRegistry σ)
    (key : PaymentProvider) :
    (calls.foldl (fun r c => r.Register c.1 c.2) r).processors key =
      match lastRegistered key calls with
      | some v => some v
      | none => r.processors key := by
  induction calls generalizing r with
  | nil => simp [lastRegistered]
  | cons c cs ih =>
    rw [List.foldl_cons, ih, lastRegistered_cons]
    cases lastRegistered key cs with
    | some v => rfl
    | none =>
      by_cases hc : c.1 = key
      · simp [ProviderRegistry.Register, GoMap.set, hc]
      · have hk : ¬ key = c.1 := fun h => hc h.symm
        simp [ProviderRegistry.Register, GoMap.set, hc, hk]

/-! ### Runs -/

theorem Run.after_trace {σ α : Type} (c : Call) (r : Run σ α) :
    (Run.after c r).trace = c :: r.trace := rfl

theorem Run.after_result {σ α : Type} (c : Call) (r : Run σ α) :
    (Run.after c r).result = r.result := rfl

/-- The run of `CreatePaymentIntent` once both lookups have succeeded. -/
theorem createPaymentIntent_of_lookups {σ : Type} (s : PaymentService σ) (ctx : Context)
    (provider : PaymentProvider) (req : PaymentIntentRequest) (w : σ)
    (processor : IPaymentProcessor σ) (transaction : ITransactionRepository σ)
    (hp : s.providerRegistry.Get provider = .ok processor)
    (hr : s.repositoryRegistry.Get TransactionRepo = .ok transaction) :
    s.CreatePaymentIntent ctx provider req w =
      Run.after (.ProcCreatePaymentIntent provider (ctx.WithTimeout 2) req)
        (match processor.CreatePaymentIntent (ctx.WithTimeout 2) req w with
         | (.error err, w) => Run.done (.error err) w
         | (.ok pi_response, w) =>
           Run.after (.Create TransactionRepo (ctx.WithTimeout 2)
               (CreatePaymentIntent.newPi pi_response req))
             (match transaction.Create (ctx.WithTimeout 2)
                 (CreatePaymentIntent.newPi pi_response req) w with
              | (.error err, w) => Run.done (.error err) w
              | (.ok _, w) => Run.done (.ok (intentResponse pi_response)) w)) := by
  unfold PaymentService.CreatePaymentIntent
  simp only [hp, hr]

/-- A response of `CreatePaymentIntent` comes with the provider call and one
Create of the record built from the provider answer. -/
theorem createPaymentIntent_ok_trace {σ : Type} (s : PaymentService σ) (ctx : Context)
    (provider : PaymentProvider) (req : PaymentIntentRequest) (w : σ)
    (resp : PaymentIntentResponse)
    (h : (s.CreatePaymentIntent ctx provider req w).result = .ok resp) :
    ∃ pi : PaymentProcessorResponse,
      (s.CreatePaymentIntent ctx provider req w).trace =
        [.ProcCreatePaymentIntent provider (ctx.WithTimeout 2) req,
         .Create TransactionRepo (ctx.WithTimeout 2) (CreatePaymentIntent.newPi pi req)] := by
  cases hp : s.providerRegistry.Get provider with
  | error e =>
    simp [PaymentService.CreatePaymentIntent, hp, Run.done] at h
  | ok processor =>
    cases hr : s.repositoryRegistry.Get TransactionRepo with
    | error e =>
      simp [PaymentService.CreatePaymentIntent, hp, hr, Run.done] at h
    | ok transaction =>
      rw [createPaymentIntent_of_lookups s ctx provider req w processor transaction hp hr] at h ⊢
      rcases hc : processor.CreatePaymentIntent (ctx.WithTimeout 2) req w with ⟨r, w1⟩
      rw [hc] at h
      cases r with
      | error e => simp [Run.after, Run.done] at h
      | ok pi =>
        rcases hw : transaction.Create (ctx.WithTimeout 2)
          (CreatePaymentIntent.newPi pi req) w1 with ⟨r2, w2⟩
        simp only [hw] at h
        cases r2 with
        | error e => simp [Run.after, Run.done] at h
        | ok u => exact ⟨pi, by simp [hw, Run.after, Run.done]⟩

/-- The run of `ChargeClient` once the three lookups have succeeded. -/
theorem chargeClient_of_lookups {σ : Type} (s : PaymentService σ) (ctx : Context)
    (provider : PaymentProvider) (req : PaymentIntentRequest) (w : σ)
    (processor : IPaymentProcessor σ) (transaction payment_method : ITransactionRepository σ)
    (hp : s.providerRegistry.Get provider = .ok processor)
    (ht : s.repositoryRegistry.Get TransactionRepo = .ok transaction)
    (hm : s.repositoryRegistry.Get PaymentRepo = .ok payment_method) :
    s.ChargeClient ctx provider req w =
      Run.after (.ProcChargeClient provider (ctx.WithTimeout 2) req)
        (match processor.ChargeClient (ctx.WithTimeout 2) req w with
         | (.error err, w) => Run.done (.error err) w
         | (.ok res, w) =>
           Run.after (.Create TransactionRepo (ctx.WithTimeout 2) (ChargeClient.newPi res req))
             (match transaction.Create (ctx.WithTimeout 2) (ChargeClient.newPi res req) w with
              | (.error err, w) => Run.done (.error err) w
              | (.ok _, w) =>
                chargeTail payment_method (ctx.WithTimeout 2) provider req res w)) := by
  unfold PaymentService.ChargeClient chargeTail
  simp only [hp, ht, hm]

/-- The remember-me block always ends with the success response. -/
theorem chargeTail_result {σ : Type} (payment_method : ITransactionRepository σ) (ctx : Context)
    (provider : PaymentProvider) (req : PaymentIntentRequest) (res : PaymentProcessorResponse)
    (w : σ) :
    (chargeTail payment_method ctx provider req res w).result = .ok (intentResponse res) := by
  unfold chargeTail
  split
  · rcases hf : payment_method.FindByID ctx res.PaymentMethodID w with ⟨r, w1⟩
    cases r with
    | ok pm => simp [Run.after, Run.done]
    | error e =>
      rcases hc : payment_method.Create ctx
        (newPm req.CustomerID res.PaymentMethodID provider) w1 with ⟨r2, w2⟩
      cases r2 <;> simp [hc, Run.after, Run.done]
  · rfl

/-- The remember-me block issues no call on the transaction repository. -/
theorem chargeTail_createdOn_transactionRepo {σ : Type}
    (payment_method : ITransactionRepository σ) (ctx : Context)
    (provider : PaymentProvider) (req : PaymentIntentRequest) (res : PaymentProcessorResponse)
    (w : σ) :
    createdOn TransactionRepo (chargeTail payment_method ctx provider req res w).trace = [] := by
  have hne : ¬ (PaymentRepo = TransactionRepo) := by decide
  unfold chargeTail
  split
  · rcases hf : payment_method.FindByID ctx res.PaymentMethodID w with ⟨r, w1⟩
    cases r with
    | ok pm => simp [Run.after, Run.done, createdOn]
    | error e =>
      rcases hc : payment_method.Create ctx
        (newPm req.CustomerID res.PaymentMethodID provider) w1 with ⟨r2, w2⟩
      cases r2 <;> simp [hc, Run.after, Run.done, createdOn, hne]
  · rfl

/-- The run of `ParseWebhook` once the three lookups have succeeded. -/
theorem parseWebhook_of_lookups {σ : Type} (s : PaymentService σ) (ctx : Context)
    (provider : PaymentProvider) (raw : List UInt8) (headers : List (String × List String))
    (w : σ) (processor : IPaymentProcessor σ)
    (transaction payment_method : ITransactionRepository σ)
    (hp : s.providerRegistry.Get provider = .ok processor)
    (ht : s.repositoryRegistry.Get TransactionRepo = .ok transaction)
    (hm : s.repositoryRegistry.Get PaymentRepo = .ok payment_method) :
    s.ParseWebhook ctx provider raw headers w =
      Run.after (.ProcParseWebhook provider (ctx.WithTimeout 5) raw headers)
        (match processor.ParseWebhook (ctx.WithTimeout 5) raw headers w with
         | (.error err, w) => Run.done (.error err) w
         | (.ok event, w) =>
           dispatch transaction payment_method (ctx.WithTimeout 5) provider event w) := by
  unfold PaymentService.ParseWebhook dispatch succeededTail
  simp only [hp, ht, hm]

/-- The block after the status update issues no status update and no Create on
the transaction repository. -/
theorem succeededTail_writes {σ : Type} (transaction payment_method : ITransactionRepository σ)
    (ctx : Context) (provider : PaymentProvider) (event : PaymentEvent) (w : σ) :
    statusUpdates (succeededTail transaction payment_method ctx provider event w).trace = [] ∧
    createdOn TransactionRepo
      (succeededTail transaction payment_method ctx provider event w).trace = [] := by
  have hne : ¬ (PaymentRepo = TransactionRepo) := by decide
  unfold succeededTail
  rcases hf : transaction.FindByPaymentIntent ctx event.PaymentIntent w with ⟨r, w1⟩
  cases r with
  | error e => simp [Run.after, Run.done, statusUpdates, createdOn]
  | ok txdata =>
    by_cases hs : txdata.SavePaymentMethod = some true
    · simp only [hs, if_true]
      rcases hfind : payment_method.FindByID ctx event.PaymentMethod w1 with ⟨r2, w2⟩
      cases r2 with
      | ok pm => simp [Run.after, Run.done, statusUpdates, createdOn]
      | error e =>
        rcases hcr : payment_method.Create ctx
          (newPm txdata.CustomerID event.PaymentMethod provider) w2 with ⟨r3, w3⟩
        cases r3 <;> simp [hcr, Run.after, Run.done, statusUpdates, createdOn, hne]
    · simp [hs, Run.after, Run.done, statusUpdates, createdOn]

/-! ### The payment-method lookup on the database -/

theorem pool_rowMatches_paymentMethod (id : String) (r : Transaction) :
    postgres.rowMatches postgres.paymentMethodValue [("payment_method_id", "=", 1)] [Any.str id] r
      = decide (r.PaymentMethodID = id) := by
  simp [postgres.rowMatches, postgres.compare, postgres.paymentMethodValue]

theorem pool_findByID_paymentMethod (ctx : Context) (id : String) (w : postgres.Store) :
    (NewPaymentMethodRepository postgres.pool).FindByID ctx id w =
      (match w.payment_methods.filter (fun r => decide (r.PaymentMethodID = id)) with
       | [] => (Except.error "Not found: no rows in result set", w)
       | r :: _ => (Except.ok { Transaction.zero with
            CustomerID := r.CustomerID, PaymentMethodID := r.PaymentMethodID,
            PaymentProvider := r.PaymentProvider, PaymentMethodType := r.PaymentMethodType,
            PaymentMethodStatus := r.PaymentMethodStatus }, w)) := by
  unfold PaymentMethodRepository.FindByID
  simp only [NewPaymentMethodRepository, postgres.pool, postgres.QueryRow, postgres.selectRows,
    PaymentMethodRepository.columns]
  have hwf : postgres.wellFormed postgres.paymentMethodColumns [("payment_method_id", "=", 1)]
      [Any.str id] = true := by
    simp [postgres.wellFormed, postgres.paymentMethodColumns]
  have hm : postgres.rowMatches postgres.paymentMethodValue
      [("payment_method_id", "=", 1)] [Any.str id] =
      (fun r => decide (r.PaymentMethodID = id)) := by
    funext r; exact pool_rowMatches_paymentMethod id r
  simp only [hwf, hm]
  simp only [postgres.paymentMethodColumns]
  simp
  cases w.payment_methods.filter (fun r => decide (r.PaymentMethodID = id)) with
  | nil => simp [PaymentMethodRepository.findError]
  | cons r rs =>
    simp [PaymentMethodRepository.scan5, postgres.paymentMethodValue]

/-! ### The status update on the database -/

theorem pool_rowMatches_intent (status id : String) (r : Transaction) :
    postgres.rowMatches postgres.transactionValue
      (postgres.equalities [("payment_intent_id", 2)]) [Any.str status, Any.str id] r =
      decide (r.PaymentIntentID = id) := by
  simp [postgres.rowMatches, postgres.equalities, postgres.compare, postgres.transactionValue]

/-- The status update by payment intent id on the database: every row of that
intent gets the new status and the time of the update; the call fails when there
is no such row. -/
theorem pool_updateStatus_intent (ctx : Context) (status id : String) (w : postgres.Store) :
    (NewTransactionRepository postgres.pool).UpdateStatus ctx status
        [("payment_intent_id", Any.str id)] w =
      (if w.transactions.countP (fun r => decide (r.PaymentIntentID = id)) = 0 then
         Except.error "no matching transaction found"
       else Except.ok (),
       { w with transactions := w.transactions.map (fun r =>
           if r.PaymentIntentID = id then { r with TxStatus := status, UpdatedAt := w.now }
           else r) }) := by
  have hwf : postgres.wellFormed postgres.transactionColumns
      (postgres.equalities [("payment_intent_id", 2)]) [Any.str status, Any.str id] = true := by
    simp [postgres.wellFormed, postgres.equalities, postgres.transactionColumns]
  have hm : (fun r => postgres.rowMatches postgres.transactionValue
      (postgres.equalities [("payment_intent_id", 2)]) [Any.str status, Any.str id] r) =
      (fun r => decide (r.PaymentIntentID = id)) := by
    funext r; exact pool_rowMatches_intent status id r
  unfold TransactionRepository.UpdateStatus
  simp only [NewTransactionRepository, postgres.pool, postgres.Exec, updateConditions,
    postgres.updateRows, hm, hwf]
  by_cases hz : w.transactions.countP (fun r => decide (r.PaymentIntentID = id)) = 0
  · simp [hz]
  · simp [hz]

/-- A status update for an intent without a row fails and leaves the database as
it was. -/
theorem pool_updateStatus_no_match (ctx : Context) (status id : String) (w : postgres.Store)
    (h : ∀ r ∈ w.transactions, r.PaymentIntentID ≠ id) :
    (NewTransactionRepository postgres.pool).UpdateStatus ctx status
        [("payment_intent_id", Any.str id)] w =
      (Except.error "no matching transaction found", w) := by
  rw [pool_updateStatus_intent]
  have hz : w.transactions.countP (fun r => decide (r.PaymentIntentID = id)) = 0 := by
    rw [List.countP_eq_zero]
    intro r hr
    simpa using h r hr
  have hmap : w.transactions.map (fun r =>
      if r.PaymentIntentID = id then { r with TxStatus := status, UpdatedAt := w.now }
      else r) = w.transactions := by
    conv_rhs => rw [← List.map_id w.transactions]
    apply List.map_congr_left
    intro r hr
    simp [h r hr]
  rw [hmap]
  simp [hz]

/-! ### The insert on the database -/

theorem fillRow_append (set : Transaction → String → Any → Option Transaction)
    (r : Transaction) (fields : List String) (values : List Any) (field : String) (v : Any) :
    postgres.fillRow set r (fields ++ [field]) (values ++ [v]) =
      (postgres.fillRow set r fields values).bind (fun r2 => set r2 field v) := by
  induction fields generalizing r values with
  | nil =>
    cases values with
    | nil =>
      simp only [List.nil_append, postgres.fillRow, Option.some_bind]
      cases set r field v <;> simp [postgres.fillRow]
    | cons x xs =>
      cases xs <;> cases hs : set r field x <;> simp [postgres.fillRow, hs]
  | cons f fs ih =>
    cases values with
    | nil => cases hs : set r f v <;> simp [postgres.fillRow, hs]
    | cons x xs =>
      simp only [List.cons_append, postgres.fillRow]
      cases set r f x with
      | none => simp
      | some r2 => simpa using ih r2 xs

theorem fillRow_add (set : Transaction → String → Any → Option Transaction)
    (r : Transaction) (b : InsertBuilder) (field : String) (v : Any) :
    postgres.fillRow set r (b.add field v).fields (b.add field v).values =
      (postgres.fillRow set r b.fields b.values).bind (fun r2 => set r2 field v) := by
  simp only [InsertBuilder.add, fillRow_append]

theorem fillRow_addIf (set : Transaction → String → Any → Option Transaction)
    (r : Transaction) (b : InsertBuilder) (present : Bool) (field : String) (v : Any) :
    postgres.fillRow set r (b.addIf present field v).fields (b.addIf present field v).values =
      (postgres.fillRow set r b.fields b.values).bind
        (fun r2 => if present then set r2 field v else some r2) := by
  cases present
  · simp [InsertBuilder.addIf]
  · simp [InsertBuilder.addIf, fillRow_add]

theorem fillRow_init (set : Transaction → String → Any → Option Transaction) (r : Transaction) :
    postgres.fillRow set r InsertBuilder.init.fields InsertBuilder.init.values = some r := rfl

theorem setTransactionValue_amount (r : Transaction) (i : Int) :
    postgres.setTransactionValue r "amount" (Any.int i) = some { r with Amount := i } := rfl

theorem setTransactionValue_currency (r : Transaction) (v : String) :
    postgres.setTransactionValue r "currency" (Any.str v) = some { r with Currency := v } := rfl

theorem setTransactionValue_customer (r : Transaction) (v : String) :
    postgres.setTransactionValue r "customer_id" (Any.str v) =
      some { r with CustomerID := v } := rfl

theorem setTransactionValue_status (r : Transaction) (v : String) :
    postgres.setTransactionValue r "tx_status" (Any.str v) = some { r with TxStatus := v } := rfl

theorem setTransactionValue_id (r : Transaction) (v : String) :
    postgres.setTransactionValue r "id" (Any.str v) = some { r with ID := v } := rfl

theorem setTransactionValue_reference (r : Transaction) (v : String) :
    postgres.setTransactionValue r "internal_reference" (Any.str v) =
      some { r with InternalReference := v } := rfl

theorem setTransactionValue_intent (r : Transaction) (v : String) :
    postgres.setTransactionValue r "payment_intent_id" (Any.str v) =
      some { r with PaymentIntentID := v } := rfl

theorem setTransactionValue_save (r : Transaction) (v : Bool) :
    postgres.setTransactionValue r "save_payment_method" (Any.bool v) =
      some { r with SavePaymentMethod := some v } := rfl

theorem setTransactionValue_metadata (r : Transaction) (m : List (String × String)) :
    postgres.setTransactionValue r "metadata" (Any.strMap m) =
      some { r with Metadata := some m } := rfl

/-- An optional text column that is left out when empty stores the field all the
same, the default being the empty string. -/
theorem absorb_empty (r r2 : Transaction) (v : String) (h : v = "" → r = r2) :
    (if (v != "") = true then some r2 else some r) = some r2 := by
  by_cases hv : v = ""
  · have hb : ¬ ((v != "") = true) := by simp [hv]
    rw [if_neg hb, h hv]
  · have hb : (v != "") = true := by simpa using hv
    rw [if_pos hb]

theorem pool_fill_transaction (tx : Transaction) (now : Nat) :
    postgres.fillRow postgres.setTransactionValue (postgres.newTransactionRow now)
        (TransactionRepository.insertBuilder tx).fields
        (TransactionRepository.insertBuilder tx).values =
      some { Transaction.zero with
             ID := tx.ID, InternalReference := tx.InternalReference, Amount := tx.Amount,
             Currency := tx.Currency, PaymentIntentID := tx.PaymentIntentID,
             TxStatus := tx.TxStatus, CustomerID := tx.CustomerID,
             SavePaymentMethod := tx.SavePaymentMethod, CreatedAt := now,
             UpdatedAt := now, Metadata := tx.Metadata } := by
  rcases tx with ⟨id, ref, amount, cur, intent, st, cust, pmid, prov, pmt, pms, save, cr, up, md⟩
  unfold TransactionRepository.insertBuilder
  simp only []
  cases md <;> cases save <;>
    simp only [fillRow_add, fillRow_addIf, fillRow_init, Option.some_bind,
      setTransactionValue_amount, setTransactionValue_currency, setTransactionValue_customer,
      setTransactionValue_status, setTransactionValue_id, setTransactionValue_reference,
      setTransactionValue_intent, setTransactionValue_save, setTransactionValue_metadata]
  all_goals
    rw [absorb_empty _ _ id (by intro h; subst h; rfl)]
    simp only [Option.some_bind]
    rw [absorb_empty _ _ ref (by intro h; subst h; rfl)]
    simp only [Option.some_bind]
    rw [absorb_empty _ _ intent (by intro h; subst h; rfl)]
    try simp only [Option.some_bind]
    rfl

/-- The insert of the transaction repository on the database appends one row
holding the fields of the record, stamped with the time of the insert. -/
theorem pool_create_transaction (ctx : Context) (tx : Transaction) (db : postgres.Store) :
    (NewTransactionRepository postgres.pool).Create ctx tx db =
      (Except.ok (),
       { db with transactions := db.transactions ++
          [{ Transaction.zero with
             ID := tx.ID, InternalReference := tx.InternalReference, Amount := tx.Amount,
             Currency := tx.Currency, PaymentIntentID := tx.PaymentIntentID,
             TxStatus := tx.TxStatus, CustomerID := tx.CustomerID,
             SavePaymentMethod := tx.SavePaymentMethod, CreatedAt := db.now,
             UpdatedAt := db.now, Metadata := tx.Metadata }] }) := by
  unfold TransactionRepository.Create
  simp only [NewTransactionRepository, postgres.pool, postgres.Exec, if_true,
    pool_fill_transaction]

/-- The insert built for a record whose save-payment-method flag is set binds the
column save_payment_method to the value of the flag. -/
theorem insertBuilder_binds_save (tx : Transaction) (v : Bool)
    (h : tx.SavePaymentMethod = some v) :
    ("save_payment_method", Any.bool v) ∈
      (TransactionRepository.insertBuilder tx).fields.zip
        (TransactionRepository.insertBuilder tx).values := by
  rcases tx with ⟨id, ref, amount, cur, intent, st, cust, pmid, prov, pmt, pms, save, cr, up, md⟩
  simp only at h
  subst h
  unfold TransactionRepository.insertBuilder
  cases md <;> by_cases h1 : id = "" <;> by_cases h2 : ref = "" <;>
    by_cases h3 : intent = "" <;>
    simp [InsertBuilder.init, InsertBuilder.add, InsertBuilder.addIf, h1, h2, h3]

/-- The succeeded branch of the dispatch issues one status update, on the
transaction repository, with the succeeded constant. -/
theorem dispatch_succeeded_statusUpdates {σ : Type}
    (transaction payment_method : ITransactionRepository σ) (ctx : Context)
    (provider : PaymentProvider) (event : PaymentEvent) (w : σ)
    (h : event.Type_ = PaymentSucceeded) :
    statusUpdates (dispatch transaction payment_method ctx provider event w).trace =
      [(TransactionRepo, PaymentSucceeded, intentFilter event)] := by
  unfold dispatch
  simp only [h, if_true]
  rcases hu : transaction.UpdateStatus ctx PaymentSucceeded (intentFilter event) w with ⟨r, w2⟩
  cases r with
  | error e => simp [Run.after, Run.done, statusUpdates]
  | ok u =>
    have hT := succeededTail_writes transaction payment_method ctx provider event w2
    simp only []
    generalize succeededTail transaction payment_method ctx provider event w2 = tail at hT ⊢
    simp [Run.after, statusUpdates, hT.1]

/-! ### The insert builders -/

theorem addAll_nil (b : InsertBuilder) : b.addAll [] = b := rfl

theorem addAll_cons (b : InsertBuilder) (c : String × Any) (cs : List (String × Any)) :
    b.addAll (c :: cs) = (b.add c.1 c.2).addAll cs := rfl

theorem addAll_append (b : InsertBuilder) (xs ys : List (String × Any)) :
    b.addAll (xs ++ ys) = (b.addAll xs).addAll ys := by
  unfold InsertBuilder.addAll
  rw [List.foldl_append]

theorem add_eq_addAll (b : InsertBuilder) (field : String) (v : Any) :
    b.add field v = b.addAll [(field, v)] := rfl

theorem addIf_eq_addAll (b : InsertBuilder) (present : Bool) (field : String) (v : Any) :
    b.addIf present field v = b.addAll (if present then [(field, v)] else []) := by
  cases present <;> rfl

theorem bne_empty_ite {α : Type} (v : String) (x y : α) :
    (if (v != "") = true then x else y) = (if v = "" then y else x) := by
  by_cases h : v = ""
  · simp [h]
  · simp [h]

/-- The builder of `TransactionRepository.Create` appends the specified columns
in their order. -/
theorem transaction_insertBuilder_eq (tx : Transaction) :
    TransactionRepository.insertBuilder tx =
      InsertBuilder.init.addAll (transactionInsertColumns tx) := by
  unfold TransactionRepository.insertBuilder transactionInsertColumns
  simp only [addAll_append, addIf_eq_addAll, bne_empty_ite]
  cases tx.SavePaymentMethod <;> cases tx.Metadata <;> rfl

theorem paymentMethod_insertBuilder_eq (tx : Transaction) :
    PaymentMethodRepository.insertBuilder tx =
      InsertBuilder.init.addAll (paymentMethodInsertColumns tx) := by
  unfold PaymentMethodRepository.insertBuilder paymentMethodInsertColumns
  simp only [addAll_append, addIf_eq_addAll, bne_empty_ite]
  rfl

theorem addAll_fields (b : InsertBuilder) (cs : List (String × Any)) :
    (b.addAll cs).fields = b.fields ++ cs.map Prod.fst ∧
    (b.addAll cs).values = b.values ++ cs.map Prod.snd ∧
    (b.addAll cs).pos = b.pos + cs.length ∧
    (b.addAll cs).params =
      b.params ++ (List.range cs.length).map (fun i => "$" ++ toString (b.pos + i)) := by
  induction cs generalizing b with
  | nil => simp [addAll_nil]
  | cons c cs ih =>
    rw [addAll_cons]
    obtain ⟨h1, h2, h3, h4⟩ := ih (b.add c.1 c.2)
    refine ⟨?_, ?_, ?_, ?_⟩
    · rw [h1]; simp [InsertBuilder.add]
    · rw [h2]; simp [InsertBuilder.add]
    · rw [h3]; simp [InsertBuilder.add]; omega
    · rw [h4]
      simp only [InsertBuilder.add, List.length_cons, List.range_succ_eq_map, List.map_cons,
        List.map_map, List.append_assoc, List.singleton_append, Nat.add_zero]
      congr 2
      apply List.map_congr_left
      intro i _
      simp only [Function.comp]
      congr 2
      omega

theorem journaled_create_transaction {σ : Type} (db : DB σ) (ctx : Context) (tx : Transaction)
    (w : σ) (log : List Statement) :
    ((NewTransactionRepository db.journaled).Create ctx tx (w, log)).2.2 =
      log ++ [{ sql := Sql.Insert "transactions" (TransactionRepository.insertBuilder tx).fields
                  (TransactionRepository.insertBuilder tx).params,
                args := (TransactionRepository.insertBuilder tx).values }] := by
  unfold TransactionRepository.Create
  simp only [NewTransactionRepository, DB.journaled]
  cases (db.Exec ctx (Sql.Insert "transactions" (TransactionRepository.insertBuilder tx).fields
      (TransactionRepository.insertBuilder tx).params)
      (TransactionRepository.insertBuilder tx).values w).1 <;> rfl

theorem journaled_create_paymentMethod {σ : Type} (db : DB σ) (ctx : Context) (tx : Transaction)
    (w : σ) (log : List Statement) :
    ((NewPaymentMethodRepository db.journaled).Create ctx tx (w, log)).2.2 =
      log ++ [{ sql := Sql.Insert "payment_methods"
                  (PaymentMethodRepository.insertBuilder tx).fields
                  (PaymentMethodRepository.insertBuilder tx).params,
                args := (PaymentMethodRepository.insertBuilder tx).values }] := by
  unfold PaymentMethodRepository.Create
  simp only [NewPaymentMethodRepository, DB.journaled]
  cases (db.Exec ctx (Sql.Insert "payment_methods" (PaymentMethodRepository.insertBuilder tx).fields
      (PaymentMethodRepository.insertBuilder tx).params)
      (PaymentMethodRepository.insertBuilder tx).values w).1 <;> rfl

theorem init_addAll (cs : List (String × Any)) :
    (InsertBuilder.init.addAll cs).fields = cs.map Prod.fst ∧
    (InsertBuilder.init.addAll cs).values = cs.map Prod.snd ∧
    (InsertBuilder.init.addAll cs).params = placeholders cs.length := by
  obtain ⟨h1, h2, _, h4⟩ := addAll_fields InsertBuilder.init cs
  refine ⟨by simpa [InsertBuilder.init] using h1, by simpa [InsertBuilder.init] using h2, ?_⟩
  rw [h4]
  simp only [InsertBuilder.init, List.nil_append, placeholders]
  apply List.map_congr_left
  intro i _
  congr 2
  omega

theorem transactionInsertColumns_names (tx : Transaction) :
    ∀ f ∈ (transactionInsertColumns tx).map Prod.fst, f ∈ transactionInsertNames := by
  unfold transactionInsertColumns transactionInsertNames
  intro f hf
  simp only [List.map_append, List.mem_append, List.mem_map] at hf
  rcases hf with ((((h | h) | h) | h) | h) | h
  all_goals
    obtain ⟨c, hc, rfl⟩ := h
    first
      | (split at hc <;> simp at hc <;> simp [hc])
      | (simp at hc; rcases hc with h | h | h | h <;> simp [h])

/-! ### The status update statement -/

theorem updateConditions_eq (filters : List (String × Any)) (pos : Nat) :
    updateConditions filters pos =
      ((filters.map Prod.fst).zip (List.range' pos filters.length), filters.map Prod.snd) := by
  induction filters generalizing pos with
  | nil => rfl
  | cons f fs ih =>
    obtain ⟨field, value⟩ := f
    simp only [updateConditions, ih, List.map_cons, List.length_cons, List.range'_succ,
      List.zip_cons_cons]

theorem updateConditions_filterConditions (filters : List (String × Any)) :
    (updateConditions filters 2).1 = filterConditions (filters.map Prod.fst) ∧
    (updateConditions filters 2).2 = filters.map Prod.snd := by
  rw [updateConditions_eq]
  simp [filterConditions]

/-- A wrapped database error is not the no-match message of the transaction
repository: the two start with different letters. -/
theorem wrapped_ne_no_match_transaction (err : String) :
    "failed to update transaction status: " ++ err ≠ "no matching transaction found" := by
  intro h
  have hd := congrArg String.data h
  simp only [String.data_append] at hd
  have h0 := congrArg List.head? hd
  simp at h0

/-- A wrapped database error is not the no-match message of the payment-method
repository. -/
theorem wrapped_ne_no_match_paymentMethod (err : String) :
    "failed to update payment method status: " ++ err ≠ "no matching payment method found" := by
  intro h
  have hd := congrArg String.data h
  simp only [String.data_append] at hd
  have h0 := congrArg List.head? hd
  simp at h0

theorem journaled_updateStatus_transaction {σ : Type} (db : DB σ) (ctx : Context)
    (status : String) (filters : List (String × Any)) (w : σ) (log : List Statement)
    (hne : filters ≠ []) :
    (NewTransactionRepository db.journaled).UpdateStatus ctx status filters (w, log) =
      (match (db.Exec ctx (Sql.Update "transactions" "tx_status"
            (filterConditions (filters.map Prod.fst)))
          (Any.str status :: filters.map Prod.snd) w).1 with
       | .error err => .error ("failed to update transaction status: " ++ err)
       | .ok rowsAffected =>
         if rowsAffected = 0 then .error "no matching transaction found" else .ok (),
       ((db.Exec ctx (Sql.Update "transactions" "tx_status"
            (filterConditions (filters.map Prod.fst)))
          (Any.str status :: filters.map Prod.snd) w).2,
        log ++ [{ sql := Sql.Update "transactions" "tx_status"
                    (filterConditions (filters.map Prod.fst)),
                  args := Any.str status :: filters.map Prod.snd }])) := by
  have hlen : filters.length > 0 := List.length_pos.mpr hne
  unfold TransactionRepository.UpdateStatus
  simp only [hlen, if_true, NewTransactionRepository, DB.journaled,
    (updateConditions_filterConditions filters).1, (updateConditions_filterConditions filters).2]
  rcases hx : db.Exec ctx (Sql.Update "transactions" "tx_status"
      (filterConditions (filters.map Prod.fst))) (Any.str status :: filters.map Prod.snd) w
    with ⟨r, w2⟩
  cases r with
  | error e => rfl
  | ok n =>
    by_cases hn : n = 0
    · simp [hn]
    · simp [hn]

theorem journaled_updateStatus_paymentMethod {σ : Type} (db : DB σ) (ctx : Context)
    (status : String) (filters : List (String × Any)) (w : σ) (log : List Statement)
    (hne : filters ≠ []) :
    (NewPaymentMethodRepository db.journaled).UpdateStatus ctx status filters (w, log) =
      (match (db.Exec ctx (Sql.Update "payment_methods" "pm_status"
            (filterConditions (filters.map Prod.fst)))
          (Any.str status :: filters.map Prod.snd) w).1 with
       | .error err => .error ("failed to update payment method status: " ++ err)
       | .ok rowsAffected =>
         if rowsAffected = 0 then .error "no matching payment method found" else .ok (),
       ((db.Exec ctx (Sql.Update "payment_methods" "pm_status"
            (filterConditions (filters.map Prod.fst)))
          (Any.str status :: filters.map Prod.snd) w).2,
        log ++ [{ sql := Sql.Update "payment_methods" "pm_status"
                    (filterConditions (filters.map Prod.fst)),
                  args := Any.str status :: filters.map Prod.snd }])) := by
  have hlen : filters.length > 0 := List.length_pos.mpr hne
  unfold PaymentMethodRepository.UpdateStatus
  simp only [hlen, if_true, NewPaymentMethodRepository, DB.journaled,
    (updateConditions_filterConditions filters).1, (updateConditions_filterConditions filters).2]
  rcases hx : db.Exec ctx (Sql.Update "payment_methods" "pm_status"
      (filterConditions (filters.map Prod.fst))) (Any.str status :: filters.map Prod.snd) w
    with ⟨r, w2⟩
  cases r with
  | error e => rfl
  | ok n =>
    by_cases hn : n = 0
    · simp [hn]
    · simp [hn]

/-- The outcome of a status update is the no-match error exactly when the
statement ran without error and affected no row. -/
theorem no_match_iff (failed noMatch : String) (hne : ∀ err, failed ++ err ≠ noMatch)
    (r : Except Error Nat) :
    (match r with
     | .error err => Except.error (failed ++ err)
     | .ok rowsAffected =>
       if rowsAffected = 0 then Except.error noMatch else Except.ok ()) =
      (Except.error noMatch : Except Error Unit) ↔ r = .ok 0 := by
  cases r with
  | error e =>
    simp only [Except.error.injEq, reduceCtorEq, iff_false]
    exact hne e
  | ok n =>
    by_cases hn : n = 0
    · simp [hn]
    · simp [hn]

/-! ### The column check of FindByColumn -/

theorem journaled_findByColumn_transaction {σ : Type} (db : DB σ) (ctx : Context)
    (column : String) (value : Any) (w : σ) (log : List Statement) :
    ((NewTransactionRepository db.journaled).FindByColumn ctx column value (w, log)).2.2 =
      if column ∈ TransactionRepository.validColumns then
        log ++ [{ sql := Sql.Select TransactionRepository.columns "transactions"
                    [(column, "=", 1)] true,
                  args := [value] }]
      else log := by
  unfold TransactionRepository.FindByColumn
  by_cases h : column ∈ TransactionRepository.validColumns
  · simp only [h, not_true_eq_false, if_false, if_true, NewTransactionRepository, DB.journaled]
    cases (db.Query ctx (Sql.Select TransactionRepository.columns "transactions"
      [(column, "=", 1)] true) [value] w).1 <;> rfl
  · simp only [h, not_false_eq_true, if_true, if_false]

theorem journaled_findByColumn_paymentMethod {σ : Type} (db : DB σ) (ctx : Context)
    (column : String) (value : Any) (w : σ) (log : List Statement) :
    ((NewPaymentMethodRepository db.journaled).FindByColumn ctx column value (w, log)).2.2 =
      if column ∈ PaymentMethodRepository.validColumns then
        log ++ [{ sql := Sql.Select PaymentMethodRepository.columns "payment_methods"
                    [(column, "=", 1)] true,
                  args := [value] }]
      else log := by
  unfold PaymentMethodRepository.FindByColumn
  by_cases h : column ∈ PaymentMethodRepository.validColumns
  · simp only [h, not_true_eq_false, if_false, if_true, NewPaymentMethodRepository,
      DB.journaled]
    cases (db.Query ctx (Sql.Select PaymentMethodRepository.columns "payment_methods"
      [(column, "=", 1)] true) [value] w).1 <;> rfl
  · simp only [h, not_false_eq_true, if_true, if_false]

theorem paymentMethodInsertColumns_names (tx : Transaction) :
    ∀ f ∈ (paymentMethodInsertColumns tx).map Prod.fst, f ∈ paymentMethodInsertNames := by
  unfold paymentMethodInsertColumns paymentMethodInsertNames
  intro f hf
  simp only [List.map_append, List.mem_append, List.mem_map] at hf
  rcases hf with (h | h) | h
  all_goals
    obtain ⟨c, hc, rfl⟩ := h
    first
      | (split at hc <;> simp at hc <;> simp [hc])
      | (simp at hc; rcases hc with h | h | h <;> simp [h])

/-! ### The Stripe adapter -/

/-- Without a header whose name equals the key under `EqualFold`, `GetHeader`
returns the empty string. -/
theorem getHeader_no_entry (EqualFold : String → String → Bool)
    (headers : List (String × List String)) (key : String)
    (h : ∀ kv ∈ headers, EqualFold kv.1 key = false) :
    utils.GetHeader EqualFold headers key = "" := by
  induction headers with
  | nil => rfl
  | cons kv rest ih =>
    obtain ⟨k, v⟩ := kv
    have hk : EqualFold k key = false := h (k, v) (List.mem_cons_self _ _)
    have hrest := ih (fun kv hkv => h kv (List.mem_cons_of_mem _ hkv))
    cases v with
    | nil => simpa [utils.GetHeader] using hrest
    | cons first others => simpa [utils.GetHeader, hk] using hrest

theorem stripe_parseWebhook_missing (a : adapters.StripeAdapter) (lib : adapters.Library)
    (ctx : Context) (raw : List UInt8) (headers : List (String × List String))
    (h : utils.GetHeader lib.EqualFold headers "Stripe-Signature" = "") :
    a.ParseWebhook lib ctx raw headers = .error "missing stripe-signature header" := by
  unfold adapters.StripeAdapter.ParseWebhook
  simp only [h, if_true]

theorem stripe_parseWebhook_invalid (a : adapters.StripeAdapter) (lib : adapters.Library)
    (ctx : Context) (raw : List UInt8) (headers : List (String × List String)) (e : Error)
    (hsig : utils.GetHeader lib.EqualFold headers "Stripe-Signature" ≠ "")
    (h : lib.ConstructEvent raw (utils.GetHeader lib.EqualFold headers "Stripe-Signature")
      a.webhookSecret = .error e) :
    a.ParseWebhook lib ctx raw headers = .error "invalid webhook signature" := by
  unfold adapters.StripeAdapter.ParseWebhook
  simp only [hsig, if_false, h]

theorem stripe_parseWebhook_other (a : adapters.StripeAdapter) (lib : adapters.Library)
    (ctx : Context) (raw : List UInt8) (headers : List (String × List String))
    (event : stripe.Event)
    (hsig : utils.GetHeader lib.EqualFold headers "Stripe-Signature" ≠ "")
    (hev : lib.ConstructEvent raw (utils.GetHeader lib.EqualFold headers "Stripe-Signature")
      a.webhookSecret = .ok event)
    (h1 : event.Type_ ≠ "payment_intent.succeeded")
    (h2 : event.Type_ ≠ "payment_intent.payment_failed")
    (h3 : event.Type_ ≠ "payment_intent.canceled") :
    a.ParseWebhook lib ctx raw headers =
      .ok { Type_ := event.Type_, PaymentIntent := "", PaymentMethod := "",
            Payload := EventPayload.text "Omitted" } := by
  unfold adapters.StripeAdapter.ParseWebhook
  simp only [hsig, if_false, hev, h1, h2, h3, or_self]

theorem stripe_parseWebhook_failed (a : adapters.StripeAdapter) (lib : adapters.Library)
    (ctx : Context) (raw : List UInt8) (headers : List (String × List String))
    (event : stripe.Event) (paymentIntent : stripe.PaymentIntent)
    (hsig : utils.GetHeader lib.EqualFold headers "Stripe-Signature" ≠ "")
    (hev : lib.ConstructEvent raw (utils.GetHeader lib.EqualFold headers "Stripe-Signature")
      a.webhookSecret = .ok event)
    (htype : event.Type_ = "payment_intent.payment_failed")
    (hdec : lib.Unmarshal event.DataRaw = .ok paymentIntent) :
    a.ParseWebhook lib ctx raw headers =
      .ok { Type_ := PaymentFailed, PaymentIntent := paymentIntent.ID,
            PaymentMethod := adapters.paymentMethodID paymentIntent,
            Payload := EventPayload.intent
              { ID := paymentIntent.ID, Amount := paymentIntent.Amount,
                Currency := paymentIntent.Currency, Status := paymentIntent.Status,
                ClientSecret := "" } } := by
  unfold adapters.StripeAdapter.ParseWebhook
  simp only [hsig, if_false, hev, htype, hdec, adapters.eventType, if_true, or_true, true_or]

/-! ### The dispatch of ParseWebhook -/

/-- The result of the block after the status update: the event, unless the
transaction lookup fails. -/
theorem succeededTail_result {σ : Type} (transaction payment_method : ITransactionRepository σ)
    (ctx : Context) (provider : PaymentProvider) (event : PaymentEvent) (w : σ) :
    (succeededTail transaction payment_method ctx provider event w).result =
      match (transaction.FindByPaymentIntent ctx event.PaymentIntent w).1 with
      | .error err => .error ("Error while finding payment intent: " ++ err)
      | .ok _ => .ok event := by
  unfold succeededTail
  rcases hf : transaction.FindByPaymentIntent ctx event.PaymentIntent w with ⟨r, w1⟩
  cases r with
  | error e => simp [Run.after, Run.done]
  | ok txdata =>
    by_cases hs : txdata.SavePaymentMethod = some true
    · simp only [hs, if_true]
      rcases hfind : payment_method.FindByID ctx event.PaymentMethod w1 with ⟨r2, w2⟩
      cases r2 with
      | ok pm => simp [Run.after, Run.done]
      | error e =>
        rcases hcr : payment_method.Create ctx
          (newPm txdata.CustomerID event.PaymentMethod provider) w2 with ⟨r3, w3⟩
        cases r3 <;> simp [hcr, Run.after, Run.done]
    · simp [hs, Run.after, Run.done]

/-- An event whose type is none of the three normalized types is returned without
any call. -/
theorem dispatch_other {σ : Type} (transaction payment_method : ITransactionRepository σ)
    (ctx : Context) (provider : PaymentProvider) (event : PaymentEvent) (w : σ)
    (h1 : event.Type_ ≠ PaymentSucceeded) (h2 : event.Type_ ≠ PaymentFailed)
    (h3 : event.Type_ ≠ PaymentCancelled) :
    dispatch transaction payment_method ctx provider event w = Run.done (.ok event) w := by
  unfold dispatch
  simp only [h1, h2, h3, if_false]

/-- Every status update of the dispatch is on the transaction repository, sets
one of the three terminal statuses and filters on the payment intent id. -/
theorem dispatch_statusUpdates {σ : Type} (transaction payment_method : ITransactionRepository σ)
    (ctx : Context) (provider : PaymentProvider) (event : PaymentEvent) (w : σ) :
    ∀ u ∈ statusUpdates (dispatch transaction payment_method ctx provider event w).trace,
      u.1 = TransactionRepo ∧
      (u.2.1 = PaymentSucceeded ∨ u.2.1 = PaymentFailed ∨ u.2.1 = PaymentCancelled) ∧
      u.2.2 = intentFilter event := by
  intro u hu
  unfold dispatch at hu
  by_cases h1 : event.Type_ = PaymentSucceeded
  · simp only [h1, if_true] at hu
    rcases hx : transaction.UpdateStatus ctx PaymentSucceeded (intentFilter event) w with ⟨r, w2⟩
    rw [hx] at hu
    cases r with
    | error e =>
      simp [Run.after, Run.done, statusUpdates] at hu
      simp [hu]
    | ok x =>
      have hT := succeededTail_writes transaction payment_method ctx provider event w2
      simp only [] at hu
      generalize succeededTail transaction payment_method ctx provider event w2 = tail at hT hu
      simp [Run.after, statusUpdates, hT.1] at hu
      simp [hu]
  · by_cases h2 : event.Type_ = PaymentFailed
    · simp only [h1, h2, if_true, if_false] at hu
      rcases hx : transaction.UpdateStatus ctx PaymentFailed (intentFilter event) w with ⟨r, w2⟩
      rw [hx] at hu
      cases r <;> simp [Run.after, Run.done, statusUpdates] at hu <;> simp [hu]
    · by_cases h3 : event.Type_ = PaymentCancelled
      · simp only [h1, h2, h3, if_true, if_false] at hu
        rcases hx : transaction.UpdateStatus ctx PaymentCancelled (intentFilter event) w
          with ⟨r, w2⟩
        rw [hx] at hu
        cases r <;> simp [Run.after, Run.done, statusUpdates] at hu <;> simp [hu]
      · simp [h1, h2, h3, Run.done, statusUpdates] at hu

/-! ### Webhook deliveries on the database -/

/-- The status update by payment intent id on the database, for an intent that
has a row. -/
theorem pool_updateStatus_existing (ctx : Context) (status id : String) (w : postgres.Store)
    (h : ∃ r ∈ w.transactions, r.PaymentIntentID = id) :
    (NewTransactionRepository postgres.pool).UpdateStatus ctx status
        [("payment_intent_id", Any.str id)] w =
      (Except.ok (), { w with transactions := updatedRows status id w.now w.transactions }) := by
  rw [pool_updateStatus_intent]
  have hz : ¬ (w.transactions.countP (fun r => decide (r.PaymentIntentID = id)) = 0) := by
    rw [List.countP_eq_zero]
    obtain ⟨r, hr, hid⟩ := h
    intro hall
    exact hall r hr (by simp [hid])
  simp only [hz, if_false, updatedRows]

theorem pool_rowMatches_intent_select (id : String) (r : Transaction) :
    postgres.rowMatches postgres.transactionValue [("payment_intent_id", "=", 1)]
      [Any.str id] r = decide (r.PaymentIntentID = id) := by
  simp [postgres.rowMatches, postgres.compare, postgres.transactionValue]

/-- Scanning the eleven columns of a stored row gives the row back without its
payment-method fields. -/
theorem scan11_row (r : Transaction) :
    TransactionRepository.scan11
      (TransactionRepository.columns.map (fun c => postgres.transactionValue c r)) =
      .ok { Transaction.zero with
            ID := r.ID, InternalReference := r.InternalReference, Amount := r.Amount,
            Currency := r.Currency, PaymentIntentID := r.PaymentIntentID,
            TxStatus := r.TxStatus, CustomerID := r.CustomerID,
            SavePaymentMethod := r.SavePaymentMethod, CreatedAt := r.CreatedAt,
            UpdatedAt := r.UpdatedAt, Metadata := r.Metadata } := by
  rcases r with ⟨id, ref, amount, cur, intent, st, cust, pmid, prov, pmt, pms, save, cr, up, md⟩
  cases save <;> cases md <;> rfl

/-- The lookup by payment intent id on the database returns the first row of the
intent. -/
theorem pool_findByPaymentIntent (ctx : Context) (id : String) (w : postgres.Store) :
    (NewTransactionRepository postgres.pool).FindByPaymentIntent ctx id w =
      (match w.transactions.filter (fun r => decide (r.PaymentIntentID = id)) with
       | [] => (Except.error "error getting transaction: no rows in result set", w)
       | r :: _ =>
         (Except.ok { Transaction.zero with
            ID := r.ID, InternalReference := r.InternalReference, Amount := r.Amount,
            Currency := r.Currency, PaymentIntentID := r.PaymentIntentID,
            TxStatus := r.TxStatus, CustomerID := r.CustomerID,
            SavePaymentMethod := r.SavePaymentMethod, CreatedAt := r.CreatedAt,
            UpdatedAt := r.UpdatedAt, Metadata := r.Metadata }, w)) := by
  have hwf : postgres.wellFormed postgres.transactionColumns [("payment_intent_id", "=", 1)]
      [Any.str id] = true := by
    simp [postgres.wellFormed, postgres.transactionColumns]
  have hcols : (TransactionRepository.columns.all
      fun c => decide (c ∈ postgres.transactionColumns)) = true := by decide
  have hstar : ¬ (TransactionRepository.columns = ["*"]) := by decide
  have hm : postgres.rowMatches postgres.transactionValue
      [("payment_intent_id", "=", 1)] [Any.str id] =
      (fun r => decide (r.PaymentIntentID = id)) := by
    funext r; exact pool_rowMatches_intent_select id r
  unfold TransactionRepository.FindByPaymentIntent
  simp only [NewTransactionRepository, postgres.pool, postgres.QueryRow, postgres.selectRows,
    if_true, hstar, if_false, hcols, hwf, hm, Bool.and_self, Bool.false_eq_true]
  cases w.transactions.filter (fun r => decide (r.PaymentIntentID = id)) with
  | nil => rfl
  | cons r rs =>
    simp only [List.map_cons, wrapError, scan11_row]

/-- The insert of a remembered payment method on the database appends its row. -/
theorem pool_create_remembered (ctx : Context) (customerID paymentMethodID : String)
    (provider : PaymentProvider) (w : postgres.Store) :
    (NewPaymentMethodRepository postgres.pool).Create ctx
        (newPm customerID paymentMethodID provider) w =
      (Except.ok (),
       { w with payment_methods := w.payment_methods ++
          [rememberedRow customerID paymentMethodID provider w.now] }) := by
  rfl

theorem updatedRows_filter (status id : String) (now : Nat) (rows : List Transaction) :
    (updatedRows status id now rows).filter (fun r => decide (r.PaymentIntentID = id)) =
      (rows.filter (fun r => decide (r.PaymentIntentID = id))).map
        (fun r => { r with TxStatus := status, UpdatedAt := now }) := by
  induction rows with
  | nil => rfl
  | cons r rest ih =>
    unfold updatedRows at ih ⊢
    by_cases h : r.PaymentIntentID = id
    · simp only [List.map_cons, h, if_true, List.filter_cons, decide_True, ih]
    · simp only [List.map_cons, h, if_false, List.filter_cons, decide_False, ih]
      simp

theorem updatedRows_status (status id : String) (now : Nat) (rows : List Transaction) :
    ∀ r ∈ updatedRows status id now rows, r.PaymentIntentID = id → r.TxStatus = status := by
  intro r hr hid
  unfold updatedRows at hr
  rw [List.mem_map] at hr
  obtain ⟨r0, _, h0⟩ := hr
  by_cases h : r0.PaymentIntentID = id
  · simp only [h, if_true] at h0
    rw [← h0]
  · simp only [h, if_false] at h0
    rw [h0] at h
    exact absurd hid h

theorem filter_ne_nil_of_row (id : String) (rows : List Transaction)
    (h : ∃ r ∈ rows, r.PaymentIntentID = id) :
    ∃ r rest, rows.filter (fun r => decide (r.PaymentIntentID = id)) = r :: rest := by
  obtain ⟨r, hr, hid⟩ := h
  have hmem : r ∈ rows.filter (fun r => decide (r.PaymentIntentID = id)) := by
    rw [List.mem_filter]; exact ⟨hr, by simp [hid]⟩
  cases hf : rows.filter (fun r => decide (r.PaymentIntentID = id)) with
  | nil => rw [hf] at hmem; cases hmem
  | cons a rest => exact ⟨a, rest, rfl⟩

/-- The dispatch of a failed event on the database, for an intent that has a
row: the event is returned, the rows of the intent get the failed status, and
nothing else changes. -/
theorem pool_dispatch_failed (ctx : Context) (provider : PaymentProvider)
    (event : PaymentEvent) (w : postgres.Store)
    (payment_method : ITransactionRepository postgres.Store)
    (htype : event.Type_ = PaymentFailed)
    (hrow : ∃ r ∈ w.transactions, r.PaymentIntentID = event.PaymentIntent) :
    dispatch (NewTransactionRepository postgres.pool).asRepository payment_method ctx provider
        event w =
      Run.after (.UpdateStatus TransactionRepo ctx PaymentFailed (intentFilter event))
        (Run.done (.ok event)
          { w with transactions :=
              updatedRows PaymentFailed event.PaymentIntent w.now w.transactions }) := by
  have hu : (NewTransactionRepository postgres.pool).asRepository.UpdateStatus ctx
      PaymentFailed (intentFilter event) w = _ :=
    pool_updateStatus_existing ctx PaymentFailed event.PaymentIntent w hrow
  have hne : ¬ (PaymentFailed = PaymentSucceeded) := by decide
  unfold dispatch
  simp only [htype, hne, if_true, if_false, hu]

theorem chargeTail_statusUpdates {σ : Type} (payment_method : ITransactionRepository σ)
    (ctx : Context) (provider : PaymentProvider) (req : PaymentIntentRequest)
    (res : PaymentProcessorResponse) (w : σ) :
    statusUpdates (chargeTail payment_method ctx provider req res w).trace = [] := by
  unfold chargeTail
  split
  · rcases hf : payment_method.FindByID ctx res.PaymentMethodID w with ⟨r, w1⟩
    cases r with
    | ok pm => simp [Run.after, Run.done, statusUpdates]
    | error e =>
      rcases hc : payment_method.Create ctx
        (newPm req.CustomerID res.PaymentMethodID provider) w1 with ⟨r2, w2⟩
      cases r2 <;> simp [hc, Run.after, Run.done, statusUpdates]
  · rfl

/-- The operation `CreatePaymentIntent` issues no status update, and every record
it hands to the transaction repository is pending. -/
theorem createPaymentIntent_statuses {σ : Type} (s : PaymentService σ) (ctx : Context)
    (provider : PaymentProvider) (req : PaymentIntentRequest) (w : σ) :
    statusUpdates (s.CreatePaymentIntent ctx provider req w).trace = [] ∧
    ∀ tx ∈ createdOn TransactionRepo (s.CreatePaymentIntent ctx provider req w).trace,
      tx.TxStatus = Pending := by
  cases hp : s.providerRegistry.Get provider with
  | error e =>
    simp [PaymentService.CreatePaymentIntent, hp, Run.done, statusUpdates, createdOn]
  | ok processor =>
    cases hr : s.repositoryRegistry.Get TransactionRepo with
    | error e =>
      simp [PaymentService.CreatePaymentIntent, hp, hr, Run.done, statusUpdates, createdOn]
    | ok transaction =>
      rw [createPaymentIntent_of_lookups s ctx provider req w processor transaction hp hr]
      rcases hc : processor.CreatePaymentIntent (ctx.WithTimeout 2) req w with ⟨r, w1⟩
      cases r with
      | error e => simp [Run.after, Run.done, statusUpdates, createdOn]
      | ok pi =>
        rcases hx : transaction.Create (ctx.WithTimeout 2) (CreatePaymentIntent.newPi pi req) w1
          with ⟨r2, w2⟩
        cases r2 <;>
          (simp only [hx]
           simp [Run.after, Run.done, statusUpdates, createdOn, CreatePaymentIntent.newPi])

/-- The operation `ChargeClient` issues no status update, and every record it
hands to the transaction repository has the succeeded status. -/
theorem chargeClient_statuses {σ : Type} (s : PaymentService σ) (ctx : Context)
    (provider : PaymentProvider) (req : PaymentIntentRequest) (w : σ) :
    statusUpdates (s.ChargeClient ctx provider req w).trace = [] ∧
    ∀ tx ∈ createdOn TransactionRepo (s.ChargeClient ctx provider req w).trace,
      tx.TxStatus = PaymentSucceeded := by
  cases hp : s.providerRegistry.Get provider with
  | error e =>
    simp [PaymentService.ChargeClient, hp, Run.done, statusUpdates, createdOn]
  | ok processor =>
    cases ht : s.repositoryRegistry.Get TransactionRepo with
    | error e =>
      simp [PaymentService.ChargeClient, hp, ht, Run.done, statusUpdates, createdOn]
    | ok transaction =>
      cases hm : s.repositoryRegistry.Get PaymentRepo with
      | error e =>
        simp [PaymentService.ChargeClient, hp, ht, hm, Run.done, statusUpdates, createdOn]
      | ok payment_method =>
        rw [chargeClient_of_lookups s ctx provider req w processor transaction payment_method
          hp ht hm]
        rcases hc : processor.ChargeClient (ctx.WithTimeout 2) req w with ⟨r, w1⟩
        cases r with
        | error e => simp [Run.after, Run.done, statusUpdates, createdOn]
        | ok res =>
          rcases hx : transaction.Create (ctx.WithTimeout 2) (ChargeClient.newPi res req) w1
            with ⟨r2, w2⟩
          cases r2 with
          | error e =>
            simp only [hx]
            simp [Run.after, Run.done, statusUpdates, createdOn, ChargeClient.newPi]
          | ok x =>
            have h1 := chargeTail_statusUpdates payment_method (ctx.WithTimeout 2) provider req
              res w2
            have h2 := chargeTail_createdOn_transactionRepo payment_method (ctx.WithTimeout 2)
              provider req res w2
            simp only [hx]
            generalize chargeTail payment_method (ctx.WithTimeout 2) provider req res w2 = tail
              at h1 h2
            simp [Run.after, statusUpdates, createdOn, h1, h2, ChargeClient.newPi]

theorem dispatch_createdOn_transactionRepo {σ : Type}
    (transaction payment_method : ITransactionRepository σ)
    (ctx : Context) (provider : PaymentProvider) (event : PaymentEvent) (w : σ) :
    createdOn TransactionRepo
      (dispatch transaction payment_method ctx provider event w).trace = [] := by
  unfold dispatch
  by_cases h1 : event.Type_ = PaymentSucceeded
  · simp only [h1, if_true]
    rcases hx : transaction.UpdateStatus ctx PaymentSucceeded (intentFilter event) w with ⟨r, w2⟩
    cases r with
    | error e => simp [Run.after, Run.done, createdOn]
    | ok x =>
      have hT := succeededTail_writes transaction payment_method ctx provider event w2
      simp only []
      generalize succeededTail transaction payment_method ctx provider event w2 = tail at hT
      simp [Run.after, createdOn, hT.2]
  · by_cases h2 : event.Type_ = PaymentFailed
    · simp only [h1, h2, if_true, if_false]
      rcases hx : transaction.UpdateStatus ctx PaymentFailed (intentFilter event) w with ⟨r, w2⟩
      cases r <;> simp [Run.after, Run.done, createdOn]
    · by_cases h3 : event.Type_ = PaymentCancelled
      · simp only [h1, h2, h3, if_true, if_false]
        rcases hx : transaction.UpdateStatus ctx PaymentCancelled (intentFilter event) w
          with ⟨r, w2⟩
        cases r <;> simp [Run.after, Run.done, createdOn]
      · simp [h1, h2, h3, Run.done, createdOn]

/-- Every status update of `ParseWebhook` is on the transaction repository and
sets one of the three terminal statuses; the operation hands no record to the
transaction repository. -/
theorem parseWebhook_statuses {σ : Type} (s : PaymentService σ) (ctx : Context)
    (provider : PaymentProvider) (raw : List UInt8) (headers : List (String × List String))
    (w : σ) :
    (∀ u ∈ statusUpdates (s.ParseWebhook ctx provider raw headers w).trace,
      u.1 = TransactionRepo ∧
      (u.2.1 = PaymentSucceeded ∨ u.2.1 = PaymentFailed ∨ u.2.1 = PaymentCancelled)) ∧
    createdOn TransactionRepo (s.ParseWebhook ctx provider raw headers w).trace = [] := by
  cases hp : s.providerRegistry.Get provider with
  | error e =>
    simp [PaymentService.ParseWebhook, hp, Run.done, statusUpdates, createdOn]
  | ok processor =>
    cases ht : s.repositoryRegistry.Get TransactionRepo with
    | error e =>
      simp [PaymentService.ParseWebhook, hp, ht, Run.done, statusUpdates, createdOn]
    | ok transaction =>
      cases hm : s.repositoryRegistry.Get PaymentRepo with
      | error e =>
        simp [PaymentService.ParseWebhook, hp, ht, hm, Run.done, statusUpdates, createdOn]
      | ok payment_method =>
        rw [parseWebhook_of_lookups s ctx provider raw headers w processor transaction
          payment_method hp ht hm]
        rcases hx : processor.ParseWebhook (ctx.WithTimeout 5) raw headers w with ⟨r, w1⟩
        cases r with
        | error e => simp [Run.after, Run.done, statusUpdates, createdOn]
        | ok event =>
          have h1 := dispatch_statusUpdates transaction payment_method (ctx.WithTimeout 5)
            provider event w1
          have h2 := dispatch_createdOn_transactionRepo transaction payment_method
            (ctx.WithTimeout 5) provider event w1
          simp only []
          generalize dispatch transaction payment_method (ctx.WithTimeout 5) provider event w1
            = run at h1 h2
          refine ⟨?_, ?_⟩
          · intro u hu
            simp only [Run.after, statusUpdates] at hu
            exact ⟨(h1 u hu).1, (h1 u hu).2.1⟩
          · simp [Run.after, createdOn, h2]

/-- The method `WithTransaction` of the transaction repository keeps the
contract. -/
theorem transaction_withTransaction_contract {σ : Type} (r : TransactionRepository σ)
    (Begin : Context → σ → Except Error (Tx σ) × σ) (ctx : Context)
    (fn : TransactionRepository σ → σ → Outcome (Except Error Unit) × σ) (w : σ) :
    TransactionContract Begin ctx (fun tx => fn { db := tx.db }) w
      (r.WithTransaction Begin ctx fn w) := by
  unfold TransactionContract TransactionRepository.WithTransaction
  refine ⟨?_, ?_⟩
  · intro err w1 hb
    simp [hb]
  · intro tx w1 hb
    simp only [hb]
    rcases hf : fn { db := tx.db } w1 with ⟨out, w2⟩
    cases out with
    | panicked p => simp
    | returned res =>
      cases res with
      | ok u => simp
      | error e =>
        rcases hr : tx.Rollback ctx w2 with ⟨rb, w3⟩
        cases rb <;> simp [hr]

/-- The method `WithTransaction` of the payment-method repository keeps the
contract. -/
theorem paymentMethod_withTransaction_contract {σ : Type} (r : PaymentMethodRepository σ)
    (Begin : Context → σ → Except Error (Tx σ) × σ) (ctx : Context)
    (fn : PaymentMethodRepository σ → σ → Outcome (Except Error Unit) × σ) (w : σ) :
    TransactionContract Begin ctx (fun tx => fn { db := tx.db }) w
      (r.WithTransaction Begin ctx fn w) := by
  unfold TransactionContract PaymentMethodRepository.WithTransaction
  refine ⟨?_, ?_⟩
  · intro err w1 hb
    simp [hb]
  · intro tx w1 hb
    simp only [hb]
    rcases hf : fn { db := tx.db } w1 with ⟨out, w2⟩
    cases out with
    | panicked p => simp
    | returned res =>
      cases res with
      | ok u => simp
      | error e =>
        rcases hr : tx.Rollback ctx w2 with ⟨rb, w3⟩
        cases rb <;> simp [hr]

/-! ### The provider calls of the operations -/

theorem providerCalls_create (t : String) (ctx : Context) (tx : Transaction) (rest : List Call) :
    providerCalls (Call.Create t ctx tx :: rest) = providerCalls rest := rfl

theorem providerCalls_findByID (t : String) (ctx : Context) (id : String) (rest : List Call) :
    providerCalls (Call.FindByID t ctx id :: rest) = providerCalls rest := rfl

theorem providerCalls_findByPaymentIntent (t : String) (ctx : Context) (id : String)
    (rest : List Call) :
    providerCalls (Call.FindByPaymentIntent t ctx id :: rest) = providerCalls rest := rfl

theorem providerCalls_updateStatus (t : String) (ctx : Context) (status : String)
    (filters : List (String × Any)) (rest : List Call) :
    providerCalls (Call.UpdateStatus t ctx status filters :: rest) = providerCalls rest := rfl

theorem providerCalls_log (line : String) (rest : List Call) :
    providerCalls (Call.Log line :: rest) = providerCalls rest := rfl

theorem providerCalls_procCreatePaymentIntent (p : PaymentProvider) (ctx : Context)
    (req : PaymentIntentRequest) (rest : List Call) :
    providerCalls (Call.ProcCreatePaymentIntent p ctx req :: rest) =
      Call.ProcCreatePaymentIntent p ctx req :: providerCalls rest := rfl

theorem providerCalls_procGetPaymentIntent (p : PaymentProvider) (ctx : Context)
    (id : String) (rest : List Call) :
    providerCalls (Call.ProcGetPaymentIntent p ctx id :: rest) =
      Call.ProcGetPaymentIntent p ctx id :: providerCalls rest := rfl

theorem providerCalls_procChargeClient (p : PaymentProvider) (ctx : Context)
    (req : PaymentIntentRequest) (rest : List Call) :
    providerCalls (Call.ProcChargeClient p ctx req :: rest) =
      Call.ProcChargeClient p ctx req :: providerCalls rest := rfl

theorem providerCalls_procParseWebhook (p : PaymentProvider) (ctx : Context)
    (raw : List UInt8) (headers : List (String × List String)) (rest : List Call) :
    providerCalls (Call.ProcParseWebhook p ctx raw headers :: rest) =
      Call.ProcParseWebhook p ctx raw headers :: providerCalls rest := rfl

theorem providerCalls_nil : providerCalls [] = [] := rfl

theorem chargeTail_providerCalls {σ : Type} (payment_method : ITransactionRepository σ)
    (ctx : Context) (provider : PaymentProvider) (req : PaymentIntentRequest)
    (res : PaymentProcessorResponse) (w : σ) :
    providerCalls (chargeTail payment_method ctx provider req res w).trace = [] := by
  unfold chargeTail
  split
  · rcases hf : payment_method.FindByID ctx res.PaymentMethodID w with ⟨r, w1⟩
    cases r with
    | ok pm => simp [Run.after, Run.done, providerCalls_create, providerCalls_findByID,
        providerCalls_findByPaymentIntent, providerCalls_updateStatus, providerCalls_log,
        providerCalls_procCreatePaymentIntent, providerCalls_procGetPaymentIntent,
        providerCalls_procChargeClient, providerCalls_procParseWebhook, providerCalls_nil]
    | error e =>
      rcases hc : payment_method.Create ctx
        (newPm req.CustomerID res.PaymentMethodID provider) w1 with ⟨r2, w2⟩
      cases r2 <;> simp [hc, Run.after, Run.done, providerCalls_create, providerCalls_findByID,
          providerCalls_findByPaymentIntent, providerCalls_updateStatus, providerCalls_log,
          providerCalls_procCreatePaymentIntent, providerCalls_procGetPaymentIntent,
          providerCalls_procChargeClient, providerCalls_procParseWebhook, providerCalls_nil]
  · rfl

theorem succeededTail_providerCalls {σ : Type}
    (transaction payment_method : ITransactionRepository σ)
    (ctx : Context) (provider : PaymentProvider) (event : PaymentEvent) (w : σ) :
    providerCalls (succeededTail transaction payment_method ctx provider event w).trace = [] := by
  unfold succeededTail
  rcases hf : transaction.FindByPaymentIntent ctx event.PaymentIntent w with ⟨r, w1⟩
  cases r with
  | error e => simp [Run.after, Run.done, providerCalls_create, providerCalls_findByID,
      providerCalls_findByPaymentIntent, providerCalls_updateStatus, providerCalls_log,
      providerCalls_procCreatePaymentIntent, providerCalls_procGetPaymentIntent,
      providerCalls_procChargeClient, providerCalls_procParseWebhook, providerCalls_nil]
  | ok txdata =>
    by_cases hs : txdata.SavePaymentMethod = some true
    · simp only [hs, if_true]
      rcases hfind : payment_method.FindByID ctx event.PaymentMethod w1 with ⟨r2, w2⟩
      cases r2 with
      | ok pm => simp [Run.after, Run.done, providerCalls_create, providerCalls_findByID,
          providerCalls_findByPaymentIntent, providerCalls_updateStatus, providerCalls_log,
          providerCalls_procCreatePaymentIntent, providerCalls_procGetPaymentIntent,
          providerCalls_procChargeClient, providerCalls_procParseWebhook, providerCalls_nil]
      | error e =>
        rcases hcr : payment_method.Create ctx
          (newPm txdata.CustomerID event.PaymentMethod provider) w2 with ⟨r3, w3⟩
        cases r3 <;> simp [hcr, Run.after, Run.done, providerCalls_create, providerCalls_findByID,
            providerCalls_findByPaymentIntent, providerCalls_updateStatus, providerCalls_log,
            providerCalls_procCreatePaymentIntent, providerCalls_procGetPaymentIntent,
            providerCalls_procChargeClient, providerCalls_procParseWebhook, providerCalls_nil]
    · simp [hs, Run.after, Run.done, providerCalls_create, providerCalls_findByID,
        providerCalls_findByPaymentIntent, providerCalls_updateStatus, providerCalls_log,
        providerCalls_procCreatePaymentIntent, providerCalls_procGetPaymentIntent,
        providerCalls_procChargeClient, providerCalls_procParseWebhook, providerCalls_nil]

theorem dispatch_providerCalls {σ : Type}
    (transaction payment_method : ITransactionRepository σ)
    (ctx : Context) (provider : PaymentProvider) (event : PaymentEvent) (w : σ) :
    providerCalls (dispatch transaction payment_method ctx provider event w).trace = [] := by
  unfold dispatch
  split_ifs with h1 h2 h3
  · rcases hx : transaction.UpdateStatus ctx PaymentSucceeded (intentFilter event) w
      with ⟨r, w2⟩
    cases r with
    | error e => simp [Run.after, Run.done, providerCalls_create, providerCalls_findByID,
        providerCalls_findByPaymentIntent, providerCalls_updateStatus, providerCalls_log,
        providerCalls_procCreatePaymentIntent, providerCalls_procGetPaymentIntent,
        providerCalls_procChargeClient, providerCalls_procParseWebhook, providerCalls_nil]
    | ok x =>
      have hT := succeededTail_providerCalls transaction payment_method ctx provider event w2
      simp only []
      generalize succeededTail transaction payment_method ctx provider event w2 = tail at hT
      simp [Run.after, providerCalls_create, providerCalls_findByID,
          providerCalls_findByPaymentIntent, providerCalls_updateStatus, providerCalls_log,
          providerCalls_procCreatePaymentIntent, providerCalls_procGetPaymentIntent,
          providerCalls_procChargeClient, providerCalls_procParseWebhook, providerCalls_nil, hT]
  · rcases hx : transaction.UpdateStatus ctx PaymentFailed (intentFilter event) w with ⟨r, w2⟩
    cases r <;> simp [Run.after, Run.done, providerCalls_create, providerCalls_findByID,
        providerCalls_findByPaymentIntent, providerCalls_updateStatus, providerCalls_log,
        providerCalls_procCreatePaymentIntent, providerCalls_procGetPaymentIntent,
        providerCalls_procChargeClient, providerCalls_procParseWebhook, providerCalls_nil]
  · rcases hx : transaction.UpdateStatus ctx PaymentCancelled (intentFilter event) w
      with ⟨r, w2⟩
    cases r <;> simp [Run.after, Run.done, providerCalls_create, providerCalls_findByID,
        providerCalls_findByPaymentIntent, providerCalls_updateStatus, providerCalls_log,
        providerCalls_procCreatePaymentIntent, providerCalls_procGetPaymentIntent,
        providerCalls_procChargeClient, providerCalls_procParseWebhook, providerCalls_nil]
  · rfl

/-- Every provider call of `CreatePaymentIntent` carries the context with the
budget of 2 seconds. -/
theorem createPaymentIntent_providerCalls {σ : Type} (s : PaymentService σ) (ctx : Context)
    (provider : PaymentProvider) (req : PaymentIntentRequest) (w : σ) :
    ∀ c ∈ providerCalls (s.CreatePaymentIntent ctx provider req w).trace,
      c = Call.ProcCreatePaymentIntent provider (ctx.WithTimeout 2) req := by
  cases hp : s.providerRegistry.Get provider with
  | error e => simp [PaymentService.CreatePaymentIntent, hp, Run.done, providerCalls_create,
      providerCalls_findByID, providerCalls_findByPaymentIntent, providerCalls_updateStatus,
      providerCalls_log, providerCalls_procCreatePaymentIntent, providerCalls_procGetPaymentIntent,
      providerCalls_procChargeClient, providerCalls_procParseWebhook, providerCalls_nil]
  | ok processor =>
    cases hr : s.repositoryRegistry.Get TransactionRepo with
    | error e => simp [PaymentService.CreatePaymentIntent, hp, hr, Run.done, providerCalls_create,
        providerCalls_findByID, providerCalls_findByPaymentIntent, providerCalls_updateStatus,
        providerCalls_log, providerCalls_procCreatePaymentIntent,
        providerCalls_procGetPaymentIntent, providerCalls_procChargeClient,
        providerCalls_procParseWebhook, providerCalls_nil]
    | ok transaction =>
      rw [createPaymentIntent_of_lookups s ctx provider req w processor transaction hp hr]
      rcases hc : processor.CreatePaymentIntent (ctx.WithTimeout 2) req w with ⟨r, w1⟩
      cases r with
      | error e => simp [Run.after, Run.done, providerCalls_create, providerCalls_findByID,
          providerCalls_findByPaymentIntent, providerCalls_updateStatus, providerCalls_log,
          providerCalls_procCreatePaymentIntent, providerCalls_procGetPaymentIntent,
          providerCalls_procChargeClient, providerCalls_procParseWebhook, providerCalls_nil]
      | ok pi =>
        rcases hx : transaction.Create (ctx.WithTimeout 2) (CreatePaymentIntent.newPi pi req) w1
          with ⟨r2, w2⟩
        cases r2 <;>
          (simp only [hx]
           simp [Run.after, Run.done, providerCalls_create, providerCalls_findByID,
               providerCalls_findByPaymentIntent, providerCalls_updateStatus, providerCalls_log,
               providerCalls_procCreatePaymentIntent, providerCalls_procGetPaymentIntent,
               providerCalls_procChargeClient, providerCalls_procParseWebhook, providerCalls_nil])

/-- Every provider call of `GetPaymentIntent` carries the context with the budget
of 2 seconds. -/
theorem getPaymentIntent_providerCalls {σ : Type} (s : PaymentService σ) (ctx : Context)
    (provider : PaymentProvider) (id : String) (w : σ) :
    ∀ c ∈ providerCalls (s.GetPaymentIntent ctx provider id w).trace,
      c = Call.ProcGetPaymentIntent provider (ctx.WithTimeout 2) id := by
  unfold PaymentService.GetPaymentIntent
  cases hp : s.providerRegistry.Get provider with
  | error e => simp [Run.done, providerCalls_create, providerCalls_findByID,
      providerCalls_findByPaymentIntent, providerCalls_updateStatus, providerCalls_log,
      providerCalls_procCreatePaymentIntent, providerCalls_procGetPaymentIntent,
      providerCalls_procChargeClient, providerCalls_procParseWebhook, providerCalls_nil]
  | ok processor =>
    simp only []
    rcases hc : processor.GetPaymentIntent (ctx.WithTimeout 2) id w with ⟨r, w1⟩
    cases r <;> simp [Run.after, Run.done, providerCalls_create, providerCalls_findByID,
        providerCalls_findByPaymentIntent, providerCalls_updateStatus, providerCalls_log,
        providerCalls_procCreatePaymentIntent, providerCalls_procGetPaymentIntent,
        providerCalls_procChargeClient, providerCalls_procParseWebhook, providerCalls_nil]

/-- Every provider call of `ChargeClient` carries the context with the budget of
2 seconds. -/
theorem chargeClient_providerCalls {σ : Type} (s : PaymentService σ) (ctx : Context)
    (provider : PaymentProvider) (req : PaymentIntentRequest) (w : σ) :
    ∀ c ∈ providerCalls (s.ChargeClient ctx provider req w).trace,
      c = Call.ProcChargeClient provider (ctx.WithTimeout 2) req := by
  cases hp : s.providerRegistry.Get provider with
  | error e => simp [PaymentService.ChargeClient, hp, Run.done, providerCalls_create,
      providerCalls_findByID, providerCalls_findByPaymentIntent, providerCalls_updateStatus,
      providerCalls_log, providerCalls_procCreatePaymentIntent, providerCalls_procGetPaymentIntent,
      providerCalls_procChargeClient, providerCalls_procParseWebhook, providerCalls_nil]
  | ok processor =>
    cases ht : s.repositoryRegistry.Get TransactionRepo with
    | error e => simp [PaymentService.ChargeClient, hp, ht, Run.done, providerCalls_create,
        providerCalls_findByID, providerCalls_findByPaymentIntent, providerCalls_updateStatus,
        providerCalls_log, providerCalls_procCreatePaymentIntent,
        providerCalls_procGetPaymentIntent, providerCalls_procChargeClient,
        providerCalls_procParseWebhook, providerCalls_nil]
    | ok transaction =>
      cases hm : s.repositoryRegistry.Get PaymentRepo with
      | error e => simp [PaymentService.ChargeClient, hp, ht, hm, Run.done, providerCalls_create,
          providerCalls_findByID, providerCalls_findByPaymentIntent, providerCalls_updateStatus,
          providerCalls_log, providerCalls_procCreatePaymentIntent,
          providerCalls_procGetPaymentIntent, providerCalls_procChargeClient,
          providerCalls_procParseWebhook, providerCalls_nil]
      | ok payment_method =>
        rw [chargeClient_of_lookups s ctx provider req w processor transaction payment_method
          hp ht hm]
        rcases hc : processor.ChargeClient (ctx.WithTimeout 2) req w with ⟨r, w1⟩
        cases r with
        | error e => simp [Run.after, Run.done, providerCalls_create, providerCalls_findByID,
            providerCalls_findByPaymentIntent, providerCalls_updateStatus, providerCalls_log,
            providerCalls_procCreatePaymentIntent, providerCalls_procGetPaymentIntent,
            providerCalls_procChargeClient, providerCalls_procParseWebhook, providerCalls_nil]
        | ok res =>
          rcases hx : transaction.Create (ctx.WithTimeout 2) (ChargeClient.newPi res req) w1
            with ⟨r2, w2⟩
          cases r2 with
          | error e =>
            simp only [hx]
            simp [Run.after, Run.done, providerCalls_create, providerCalls_findByID,
                providerCalls_findByPaymentIntent, providerCalls_updateStatus, providerCalls_log,
                providerCalls_procCreatePaymentIntent, providerCalls_procGetPaymentIntent,
                providerCalls_procChargeClient, providerCalls_procParseWebhook, providerCalls_nil]
          | ok x =>
            have h1 := chargeTail_providerCalls payment_method (ctx.WithTimeout 2) provider req
              res w2
            simp only [hx]
            generalize chargeTail payment_method (ctx.WithTimeout 2) provider req res w2 = tail
              at h1
            simp [Run.after, providerCalls_create, providerCalls_findByID,
                providerCalls_findByPaymentIntent, providerCalls_updateStatus, providerCalls_log,
                providerCalls_procCreatePaymentIntent, providerCalls_procGetPaymentIntent,
                providerCalls_procChargeClient, providerCalls_procParseWebhook, providerCalls_nil,
                h1]

/-- Every provider call of `ParseWebhook` carries the context with the budget of
5 seconds. -/
theorem parseWebhook_providerCalls {σ : Type} (s : PaymentService σ) (ctx : Context)
    (provider : PaymentProvider) (raw : List UInt8) (headers : List (String × List String))
    (w : σ) :
    ∀ c ∈ providerCalls (s.ParseWebhook ctx provider raw headers w).trace,
      c = Call.ProcParseWebhook provider (ctx.WithTimeout 5) raw headers := by
  cases hp : s.providerRegistry.Get provider with
  | error e => simp [PaymentService.ParseWebhook, hp, Run.done, providerCalls_create,
      providerCalls_findByID, providerCalls_findByPaymentIntent, providerCalls_updateStatus,
      providerCalls_log, providerCalls_procCreatePaymentIntent, providerCalls_procGetPaymentIntent,
      providerCalls_procChargeClient, providerCalls_procParseWebhook, providerCalls_nil]
  | ok processor =>
    cases ht : s.repositoryRegistry.Get TransactionRepo with
    | error e => simp [PaymentService.ParseWebhook, hp, ht, Run.done, providerCalls_create,
        providerCalls_findByID, providerCalls_findByPaymentIntent, providerCalls_updateStatus,
        providerCalls_log, providerCalls_procCreatePaymentIntent,
        providerCalls_procGetPaymentIntent, providerCalls_procChargeClient,
        providerCalls_procParseWebhook, providerCalls_nil]
    | ok transaction =>
      cases hm : s.repositoryRegistry.Get PaymentRepo with
      | error e => simp [PaymentService.ParseWebhook, hp, ht, hm, Run.done, providerCalls_create,
          providerCalls_findByID, providerCalls_findByPaymentIntent, providerCalls_updateStatus,
          providerCalls_log, providerCalls_procCreatePaymentIntent,
          providerCalls_procGetPaymentIntent, providerCalls_procChargeClient,
          providerCalls_procParseWebhook, providerCalls_nil]
      | ok payment_method =>
        rw [parseWebhook_of_lookups s ctx provider raw headers w processor transaction
          payment_method hp ht hm]
        rcases hx : processor.ParseWebhook (ctx.WithTimeout 5) raw headers w with ⟨r, w1⟩
        cases r with
        | error e => simp [Run.after, Run.done, providerCalls_create, providerCalls_findByID,
            providerCalls_findByPaymentIntent, providerCalls_updateStatus, providerCalls_log,
            providerCalls_procCreatePaymentIntent, providerCalls_procGetPaymentIntent,
            providerCalls_procChargeClient, providerCalls_procParseWebhook, providerCalls_nil]
        | ok event =>
          have h1 := dispatch_providerCalls transaction payment_method (ctx.WithTimeout 5)
            provider event w1
          simp only []
          generalize dispatch transaction payment_method (ctx.WithTimeout 5) provider event w1
            = run at h1
          simp [Run.after, providerCalls_create, providerCalls_findByID,
              providerCalls_findByPaymentIntent, providerCalls_updateStatus, providerCalls_log,
              providerCalls_procCreatePaymentIntent, providerCalls_procGetPaymentIntent,
              providerCalls_procChargeClient, providerCalls_procParseWebhook, providerCalls_nil,
              h1]

/-! ### The payment-method calls of the succeeded branch -/

/-- The calls of the block after the status update on the payment-method
repository, once the transaction lookup has returned a record. -/
theorem succeededTail_paymentMethod_calls {σ : Type}
    (transaction payment_method : ITransactionRepository σ)
    (ctx : Context) (provider : PaymentProvider) (event : PaymentEvent) (w w1 : σ)
    (txdata : Transaction)
    (hfind : transaction.FindByPaymentIntent ctx event.PaymentIntent w = (.ok txdata, w1)) :
    callsOn PaymentRepo (succeededTail transaction payment_method ctx provider event w).trace =
      (if txdata.SavePaymentMethod = some true then
        Call.FindByID PaymentRepo ctx event.PaymentMethod ::
          (if isNil (payment_method.FindByID ctx event.PaymentMethod w1).1 then
            [Call.Create PaymentRepo ctx (newPm txdata.CustomerID event.PaymentMethod provider)]
           else [])
       else []) ∧
    createdOn PaymentRepo (succeededTail transaction payment_method ctx provider event w).trace =
      (if txdata.SavePaymentMethod = some true ∧
          isNil (payment_method.FindByID ctx event.PaymentMethod w1).1 = true then
        [newPm txdata.CustomerID event.PaymentMethod provider]
       else []) := by
  have hne : ¬ (TransactionRepo = PaymentRepo) := by decide
  unfold succeededTail
  simp only [hfind]
  by_cases hs : txdata.SavePaymentMethod = some true
  · simp only [hs, if_true, true_and]
    rcases hf : payment_method.FindByID ctx event.PaymentMethod w1 with ⟨r, w2⟩
    cases r with
    | ok pm => simp [Run.after, Run.done, callsOn, createdOn, hne, isNil]
    | error e =>
      rcases hcr : payment_method.Create ctx
        (newPm txdata.CustomerID event.PaymentMethod provider) w2 with ⟨r2, w3⟩
      cases r2 <;> simp [hcr, Run.after, Run.done, callsOn, createdOn, hne, isNil]
  · simp [hs, Run.after, Run.done, callsOn, createdOn, hne]

/-! ### Lookups that fail -/

/-- When the row query fails, `FindByID` of the payment-method repository returns
no record, whatever is stored. -/
theorem findByID_nil_of_failed_query {σ : Type} (db : DB σ) (ctx : Context) (id : String)
    (v v2 : σ) (e : Error)
    (h : db.QueryRow ctx
      (Sql.Select PaymentMethodRepository.columns "payment_methods"
        [("payment_method_id", "=", 1)] false) [Any.str id] v = (.error e, v2)) :
    isNil ((NewPaymentMethodRepository db).FindByID ctx id v).1 = true := by
  unfold PaymentMethodRepository.FindByID
  simp only [NewPaymentMethodRepository, h, isNil]

/-- On the database, the lookup of the payment-method repository returns no
record exactly when no row has the payment method id. -/
theorem pool_findByID_nil_iff (ctx : Context) (id : String) (db : postgres.Store) :
    isNil ((NewPaymentMethodRepository postgres.pool).FindByID ctx id db).1 = true ↔
      ∀ r ∈ db.payment_methods, r.PaymentMethodID ≠ id := by
  rw [pool_findByID_paymentMethod]
  cases hflt : db.payment_methods.filter (fun r => decide (r.PaymentMethodID = id)) with
  | nil =>
    simp only [isNil, true_iff]
    intro r hr heq
    have : r ∈ db.payment_methods.filter (fun r => decide (r.PaymentMethodID = id)) := by
      simp [List.mem_filter, hr, heq]
    rw [hflt] at this
    simp at this
  | cons r rs =>
    have hmem : r ∈ db.payment_methods.filter (fun r => decide (r.PaymentMethodID = id)) := by
      rw [hflt]; simp
    have hr := List.mem_filter.mp hmem
    simp only [isNil, Bool.false_eq_true, false_iff]
    intro hall
    exact hall r hr.1 (by simpa using hr.2)

/-- The calls of the block after the status update on the payment-method
repository and its result, by the outcome of the transaction lookup. -/
theorem succeededTail_paymentMethod_total {σ : Type}
    (transaction payment_method : ITransactionRepository σ)
    (ctx : Context) (provider : PaymentProvider) (event : PaymentEvent) (w : σ) :
    callsOn PaymentRepo (succeededTail transaction payment_method ctx provider event w).trace =
      (match transaction.FindByPaymentIntent ctx event.PaymentIntent w with
       | (.error _, _) => []
       | (.ok txdata, w1) =>
         if txdata.SavePaymentMethod = some true then
           Call.FindByID PaymentRepo ctx event.PaymentMethod ::
             (if isNil (payment_method.FindByID ctx event.PaymentMethod w1).1 then
               [Call.Create PaymentRepo ctx
                 (newPm txdata.CustomerID event.PaymentMethod provider)]
              else [])
         else []) ∧
    createdOn PaymentRepo (succeededTail transaction payment_method ctx provider event w).trace =
      (match transaction.FindByPaymentIntent ctx event.PaymentIntent w with
       | (.error _, _) => []
       | (.ok txdata, w1) =>
         if txdata.SavePaymentMethod = some true ∧
             isNil (payment_method.FindByID ctx event.PaymentMethod w1).1 = true then
           [newPm txdata.CustomerID event.PaymentMethod provider]
         else []) ∧
    (succeededTail transaction payment_method ctx provider event w).result =
      (match transaction.FindByPaymentIntent ctx event.PaymentIntent w with
       | (.error err, _) => .error ("Error while finding payment intent: " ++ err)
       | (.ok _, _) => .ok event) := by
  have hne : ¬ (TransactionRepo = PaymentRepo) := by decide
  have hres := succeededTail_result transaction payment_method ctx provider event w
  rcases hfind : transaction.FindByPaymentIntent ctx event.PaymentIntent w with ⟨r, w1⟩
  rw [hfind] at hres
  cases r with
  | error e =>
    refine ⟨?_, ?_, hres⟩
    · unfold succeededTail
      simp [hfind, Run.after, Run.done, callsOn, hne]
    · unfold succeededTail
      simp [hfind, Run.after, Run.done, createdOn, hne]
  | ok txdata =>
    have h := succeededTail_paymentMethod_calls transaction payment_method ctx provider event
      w w1 txdata hfind
    exact ⟨h.1, h.2, hres⟩

/-! ### ChargeClient call by call -/

/-- Four calls, one after the other, are the operation `ChargeClient`: the same
result and the same final state. -/
theorem chargeSteps_four {σ : Type} (s : PaymentService σ) (ctx : Context)
    (provider : PaymentProvider) (req : PaymentIntentRequest) (w : σ)
    (processor : IPaymentProcessor σ) (transaction payment_method : ITransactionRepository σ)
    (hp : s.providerRegistry.Get provider = .ok processor)
    (ht : s.repositoryRegistry.Get TransactionRepo = .ok transaction)
    (hm : s.repositoryRegistry.Get PaymentRepo = .ok payment_method) :
    chargeSteps (chargeStep processor transaction payment_method (ctx.WithTimeout 2) provider req)
        4 (ChargePoint.start, w) =
      (ChargePoint.returned (s.ChargeClient ctx provider req w).result,
       (s.ChargeClient ctx provider req w).state) := by
  rw [chargeClient_of_lookups s ctx provider req w processor transaction payment_method hp ht hm]
  simp only [chargeSteps, chargeStep]
  rcases hc : processor.ChargeClient (ctx.WithTimeout 2) req w with ⟨r, w1⟩
  cases r with
  | error e => simp [chargeStep, Run.after, Run.done]
  | ok res =>
    simp only [chargeStep]
    rcases hx : transaction.Create (ctx.WithTimeout 2) (ChargeClient.newPi res req) w1
      with ⟨r2, w2⟩
    cases r2 with
    | error e => simp [chargeStep, Run.after, Run.done]
    | ok u =>
      unfold chargeTail
      by_cases hf : req.RememberMe = some true
      · simp only [hf, if_true, chargeStep]
        rcases hfind : payment_method.FindByID (ctx.WithTimeout 2) res.PaymentMethodID w2
          with ⟨r3, w3⟩
        cases r3 with
        | ok pm => simp [chargeStep, Run.after, Run.done]
        | error e =>
          rcases hcr : payment_method.Create (ctx.WithTimeout 2)
            (newPm req.CustomerID res.PaymentMethodID provider) w3 with ⟨r4, w4⟩
          cases r4 <;> simp [chargeStep, hcr, Run.after, Run.done]
      · simp [hf, chargeStep, Run.after, Run.done]

theorem filter_nil_of_unseen (id : String) (rows : List Transaction)
    (h : ∀ r ∈ rows, r.PaymentMethodID ≠ id) :
    rows.filter (fun r => decide (r.PaymentMethodID = id)) = [] := by
  rw [List.filter_eq_nil_iff]
  intro r hr
  simpa using h r hr

theorem filter_append_remembered (customer id : String) (provider : PaymentProvider) (t : Nat)
    (rows more : List Transaction) (h : ∀ r ∈ rows, r.PaymentMethodID ≠ id) :
    (rows ++ rememberedRow customer id provider t :: more).filter
        (fun r => decide (r.PaymentMethodID = id)) =
      rememberedRow customer id provider t ::
        more.filter (fun r => decide (r.PaymentMethodID = id)) := by
  rw [List.filter_append, filter_nil_of_unseen id rows h, List.nil_append, List.filter_cons]
  have : decide ((rememberedRow customer id provider t).PaymentMethodID = id) = true := by
    simp [rememberedRow, newPm]
  rw [if_pos this]

theorem countP_pair_unseen (customer id : String) (rows : List Transaction)
    (h : ∀ r ∈ rows, r.PaymentMethodID ≠ id) :
    rows.countP (fun p => decide (p.CustomerID = customer ∧ p.PaymentMethodID = id)) = 0 := by
  rw [List.countP_eq_zero]
  intro r hr
  simp only [decide_eq_true_eq, not_and]
  intro _
  exact h r hr

/-- The payment-method rows after two charges of the same new payment method, by
the schedule of their calls on the database: one row when the first charge
returns before the second starts, two rows when both look the method up before
either inserts it. Both charges return their success response either way. -/
theorem interleave_pool (processor : IPaymentProcessor postgres.Store) (ctx : Context)
    (provider : PaymentProvider) (first second : PaymentIntentRequest) (w : postgres.Store)
    (resA resB : PaymentProcessorResponse) (id : String)
    (hA : ∀ db, processor.ChargeClient ctx first db = (.ok resA, db))
    (hB : ∀ db, processor.ChargeClient ctx second db = (.ok resB, db))
    (hidA : resA.PaymentMethodID = id) (hidB : resB.PaymentMethodID = id)
    (hrA : first.RememberMe = some true) (hrB : second.RememberMe = some true)
    (hunseen : ∀ r ∈ w.payment_methods, r.PaymentMethodID ≠ id) :
    (interleave
        (chargeStep processor (NewTransactionRepository postgres.pool).asRepository
          (NewPaymentMethodRepository postgres.pool).asRepository ctx provider first)
        (chargeStep processor (NewTransactionRepository postgres.pool).asRepository
          (NewPaymentMethodRepository postgres.pool).asRepository ctx provider second)
        oneAfterTheOther (ChargePoint.start, ChargePoint.start, w)).2.2.payment_methods =
      w.payment_methods ++ [rememberedRow first.CustomerID id provider w.now] ∧
    (interleave
        (chargeStep processor (NewTransactionRepository postgres.pool).asRepository
          (NewPaymentMethodRepository postgres.pool).asRepository ctx provider first)
        (chargeStep processor (NewTransactionRepository postgres.pool).asRepository
          (NewPaymentMethodRepository postgres.pool).asRepository ctx provider second)
        lookupsFirst (ChargePoint.start, ChargePoint.start, w)).2.2.payment_methods =
      w.payment_methods ++ [rememberedRow first.CustomerID id provider w.now,
        rememberedRow second.CustomerID id provider w.now] := by
  have hcreateTx : ∀ tx db, (NewTransactionRepository postgres.pool).asRepository.Create ctx
      tx db = _ := fun tx db => pool_create_transaction ctx tx db
  have hfind : ∀ db, (NewPaymentMethodRepository postgres.pool).asRepository.FindByID ctx
      id db = _ := fun db => pool_findByID_paymentMethod ctx id db
  have hcreatePm : ∀ c db, (NewPaymentMethodRepository postgres.pool).asRepository.Create ctx
      (newPm c id provider) db = _ := fun c db => pool_create_remembered ctx c id provider db
  have hnil := filter_nil_of_unseen id w.payment_methods hunseen
  have hone := filter_append_remembered first.CustomerID id provider w.now w.payment_methods []
    hunseen
  refine ⟨?_, ?_⟩
  · simp only [interleave, oneAfterTheOther, chargeStep, hA, hB, hcreateTx, hrA, hrB, if_true,
      hidA, hidB, hfind, hnil, hcreatePm, hone]
  · simp only [interleave, lookupsFirst, chargeStep, hA, hB, hcreateTx, hrA, hrB, if_true,
      hidA, hidB, hfind, hnil, hcreatePm]
    simp

/-- One charge of a new payment method on the database, call by call: it returns
its success response and leaves one more payment-method row. -/
theorem chargeSteps_pool (processor : IPaymentProcessor postgres.Store) (ctx : Context)
    (provider : PaymentProvider) (req : PaymentIntentRequest) (w : postgres.Store)
    (res : PaymentProcessorResponse) (id : String)
    (hA : ∀ db, processor.ChargeClient ctx req db = (.ok res, db))
    (hid : res.PaymentMethodID = id) (hr : req.RememberMe = some true)
    (hunseen : ∀ r ∈ w.payment_methods, r.PaymentMethodID ≠ id) :
    (chargeSteps
        (chargeStep processor (NewTransactionRepository postgres.pool).asRepository
          (NewPaymentMethodRepository postgres.pool).asRepository ctx provider req)
        4 (ChargePoint.start, w)).2.payment_methods =
      w.payment_methods ++ [rememberedRow req.CustomerID id provider w.now] := by
  have hcreateTx : ∀ tx db, (NewTransactionRepository postgres.pool).asRepository.Create ctx
      tx db = _ := fun tx db => pool_create_transaction ctx tx db
  have hfind : ∀ db, (NewPaymentMethodRepository postgres.pool).asRepository.FindByID ctx
      id db = _ := fun db => pool_findByID_paymentMethod ctx id db
  have hcreatePm : ∀ c db, (NewPaymentMethodRepository postgres.pool).asRepository.Create ctx
      (newPm c id provider) db = _ := fun c db => pool_create_remembered ctx c id provider db
  have hnil := filter_nil_of_unseen id w.payment_methods hunseen
  simp only [chargeSteps, chargeStep, hA, hcreateTx, hr, if_true, hid, hfind, hnil, hcreatePm]

theorem pairCount_one (customer id : String) (provider : PaymentProvider) (t : Nat)
    (w : postgres.Store) (rows : List Transaction)
    (hrows : w.payment_methods = rows ++ [rememberedRow customer id provider t])
    (hunseen : ∀ r ∈ rows, r.PaymentMethodID ≠ id) :
    pairCount customer id w = 1 := by
  unfold pairCount
  rw [hrows, List.countP_append, countP_pair_unseen customer id rows hunseen]
  simp [rememberedRow, newPm]

theorem pairCount_two (customer id : String) (provider : PaymentProvider) (t u : Nat)
    (w : postgres.Store) (rows : List Transaction)
    (hrows : w.payment_methods =
      rows ++ [rememberedRow customer id provider t, rememberedRow customer id provider u])
    (hunseen : ∀ r ∈ rows, r.PaymentMethodID ≠ id) :
    pairCount customer id w = 2 := by
  unfold pairCount
  rw [hrows, List.countP_append, countP_pair_unseen customer id rows hunseen]
  simp [rememberedRow, newPm]

end Lemmas

/-! ## Theorems -/

section Theorems

open model ports core service repository

/-! ### Registries (C1) -/

/-- C1. For both registries and every sequence of Register calls on a fresh
registry, Get of a key returns the instance of the most recent Register for that
key when the key has been registered, and otherwise returns no instance and the
error "repository KEY not configured" (repository registry) or
"provider KEY not configured" (provider registry); a most recent registration
exists exactly when the key is among the registered keys. -/
theorem registry_get_last_write_wins {σ : Type}
    (repoCalls : List (String × ITransactionRepository σ))
    (providerCalls : List (PaymentProvider × IPaymentProcessor σ)) (key : String) :
    (RepositoryRegistry.registerAll repoCalls).Get key =
        (match lastRegistered key repoCalls with
         | some repo => Except.ok repo
         | none => Except.error ("repository " ++ key ++ " not configured"))
    ∧ (ProviderRegistry.registerAll providerCalls).Get key =
        (match lastRegistered key providerCalls with
         | some processor => Except.ok processor
         | none => Except.error ("provider " ++ key ++ " not configured")) ∧
    ((lastRegistered key repoCalls).isSome = true ↔ key ∈ repoCalls.map (fun c => c.1)) ∧
    ((lastRegistered key providerCalls).isSome = true ↔
      key ∈ providerCalls.map (fun c => c.1)) := by
  refine ⟨?_, ?_, lastRegistered_isSome key repoCalls, lastRegistered_isSome key providerCalls⟩
  · unfold RepositoryRegistry.registerAll RepositoryRegistry.Get
    rw [repositoryRegistry_foldl_repo]
    cases lastRegistered key repoCalls <;> simp [NewRepositoryRegistry, GoMap.make]
  · unfold ProviderRegistry.registerAll ProviderRegistry.Get
    rw [providerRegistry_foldl_processors]
    cases lastRegistered key providerCalls <;> simp [NewProviderRegistry, GoMap.make]

/-! ### CreatePaymentIntent (C2, C3, C4) -/

/-- C2. Whenever CreatePaymentIntent returns a response, the provider call
succeeded with some answer, the calls issued are that provider call followed by
one Create on the transaction repository, that Create succeeded, and the record
written has the returned id as payment_intent_id, the pending status, the amount
and currency of the provider answer and the customer id of the request. -/
theorem createPaymentIntent_writes_one_pending_transaction {σ : Type}
    (s : PaymentService σ) (ctx : Context) (provider : PaymentProvider)
    (req : PaymentIntentRequest) (w : σ) (resp : PaymentIntentResponse)
    (h : (s.CreatePaymentIntent ctx provider req w).result = .ok resp) :
    ∃ (processor : IPaymentProcessor σ) (transaction : ITransactionRepository σ)
      (pi : PaymentProcessorResponse) (w1 : σ) (tx : Transaction),
      s.providerRegistry.Get provider = .ok processor ∧
      s.repositoryRegistry.Get TransactionRepo = .ok transaction ∧
      processor.CreatePaymentIntent (ctx.WithTimeout 2) req w = (.ok pi, w1) ∧
      (s.CreatePaymentIntent ctx provider req w).trace =
        [.ProcCreatePaymentIntent provider (ctx.WithTimeout 2) req,
         .Create TransactionRepo (ctx.WithTimeout 2) tx] ∧
      createdOn TransactionRepo (s.CreatePaymentIntent ctx provider req w).trace = [tx] ∧
      transaction.Create (ctx.WithTimeout 2) tx w1 =
        (.ok (), (s.CreatePaymentIntent ctx provider req w).state) ∧
      tx.PaymentIntentID = resp.ID ∧ tx.TxStatus = Pending ∧
      tx.Amount = pi.Amount ∧ tx.Currency = pi.Currency ∧
      tx.CustomerID = req.CustomerID := by
  cases hp : s.providerRegistry.Get provider with
  | error e =>
    simp [PaymentService.CreatePaymentIntent, hp, Run.done] at h
  | ok processor =>
    cases hr : s.repositoryRegistry.Get TransactionRepo with
    | error e =>
      simp [PaymentService.CreatePaymentIntent, hp, hr, Run.done] at h
    | ok transaction =>
      rw [createPaymentIntent_of_lookups s ctx provider req w processor transaction hp hr] at h ⊢
      rcases hc : processor.CreatePaymentIntent (ctx.WithTimeout 2) req w with ⟨r, w1⟩
      rw [hc] at h
      cases r with
      | error e => simp [Run.after, Run.done] at h
      | ok pi =>
        rcases hw : transaction.Create (ctx.WithTimeout 2)
          (CreatePaymentIntent.newPi pi req) w1 with ⟨r2, w2⟩
        simp only [hw] at h
        cases r2 with
        | error e => simp [Run.after, Run.done] at h
        | ok u =>
          simp only [Run.after, Run.done, Except.ok.injEq] at h
          refine ⟨processor, transaction, pi, w1, CreatePaymentIntent.newPi pi req,
            rfl, rfl, hc, ?_, ?_, ?_, ?_, rfl, rfl, rfl, rfl⟩
          · simp [hc, hw, Run.after, Run.done]
          · simp [hc, hw, Run.after, Run.done, createdOn]
          · simp [hc, hw, Run.after, Run.done]
          · rw [← h]; rfl

/-- Witness of C2 on the service of `main` over the empty database. -/
theorem createPaymentIntent_writes_one_pending_transaction_witness :
    ((main.paymentService (sample.provider sample.otherEvent) postgres.pool).CreatePaymentIntent
        sample.background "stripe" (sample.request none) sample.emptyStore).result =
      .ok { ID := "pi_1", Amount := 1000, Currency := "usd",
            Status := "requires_payment_method", ClientSecret := "pi_1_secret" } ∧
    ∃ (processor : IPaymentProcessor postgres.Store)
      (transaction : ITransactionRepository postgres.Store)
      (pi : PaymentProcessorResponse) (w1 : postgres.Store) (tx : Transaction),
      (main.paymentService (sample.provider sample.otherEvent) postgres.pool).providerRegistry.Get
        "stripe" = .ok processor ∧
      (main.paymentService (sample.provider sample.otherEvent)
        postgres.pool).repositoryRegistry.Get TransactionRepo = .ok transaction ∧
      processor.CreatePaymentIntent (sample.background.WithTimeout 2) (sample.request none)
        sample.emptyStore = (.ok pi, w1) ∧
      ((main.paymentService (sample.provider sample.otherEvent)
          postgres.pool).CreatePaymentIntent sample.background "stripe" (sample.request none)
          sample.emptyStore).trace =
        [.ProcCreatePaymentIntent "stripe" (sample.background.WithTimeout 2)
           (sample.request none),
         .Create TransactionRepo (sample.background.WithTimeout 2) tx] ∧
      createdOn TransactionRepo ((main.paymentService (sample.provider sample.otherEvent)
          postgres.pool).CreatePaymentIntent sample.background "stripe" (sample.request none)
          sample.emptyStore).trace = [tx] ∧
      transaction.Create (sample.background.WithTimeout 2) tx w1 =
        (.ok (), ((main.paymentService (sample.provider sample.otherEvent)
          postgres.pool).CreatePaymentIntent sample.background "stripe" (sample.request none)
          sample.emptyStore).state) ∧
      tx.PaymentIntentID = "pi_1" ∧ tx.TxStatus = Pending ∧
      tx.Amount = pi.Amount ∧ tx.Currency = pi.Currency ∧
      tx.CustomerID = (sample.request none).CustomerID :=
  ⟨rfl, createPaymentIntent_writes_one_pending_transaction
    (main.paymentService (sample.provider sample.otherEvent) postgres.pool) sample.background
    "stripe" (sample.request none) sample.emptyStore
    { ID := "pi_1", Amount := 1000, Currency := "usd", Status := "requires_payment_method",
      ClientSecret := "pi_1_secret" } rfl⟩

/-- C3. Whenever the handler of the intent endpoint answers a decoded request
with status 200, exactly one record was handed to Create on the transaction
repository, and its save_payment_method flag is the remember-me flag of the
request when that is present and false when it is absent. The insert built for
that record binds the column save_payment_method to that value, and on the
database the row it adds carries that value. -/
theorem createPaymentIntent_persists_remember_flag {σ : Type}
    (c : controller.PaymentController σ) (ctx : Context) (provider : PaymentProvider)
    (req : PaymentIntentRequest) (w : σ)
    (h : (c.CreatePaymentIntent ctx provider (.ok req) w).result.code = controller.StatusOK) :
    ∃ tx : Transaction,
      createdOn TransactionRepo (c.CreatePaymentIntent ctx provider (.ok req) w).trace = [tx] ∧
      tx.SavePaymentMethod = some (req.RememberMe.getD false) ∧
      ("save_payment_method", Any.bool (req.RememberMe.getD false)) ∈
        (TransactionRepository.insertBuilder tx).fields.zip
          (TransactionRepository.insertBuilder tx).values ∧
      (∀ (ctx2 : Context) (db : postgres.Store), ∃ row : Transaction,
        (NewTransactionRepository postgres.pool).Create ctx2 tx db =
          (.ok (), { db with transactions := db.transactions ++ [row] }) ∧
        row.SavePaymentMethod = some (req.RememberMe.getD false)) := by
  unfold controller.PaymentController.CreatePaymentIntent at h ⊢
  simp only [] at h ⊢
  cases hres : (c.service.CreatePaymentIntent (ctx.WithTimeout 5) provider
      (controller.defaultRememberMe req) w).result with
  | error e =>
    rw [hres] at h
    simp [controller.RespondWithError, controller.StatusBadRequest, controller.StatusOK] at h
  | ok resp =>
    obtain ⟨pi, htrace⟩ := createPaymentIntent_ok_trace c.service (ctx.WithTimeout 5) provider
      (controller.defaultRememberMe req) w resp hres
    have hflag : (CreatePaymentIntent.newPi pi (controller.defaultRememberMe req)).SavePaymentMethod
        = some (req.RememberMe.getD false) := by
      cases hr : req.RememberMe <;>
        simp [CreatePaymentIntent.newPi, controller.defaultRememberMe, hr]
    refine ⟨CreatePaymentIntent.newPi pi (controller.defaultRememberMe req), ?_, hflag, ?_, ?_⟩
    · simp [htrace, createdOn]
    · exact insertBuilder_binds_save _ _ hflag
    · intro ctx2 db
      refine ⟨_, pool_create_transaction ctx2 _ db, ?_⟩
      exact hflag

/-- Witness of C3: a request without remember_me on the service of `main`. -/
theorem createPaymentIntent_persists_remember_flag_witness :
    ((controller.NewPaymentController
        (main.paymentService (sample.provider sample.otherEvent)
          postgres.pool)).CreatePaymentIntent
        sample.background "stripe" (.ok (sample.request none)) sample.emptyStore).result.code =
      200 ∧
    ((controller.NewPaymentController
        (main.paymentService (sample.provider sample.otherEvent)
          postgres.pool)).CreatePaymentIntent
        sample.background "stripe" (.ok (sample.request none))
        sample.emptyStore).state.transactions.map (fun r => r.SavePaymentMethod) =
      [some false] ∧
    ∃ tx : Transaction,
      createdOn TransactionRepo
        ((controller.NewPaymentController
          (main.paymentService (sample.provider sample.otherEvent)
            postgres.pool)).CreatePaymentIntent
          sample.background "stripe" (.ok (sample.request none)) sample.emptyStore).trace =
        [tx] ∧
      tx.SavePaymentMethod = some false :=
  ⟨rfl, rfl,
   (createPaymentIntent_persists_remember_flag
      (controller.NewPaymentController
        (main.paymentService (sample.provider sample.otherEvent) postgres.pool))
      sample.background "stripe" (sample.request none) sample.emptyStore rfl).imp
      (fun _ h => ⟨h.1, h.2.1⟩)⟩

/-- C4. CreatePaymentIntent returns an error and no response when the provider
lookup fails (nothing is called, the state is untouched), when the
transaction-repository lookup fails (nothing is called, the state is untouched),
when the provider call fails (the provider call is the only call, so no
Transaction is written) and when the persistence write fails. -/
theorem createPaymentIntent_failures {σ : Type} (s : PaymentService σ) (ctx : Context)
    (provider : PaymentProvider) (req : PaymentIntentRequest) (w : σ) :
    (∀ e, s.providerRegistry.Get provider = .error e →
      (s.CreatePaymentIntent ctx provider req w).result = .error e ∧
      (s.CreatePaymentIntent ctx provider req w).trace = [] ∧
      (s.CreatePaymentIntent ctx provider req w).state = w) ∧
    (∀ e, s.repositoryRegistry.Get TransactionRepo = .error e →
      (∃ e2, (s.CreatePaymentIntent ctx provider req w).result = .error e2) ∧
      (s.CreatePaymentIntent ctx provider req w).trace = [] ∧
      (s.CreatePaymentIntent ctx provider req w).state = w) ∧
    (∀ processor transaction e w1,
      s.providerRegistry.Get provider = .ok processor →
      s.repositoryRegistry.Get TransactionRepo = .ok transaction →
      processor.CreatePaymentIntent (ctx.WithTimeout 2) req w = (.error e, w1) →
      (s.CreatePaymentIntent ctx provider req w).result = .error e ∧
      (s.CreatePaymentIntent ctx provider req w).trace =
        [.ProcCreatePaymentIntent provider (ctx.WithTimeout 2) req] ∧
      createdOn TransactionRepo (s.CreatePaymentIntent ctx provider req w).trace = [] ∧
      (s.CreatePaymentIntent ctx provider req w).state = w1) ∧
    (∀ processor transaction pi e w1 w2,
      s.providerRegistry.Get provider = .ok processor →
      s.repositoryRegistry.Get TransactionRepo = .ok transaction →
      processor.CreatePaymentIntent (ctx.WithTimeout 2) req w = (.ok pi, w1) →
      transaction.Create (ctx.WithTimeout 2) (CreatePaymentIntent.newPi pi req) w1 =
        (.error e, w2) →
      (s.CreatePaymentIntent ctx provider req w).result = .error e) := by
  refine ⟨?_, ?_, ?_, ?_⟩
  · intro e hp
    simp [PaymentService.CreatePaymentIntent, hp, Run.done]
  · intro e hr
    cases hp : s.providerRegistry.Get provider with
    | error e1 => simp [PaymentService.CreatePaymentIntent, hp, Run.done]
    | ok processor => simp [PaymentService.CreatePaymentIntent, hp, hr, Run.done]
  · intro processor transaction e w1 hp hr hc
    rw [createPaymentIntent_of_lookups s ctx provider req w processor transaction hp hr]
    simp [hc, Run.after, Run.done, createdOn]
  · intro processor transaction pi e w1 w2 hp hr hc hw
    rw [createPaymentIntent_of_lookups s ctx provider req w processor transaction hp hr]
    simp [hc, hw, Run.after, Run.done]

/-- Witness of C4: an unknown provider, a service without repositories, a
rejecting provider, and a database that has lost its connection. -/
theorem createPaymentIntent_failures_witness :
    ((main.paymentService (sample.provider sample.otherEvent) postgres.pool).CreatePaymentIntent
        sample.background "paypal" (sample.request none) sample.emptyStore).result =
      .error "provider paypal not configured" ∧
    (sample.noRepositories.CreatePaymentIntent sample.background "stripe" (sample.request none)
        sample.emptyStore).trace = [] ∧
    ((main.paymentService sample.rejecting postgres.pool).CreatePaymentIntent
        sample.background "stripe" (sample.request none) sample.emptyStore).result =
      .error "Payment creation failed #acpi0" ∧
    ((main.paymentService (sample.provider sample.otherEvent)
        postgres.unreachable).CreatePaymentIntent
        sample.background "stripe" (sample.request none) sample.emptyStore).result =
      .error "connection refused" :=
  ⟨((createPaymentIntent_failures
      (main.paymentService (sample.provider sample.otherEvent) postgres.pool)
      sample.background "paypal" (sample.request none) sample.emptyStore).1
      "provider paypal not configured" rfl).1,
   ((createPaymentIntent_failures sample.noRepositories sample.background "stripe"
      (sample.request none) sample.emptyStore).2.1
      "repository transactionRepo not configured" rfl).2.1,
   ((createPaymentIntent_failures (main.paymentService sample.rejecting postgres.pool)
      sample.background "stripe" (sample.request none) sample.emptyStore).2.2.1
      sample.rejecting (NewTransactionRepository postgres.pool).asRepository
      "Payment creation failed #acpi0" sample.emptyStore rfl rfl rfl).1,
   (createPaymentIntent_failures
      (main.paymentService (sample.provider sample.otherEvent) postgres.unreachable)
      sample.background "stripe" (sample.request none) sample.emptyStore).2.2.2
      (sample.provider sample.otherEvent)
      (NewTransactionRepository postgres.unreachable).asRepository
      { ID := "pi_1", Amount := 1000, Currency := "usd", Status := "requires_payment_method",
        ClientSecret := "pi_1_secret", PaymentMethodID := "", PaymentMethodType := "",
        PaymentProvider := "", PaymentMethodStatus := "" }
      "connection refused" sample.emptyStore sample.emptyStore rfl rfl rfl rfl⟩

/-! ### ChargeClient (C5, C6, C7, C8) -/

/-- C5. In every ChargeClient call in which the provider charge succeeds, exactly
one record is handed to Create on the transaction repository; its status is the
succeeded constant, which is the status the succeeded branch of the webhook
dispatch writes; its amount, currency and intent id are those of the provider
answer and its customer id is that of the request. Every response returned
carries the id, amount, currency and status of the provider answer, and one is
returned whenever that Create succeeds. -/
theorem chargeClient_writes_one_succeeded_transaction {σ : Type} (s : PaymentService σ)
    (ctx : Context) (provider : PaymentProvider) (req : PaymentIntentRequest) (w w1 : σ)
    (processor : IPaymentProcessor σ) (transaction payment_method : ITransactionRepository σ)
    (res : PaymentProcessorResponse)
    (hp : s.providerRegistry.Get provider = .ok processor)
    (ht : s.repositoryRegistry.Get TransactionRepo = .ok transaction)
    (hm : s.repositoryRegistry.Get PaymentRepo = .ok payment_method)
    (hc : processor.ChargeClient (ctx.WithTimeout 2) req w = (.ok res, w1)) :
    createdOn TransactionRepo (s.ChargeClient ctx provider req w).trace =
      [ChargeClient.newPi res req] ∧
    (ChargeClient.newPi res req).TxStatus = PaymentSucceeded ∧
    (ChargeClient.newPi res req).Amount = res.Amount ∧
    (ChargeClient.newPi res req).Currency = res.Currency ∧
    (ChargeClient.newPi res req).PaymentIntentID = res.ID ∧
    (ChargeClient.newPi res req).CustomerID = req.CustomerID ∧
    (∀ resp, (s.ChargeClient ctx provider req w).result = .ok resp →
      resp.ID = res.ID ∧ resp.Amount = res.Amount ∧ resp.Currency = res.Currency ∧
      resp.Status = res.Status) ∧
    (∀ w2, transaction.Create (ctx.WithTimeout 2) (ChargeClient.newPi res req) w1 = (.ok (), w2) →
      (s.ChargeClient ctx provider req w).result = .ok (intentResponse res)) ∧
    (∀ (ctx2 : Context) (event : PaymentEvent) (w2 : σ), event.Type_ = PaymentSucceeded →
      (statusUpdates (dispatch transaction payment_method ctx2 provider event w2).trace).map
          (fun u => u.2.1) =
        [(ChargeClient.newPi res req).TxStatus]) := by
  rw [chargeClient_of_lookups s ctx provider req w processor transaction payment_method hp ht hm]
  simp only [hc]
  rcases hw : transaction.Create (ctx.WithTimeout 2) (ChargeClient.newPi res req) w1 with ⟨r, w2⟩
  refine ⟨?_, rfl, rfl, rfl, rfl, rfl, ?_, ?_, ?_⟩
  rotate_right
  · intro ctx2 event w3 hev
    rw [dispatch_succeeded_statusUpdates transaction payment_method ctx2 provider event w3 hev]
    rfl
  · cases r with
    | error e => simp [Run.after, Run.done, createdOn]
    | ok u =>
      simp [Run.after, createdOn, chargeTail_createdOn_transactionRepo]
  · intro resp hres
    cases r with
    | error e => simp [Run.after, Run.done] at hres
    | ok u =>
      simp only [Run.after, chargeTail_result, Except.ok.injEq] at hres
      rw [← hres]
      exact ⟨rfl, rfl, rfl, rfl⟩
  · intro w3 hw3
    cases r with
    | error e => simp at hw3
    | ok u => simp [Run.after, chargeTail_result]

/-- Witness of C5 on the service of `main` over the empty database. -/
theorem chargeClient_writes_one_succeeded_transaction_witness :
    createdOn TransactionRepo
      ((main.paymentService (sample.provider sample.otherEvent) postgres.pool).ChargeClient
        sample.background "stripe" (sample.request (some true)) sample.emptyStore).trace =
      [{ Transaction.zero with
         Amount := 1000, Currency := "usd", PaymentIntentID := "pi_2",
         TxStatus := "payment_succeeded", CustomerID := "cust_1",
         SavePaymentMethod := some true }] ∧
    ((main.paymentService (sample.provider sample.otherEvent) postgres.pool).ChargeClient
        sample.background "stripe" (sample.request (some true)) sample.emptyStore).result =
      .ok { ID := "pi_2", Amount := 1000, Currency := "usd", Status := "succeeded",
            ClientSecret := "" } :=
  ⟨(chargeClient_writes_one_succeeded_transaction
      (main.paymentService (sample.provider sample.otherEvent) postgres.pool)
      sample.background "stripe" (sample.request (some true)) sample.emptyStore
      sample.emptyStore (sample.provider sample.otherEvent)
      (NewTransactionRepository postgres.pool).asRepository
      (NewPaymentMethodRepository postgres.pool).asRepository
      { ID := "pi_2", Amount := 1000, Currency := "usd", Status := "succeeded",
        ClientSecret := "", PaymentMethodID := "pm_1", PaymentMethodType := "",
        PaymentProvider := "", PaymentMethodStatus := "" }
      rfl rfl rfl rfl).1, rfl⟩

/-- Counterexample to C6 as stated: the payment method `pm_1` is already stored,
the lookup of the payment-method repository fails, and ChargeClient, whose
provider charge and transaction write succeed, hands a record for `pm_1` to
Create all the same: afterwards two records of `pm_1` are stored. -/
theorem chargeClient_creates_duplicate_on_failed_lookup :
    paymentMethodCount "pm_1" sample.rememberedStore = 1 ∧
    ((sample.blindMethods sample.otherEvent).ChargeClient sample.background "stripe"
        (sample.request (some true)) sample.rememberedStore).result =
      .ok { ID := "pi_2", Amount := 1000, Currency := "usd", Status := "succeeded",
            ClientSecret := "" } ∧
    createdOn PaymentRepo
      ((sample.blindMethods sample.otherEvent).ChargeClient sample.background "stripe"
        (sample.request (some true)) sample.rememberedStore).trace =
      [newPm "cust_1" "pm_1" "stripe"] ∧
    paymentMethodCount "pm_1"
      ((sample.blindMethods sample.otherEvent).ChargeClient sample.background "stripe"
        (sample.request (some true)) sample.rememberedStore).state = 2 :=
  ⟨rfl, rfl, rfl, rfl⟩

/-- C6, amended. In every ChargeClient call whose provider charge and
transaction write succeed, the calls on the payment-method repository are: none
when the remember-me flag is false or absent; otherwise one FindByID for the
returned payment method id, followed by one Create exactly when that lookup
returned no record. The lookup returns no record when no record of that id
exists and also whenever the lookup itself fails: on the database it returns no
record exactly when no row has that payment method id, and on every database
handle it returns none when the row query fails. The record handed to Create has
status "active", the customer id of the request, the returned payment method id
and the provider key. -/
theorem chargeClient_remembers_payment_method {σ : Type} (s : PaymentService σ)
    (ctx : Context) (provider : PaymentProvider) (req : PaymentIntentRequest) (w w1 w2 : σ)
    (processor : IPaymentProcessor σ) (transaction payment_method : ITransactionRepository σ)
    (res : PaymentProcessorResponse)
    (hp : s.providerRegistry.Get provider = .ok processor)
    (ht : s.repositoryRegistry.Get TransactionRepo = .ok transaction)
    (hm : s.repositoryRegistry.Get PaymentRepo = .ok payment_method)
    (hc : processor.ChargeClient (ctx.WithTimeout 2) req w = (.ok res, w1))
    (hw : transaction.Create (ctx.WithTimeout 2) (ChargeClient.newPi res req) w1 = (.ok (), w2)) :
    callsOn PaymentRepo (s.ChargeClient ctx provider req w).trace =
      (if req.RememberMe = some true then
        Call.FindByID PaymentRepo (ctx.WithTimeout 2) res.PaymentMethodID ::
          (if isNil (payment_method.FindByID (ctx.WithTimeout 2) res.PaymentMethodID w2).1 then
            [Call.Create PaymentRepo (ctx.WithTimeout 2)
              (newPm req.CustomerID res.PaymentMethodID provider)]
           else [])
       else []) ∧
    createdOn PaymentRepo (s.ChargeClient ctx provider req w).trace =
      (if req.RememberMe = some true ∧
          isNil (payment_method.FindByID (ctx.WithTimeout 2) res.PaymentMethodID w2).1 = true then
        [newPm req.CustomerID res.PaymentMethodID provider]
       else []) ∧
    (newPm req.CustomerID res.PaymentMethodID provider).PaymentMethodStatus = "active" ∧
    (newPm req.CustomerID res.PaymentMethodID provider).CustomerID = req.CustomerID ∧
    (newPm req.CustomerID res.PaymentMethodID provider).PaymentMethodID = res.PaymentMethodID ∧
    (newPm req.CustomerID res.PaymentMethodID provider).PaymentProvider = provider ∧
    (∀ (ctx2 : Context) (id : String) (db : postgres.Store),
      isNil ((NewPaymentMethodRepository postgres.pool).FindByID ctx2 id db).1 = true ↔
        ∀ r ∈ db.payment_methods, r.PaymentMethodID ≠ id) ∧
    (∀ (db : DB σ) (ctx2 : Context) (id : String) (v v2 : σ) (e : Error),
      db.QueryRow ctx2
          (Sql.Select PaymentMethodRepository.columns "payment_methods"
            [("payment_method_id", "=", 1)] false) [Any.str id] v = (.error e, v2) →
      isNil ((NewPaymentMethodRepository db).FindByID ctx2 id v).1 = true) := by
  have hne : ¬ (TransactionRepo = PaymentRepo) := by decide
  rw [chargeClient_of_lookups s ctx provider req w processor transaction payment_method hp ht hm]
  simp only [hc, hw]
  refine ⟨?_, ?_, rfl, rfl, rfl, rfl, ?_, ?_⟩
  · unfold chargeTail
    by_cases hf : req.RememberMe = some true
    · simp only [hf, if_true]
      rcases hfind : payment_method.FindByID (ctx.WithTimeout 2) res.PaymentMethodID w2
        with ⟨r, w3⟩
      cases r with
      | ok pm => simp [Run.after, Run.done, callsOn, hne, isNil]
      | error e =>
        rcases hcr : payment_method.Create (ctx.WithTimeout 2)
          (newPm req.CustomerID res.PaymentMethodID provider) w3 with ⟨r2, w4⟩
        cases r2 <;> simp [hcr, Run.after, Run.done, callsOn, hne, isNil]
    · simp [hf, Run.after, Run.done, callsOn, hne]
  · unfold chargeTail
    by_cases hf : req.RememberMe = some true
    · simp only [hf, if_true]
      rcases hfind : payment_method.FindByID (ctx.WithTimeout 2) res.PaymentMethodID w2
        with ⟨r, w3⟩
      cases r with
      | ok pm => simp [Run.after, Run.done, createdOn, hne, isNil]
      | error e =>
        rcases hcr : payment_method.Create (ctx.WithTimeout 2)
          (newPm req.CustomerID res.PaymentMethodID provider) w3 with ⟨r2, w4⟩
        cases r2 <;> simp [hcr, Run.after, Run.done, createdOn, hne, isNil]
    · simp [hf, Run.after, Run.done, createdOn, hne]
  · intro ctx2 id db
    rw [pool_findByID_paymentMethod]
    cases hflt : db.payment_methods.filter (fun r => decide (r.PaymentMethodID = id)) with
    | nil =>
      simp only [isNil, true_iff]
      intro r hr heq
      have : r ∈ db.payment_methods.filter (fun r => decide (r.PaymentMethodID = id)) := by
        simp [List.mem_filter, hr, heq]
      rw [hflt] at this
      simp at this
    | cons r rs =>
      have hmem : r ∈ db.payment_methods.filter (fun r => decide (r.PaymentMethodID = id)) := by
        rw [hflt]; simp
      have hr := List.mem_filter.mp hmem
      simp only [isNil, Bool.false_eq_true, false_iff]
      intro hall
      exact hall r hr.1 (by simpa using hr.2)
  · intro db ctx2 id v v2 e h
    exact findByID_nil_of_failed_query db ctx2 id v v2 e h

/-- Witness of amended C6: a first charge with remember_me = true on the empty database
looks the payment method up and creates it. -/
theorem chargeClient_remembers_payment_method_witness :
    callsOn PaymentRepo
      ((main.paymentService (sample.provider sample.otherEvent) postgres.pool).ChargeClient
        sample.background "stripe" (sample.request (some true)) sample.emptyStore).trace =
      [Call.FindByID PaymentRepo ⟨some 2⟩ "pm_1",
       Call.Create PaymentRepo ⟨some 2⟩ (newPm "cust_1" "pm_1" "stripe")] ∧
    ((main.paymentService (sample.provider sample.otherEvent) postgres.pool).ChargeClient
        sample.background "stripe" (sample.request (some true))
        sample.emptyStore).state.payment_methods =
      [{ newPm "cust_1" "pm_1" "stripe" with CreatedAt := 7, UpdatedAt := 7 }] :=
  ⟨(chargeClient_remembers_payment_method
      (main.paymentService (sample.provider sample.otherEvent) postgres.pool)
      sample.background "stripe" (sample.request (some true)) sample.emptyStore
      sample.emptyStore
      { sample.emptyStore with transactions :=
          [{ ChargeClient.newPi
               { ID := "pi_2", Amount := 1000, Currency := "usd", Status := "succeeded",
                 ClientSecret := "", PaymentMethodID := "pm_1", PaymentMethodType := "",
                 PaymentProvider := "", PaymentMethodStatus := "" }
               (sample.request (some true)) with CreatedAt := 7, UpdatedAt := 7 }] }
      (sample.provider sample.otherEvent)
      (NewTransactionRepository postgres.pool).asRepository
      (NewPaymentMethodRepository postgres.pool).asRepository
      { ID := "pi_2", Amount := 1000, Currency := "usd", Status := "succeeded",
        ClientSecret := "", PaymentMethodID := "pm_1", PaymentMethodType := "",
        PaymentProvider := "", PaymentMethodStatus := "" }
      rfl rfl rfl rfl rfl).1, rfl⟩

/-- Counterexample to C7 as stated: two charges of customer `cust_1` with
remember_me = true and the new payment method `pm_1` run on the empty database,
and both look the method up before either inserts it. Both return the success
response and two records of the pair are stored. Call by call, one charge alone
is the operation ChargeClient. -/
theorem chargeClient_concurrent_charges_store_two_records :
    sample.emptyStore.payment_methods = [] ∧
    chargeSteps
        (chargeStep (sample.provider sample.otherEvent)
          (NewTransactionRepository postgres.pool).asRepository
          (NewPaymentMethodRepository postgres.pool).asRepository ⟨some 2⟩ "stripe"
          (sample.request (some true)))
        4 (ChargePoint.start, sample.emptyStore) =
      (ChargePoint.returned
        ((main.paymentService (sample.provider sample.otherEvent) postgres.pool).ChargeClient
          sample.background "stripe" (sample.request (some true)) sample.emptyStore).result,
       ((main.paymentService (sample.provider sample.otherEvent) postgres.pool).ChargeClient
          sample.background "stripe" (sample.request (some true)) sample.emptyStore).state) ∧
    (interleave
        (chargeStep (sample.provider sample.otherEvent)
          (NewTransactionRepository postgres.pool).asRepository
          (NewPaymentMethodRepository postgres.pool).asRepository ⟨some 2⟩ "stripe"
          (sample.request (some true)))
        (chargeStep (sample.provider sample.otherEvent)
          (NewTransactionRepository postgres.pool).asRepository
          (NewPaymentMethodRepository postgres.pool).asRepository ⟨some 2⟩ "stripe"
          (sample.request (some true)))
        lookupsFirst (ChargePoint.start, ChargePoint.start, sample.emptyStore)).1 =
      ChargePoint.returned
        (.ok { ID := "pi_2", Amount := 1000, Currency := "usd", Status := "succeeded",
               ClientSecret := "" }) ∧
    (interleave
        (chargeStep (sample.provider sample.otherEvent)
          (NewTransactionRepository postgres.pool).asRepository
          (NewPaymentMethodRepository postgres.pool).asRepository ⟨some 2⟩ "stripe"
          (sample.request (some true)))
        (chargeStep (sample.provider sample.otherEvent)
          (NewTransactionRepository postgres.pool).asRepository
          (NewPaymentMethodRepository postgres.pool).asRepository ⟨some 2⟩ "stripe"
          (sample.request (some true)))
        lookupsFirst (ChargePoint.start, ChargePoint.start, sample.emptyStore)).2.1 =
      ChargePoint.returned
        (.ok { ID := "pi_2", Amount := 1000, Currency := "usd", Status := "succeeded",
               ClientSecret := "" }) ∧
    pairCount "cust_1" "pm_1"
      (interleave
        (chargeStep (sample.provider sample.otherEvent)
          (NewTransactionRepository postgres.pool).asRepository
          (NewPaymentMethodRepository postgres.pool).asRepository ⟨some 2⟩ "stripe"
          (sample.request (some true)))
        (chargeStep (sample.provider sample.otherEvent)
          (NewTransactionRepository postgres.pool).asRepository
          (NewPaymentMethodRepository postgres.pool).asRepository ⟨some 2⟩ "stripe"
          (sample.request (some true)))
        lookupsFirst (ChargePoint.start, ChargePoint.start, sample.emptyStore)).2.2 = 2 :=
  ⟨rfl, rfl, rfl, rfl, rfl⟩

/-- C7, amended. For ChargeClient calls with remember_me = true on a
previously-unseen payment method, on a database whose calls succeed: after one
such charge exactly one PaymentMethod record exists for the pair of customer and
method, and exactly one still exists after a second such charge for the same
pair that starts when the first has returned. When the two charges run
concurrently and both look the method up before either inserts it, two records
of the pair exist afterward. Call by call, a charge is the operation
ChargeClient. -/
theorem chargeClient_remembers_once_in_sequence (s : PaymentService postgres.Store)
    (ctx : Context) (provider : PaymentProvider) (first second : PaymentIntentRequest)
    (w : postgres.Store) (processor : IPaymentProcessor postgres.Store)
    (resA resB : PaymentProcessorResponse) (id : String)
    (hp : s.providerRegistry.Get provider = .ok processor)
    (ht : s.repositoryRegistry.Get TransactionRepo =
      .ok (NewTransactionRepository postgres.pool).asRepository)
    (hm : s.repositoryRegistry.Get PaymentRepo =
      .ok (NewPaymentMethodRepository postgres.pool).asRepository)
    (hA : ∀ db, processor.ChargeClient (ctx.WithTimeout 2) first db = (.ok resA, db))
    (hB : ∀ db, processor.ChargeClient (ctx.WithTimeout 2) second db = (.ok resB, db))
    (hidA : resA.PaymentMethodID = id) (hidB : resB.PaymentMethodID = id)
    (hcustomer : second.CustomerID = first.CustomerID)
    (hrA : first.RememberMe = some true) (hrB : second.RememberMe = some true)
    (hunseen : ∀ r ∈ w.payment_methods, r.PaymentMethodID ≠ id) :
    chargeSteps
        (chargeStep processor (NewTransactionRepository postgres.pool).asRepository
          (NewPaymentMethodRepository postgres.pool).asRepository (ctx.WithTimeout 2) provider
          first)
        4 (ChargePoint.start, w) =
      (ChargePoint.returned (s.ChargeClient ctx provider first w).result,
       (s.ChargeClient ctx provider first w).state) ∧
    (s.ChargeClient ctx provider first w).result = .ok (intentResponse resA) ∧
    pairCount first.CustomerID id (s.ChargeClient ctx provider first w).state = 1 ∧
    pairCount first.CustomerID id
      (interleave
        (chargeStep processor (NewTransactionRepository postgres.pool).asRepository
          (NewPaymentMethodRepository postgres.pool).asRepository (ctx.WithTimeout 2) provider
          first)
        (chargeStep processor (NewTransactionRepository postgres.pool).asRepository
          (NewPaymentMethodRepository postgres.pool).asRepository (ctx.WithTimeout 2) provider
          second)
        oneAfterTheOther (ChargePoint.start, ChargePoint.start, w)).2.2 = 1 ∧
    pairCount first.CustomerID id
      (interleave
        (chargeStep processor (NewTransactionRepository postgres.pool).asRepository
          (NewPaymentMethodRepository postgres.pool).asRepository (ctx.WithTimeout 2) provider
          first)
        (chargeStep processor (NewTransactionRepository postgres.pool).asRepository
          (NewPaymentMethodRepository postgres.pool).asRepository (ctx.WithTimeout 2) provider
          second)
        lookupsFirst (ChargePoint.start, ChargePoint.start, w)).2.2 = 2 := by
  have hfour := chargeSteps_four s ctx provider first w processor
    (NewTransactionRepository postgres.pool).asRepository
    (NewPaymentMethodRepository postgres.pool).asRepository hp ht hm
  have hone := chargeSteps_pool processor (ctx.WithTimeout 2) provider first w resA id hA hidA
    hrA hunseen
  have hboth := interleave_pool processor (ctx.WithTimeout 2) provider first second w resA resB
    id hA hB hidA hidB hrA hrB hunseen
  rw [hfour] at hone
  rw [hcustomer] at hboth
  refine ⟨hfour, ?_, ?_, ?_, ?_⟩
  · rw [chargeClient_of_lookups s ctx provider first w processor _ _ hp ht hm]
    have hcreate : (NewTransactionRepository postgres.pool).asRepository.Create
        (ctx.WithTimeout 2) (ChargeClient.newPi resA first) w = _ :=
      pool_create_transaction _ _ _
    simp only [hA, Run.after_result, hcreate]
    exact chargeTail_result _ _ _ _ _ _
  · exact pairCount_one first.CustomerID id provider w.now _ w.payment_methods hone hunseen
  · exact pairCount_one first.CustomerID id provider w.now _ w.payment_methods hboth.1 hunseen
  · exact pairCount_two first.CustomerID id provider w.now w.now _ w.payment_methods hboth.2
      hunseen

/-- Witness of amended C7: the two charges of `cust_1` with the new method `pm_1`
on the empty database, the second after the first has returned. -/
theorem chargeClient_remembers_once_in_sequence_witness :
    pairCount "cust_1" "pm_1"
      (interleave
        (chargeStep (sample.provider sample.otherEvent)
          (NewTransactionRepository postgres.pool).asRepository
          (NewPaymentMethodRepository postgres.pool).asRepository
          (sample.background.WithTimeout 2) "stripe" (sample.request (some true)))
        (chargeStep (sample.provider sample.otherEvent)
          (NewTransactionRepository postgres.pool).asRepository
          (NewPaymentMethodRepository postgres.pool).asRepository
          (sample.background.WithTimeout 2) "stripe" (sample.request (some true)))
        oneAfterTheOther (ChargePoint.start, ChargePoint.start, sample.emptyStore)).2.2 = 1 :=
  (chargeClient_remembers_once_in_sequence
    (main.paymentService (sample.provider sample.otherEvent) postgres.pool)
    sample.background "stripe" (sample.request (some true)) (sample.request (some true))
    sample.emptyStore (sample.provider sample.otherEvent)
    { ID := "pi_2", Amount := 1000, Currency := "usd", Status := "succeeded",
      ClientSecret := "", PaymentMethodID := "pm_1", PaymentMethodType := "",
      PaymentProvider := "", PaymentMethodStatus := "" }
    { ID := "pi_2", Amount := 1000, Currency := "usd", Status := "succeeded",
      ClientSecret := "", PaymentMethodID := "pm_1", PaymentMethodType := "",
      PaymentProvider := "", PaymentMethodStatus := "" }
    "pm_1" rfl rfl rfl (fun _ => rfl) (fun _ => rfl) rfl rfl rfl rfl rfl
    (fun _ h => by cases h)).2.2.2.1

/-- Counterexample to C8 as stated: with a payment-method repository that has
lost its connection, the payment-method insert attempted by ChargeClient returns
an error, the error is only logged, and ChargeClient returns the success
response, which the handler answers with status 200. -/
theorem chargeClient_swallows_payment_method_insert_error :
    (sample.halfBroken.ChargeClient sample.background "stripe" (sample.request (some true))
        sample.emptyStore).trace =
      [Call.ProcChargeClient "stripe" ⟨some 2⟩ (sample.request (some true)),
       Call.Create TransactionRepo ⟨some 2⟩
         { Transaction.zero with
           Amount := 1000, Currency := "usd", PaymentIntentID := "pi_2",
           TxStatus := "payment_succeeded", CustomerID := "cust_1",
           SavePaymentMethod := some true },
       Call.FindByID PaymentRepo ⟨some 2⟩ "pm_1",
       Call.Log "error: error getting payment Method: connection refused",
       Call.Create PaymentRepo ⟨some 2⟩ (newPm "cust_1" "pm_1" "stripe"),
       Call.Log "Saving payment method--Event: connection refused"] ∧
    ((NewPaymentMethodRepository postgres.unreachable).Create ⟨some 2⟩
        (newPm "cust_1" "pm_1" "stripe")
        (sample.halfBroken.ChargeClient sample.background "stripe" (sample.request (some true))
          sample.emptyStore).state).1 = .error "connection refused" ∧
    (sample.halfBroken.ChargeClient sample.background "stripe" (sample.request (some true))
        sample.emptyStore).result =
      .ok { ID := "pi_2", Amount := 1000, Currency := "usd", Status := "succeeded",
            ClientSecret := "" } ∧
    (sample.halfBroken.ChargeClient sample.background "stripe" (sample.request (some true))
        sample.emptyStore).state.payment_methods = [] ∧
    ((controller.NewPaymentController sample.halfBroken).ChargeClient sample.background "stripe"
        (.ok (sample.request (some true))) sample.emptyStore).result.code = 200 :=
  ⟨rfl, rfl, rfl, rfl, rfl⟩

/-- C8, amended. In every ChargeClient call whose provider charge succeeds: when
the transaction insert returns an error, ChargeClient returns that error and no
response, and the payment-method repository is not called; when the transaction
insert succeeds, ChargeClient returns the success response whatever the
payment-method lookup and insert return. An error of the payment-method lookup
is written to the log before the insert is attempted, and an error of the
payment-method insert is written to the log after it; neither fails the call. -/
theorem chargeClient_persistence_errors {σ : Type} (s : PaymentService σ)
    (ctx : Context) (provider : PaymentProvider) (req : PaymentIntentRequest) (w w1 : σ)
    (processor : IPaymentProcessor σ) (transaction payment_method : ITransactionRepository σ)
    (res : PaymentProcessorResponse)
    (hp : s.providerRegistry.Get provider = .ok processor)
    (ht : s.repositoryRegistry.Get TransactionRepo = .ok transaction)
    (hm : s.repositoryRegistry.Get PaymentRepo = .ok payment_method)
    (hc : processor.ChargeClient (ctx.WithTimeout 2) req w = (.ok res, w1)) :
    (∀ e w2,
      transaction.Create (ctx.WithTimeout 2) (ChargeClient.newPi res req) w1 = (.error e, w2) →
      (s.ChargeClient ctx provider req w).result = .error e ∧
      callsOn PaymentRepo (s.ChargeClient ctx provider req w).trace = [] ∧
      (s.ChargeClient ctx provider req w).state = w2) ∧
    (∀ w2,
      transaction.Create (ctx.WithTimeout 2) (ChargeClient.newPi res req) w1 = (.ok (), w2) →
      (s.ChargeClient ctx provider req w).result = .ok (intentResponse res)) ∧
    (∀ w2 e w3,
      transaction.Create (ctx.WithTimeout 2) (ChargeClient.newPi res req) w1 = (.ok (), w2) →
      req.RememberMe = some true →
      payment_method.FindByID (ctx.WithTimeout 2) res.PaymentMethodID w2 = (.error e, w3) →
      (s.ChargeClient ctx provider req w).result = .ok (intentResponse res) ∧
      Call.Log ("error: " ++ e) ∈ (s.ChargeClient ctx provider req w).trace ∧
      (∀ w4,
        payment_method.Create (ctx.WithTimeout 2)
          (newPm req.CustomerID res.PaymentMethodID provider) w3 = (.ok (), w4) →
        (s.ChargeClient ctx provider req w).trace =
          [Call.ProcChargeClient provider (ctx.WithTimeout 2) req,
           Call.Create TransactionRepo (ctx.WithTimeout 2) (ChargeClient.newPi res req),
           Call.FindByID PaymentRepo (ctx.WithTimeout 2) res.PaymentMethodID,
           Call.Log ("error: " ++ e),
           Call.Create PaymentRepo (ctx.WithTimeout 2)
             (newPm req.CustomerID res.PaymentMethodID provider)] ∧
        (s.ChargeClient ctx provider req w).state = w4) ∧
      (∀ e2 w4,
        payment_method.Create (ctx.WithTimeout 2)
          (newPm req.CustomerID res.PaymentMethodID provider) w3 = (.error e2, w4) →
        (s.ChargeClient ctx provider req w).trace =
          [Call.ProcChargeClient provider (ctx.WithTimeout 2) req,
           Call.Create TransactionRepo (ctx.WithTimeout 2) (ChargeClient.newPi res req),
           Call.FindByID PaymentRepo (ctx.WithTimeout 2) res.PaymentMethodID,
           Call.Log ("error: " ++ e),
           Call.Create PaymentRepo (ctx.WithTimeout 2)
             (newPm req.CustomerID res.PaymentMethodID provider),
           Call.Log ("Saving payment method--Event: " ++ e2)] ∧
        Call.Log ("Saving payment method--Event: " ++ e2) ∈
          (s.ChargeClient ctx provider req w).trace ∧
        (s.ChargeClient ctx provider req w).state = w4)) := by
  have hne : ¬ (TransactionRepo = PaymentRepo) := by decide
  rw [chargeClient_of_lookups s ctx provider req w processor transaction payment_method hp ht hm]
  simp only [hc]
  refine ⟨?_, ?_, ?_⟩
  · intro e w2 hw
    simp [hw, Run.after, Run.done, callsOn, hne]
  · intro w2 hw
    simp [hw, Run.after, chargeTail_result]
  · intro w2 e w3 hw hf hfind
    refine ⟨?_, ?_, ?_, ?_⟩
    · simp [hw, Run.after, chargeTail_result]
    · simp [hw, chargeTail, hf, hfind, Run.after]
    · intro w4 hcr
      simp [hw, chargeTail, hf, hfind, hcr, Run.after, Run.done]
    · intro e2 w4 hcr
      simp [hw, chargeTail, hf, hfind, hcr, Run.after, Run.done]

/-- Witness of amended C8 on the service whose payment-method repository has
lost its connection: the lookup error and the insert error are both in the log
and the charge returns the success response. -/
theorem chargeClient_persistence_errors_witness :
    (sample.halfBroken.ChargeClient sample.background "stripe" (sample.request (some true))
        sample.emptyStore).trace =
      [Call.ProcChargeClient "stripe" ⟨some 2⟩ (sample.request (some true)),
       Call.Create TransactionRepo ⟨some 2⟩
         (ChargeClient.newPi
           { ID := "pi_2", Amount := 1000, Currency := "usd", Status := "succeeded",
             ClientSecret := "", PaymentMethodID := "pm_1", PaymentMethodType := "",
             PaymentProvider := "", PaymentMethodStatus := "" }
           (sample.request (some true))),
       Call.FindByID PaymentRepo ⟨some 2⟩ "pm_1",
       Call.Log ("error: " ++ "error getting payment Method: connection refused"),
       Call.Create PaymentRepo ⟨some 2⟩ (newPm "cust_1" "pm_1" "stripe"),
       Call.Log ("Saving payment method--Event: " ++ "connection refused")] ∧
    (sample.halfBroken.ChargeClient sample.background "stripe" (sample.request (some true))
        sample.emptyStore).result =
      .ok (intentResponse
        { ID := "pi_2", Amount := 1000, Currency := "usd", Status := "succeeded",
          ClientSecret := "", PaymentMethodID := "pm_1", PaymentMethodType := "",
          PaymentProvider := "", PaymentMethodStatus := "" }) :=
  ⟨(((chargeClient_persistence_errors sample.halfBroken sample.background "stripe"
      (sample.request (some true)) sample.emptyStore sample.emptyStore
      (sample.provider sample.otherEvent)
      (NewTransactionRepository postgres.pool).asRepository
      (NewPaymentMethodRepository postgres.unreachable).asRepository
      { ID := "pi_2", Amount := 1000, Currency := "usd", Status := "succeeded",
        ClientSecret := "", PaymentMethodID := "pm_1", PaymentMethodType := "",
        PaymentProvider := "", PaymentMethodStatus := "" }
      rfl rfl rfl rfl).2.2 _ "error getting payment Method: connection refused" _
      rfl rfl rfl).2.2.2 "connection refused" _ rfl).1,
   rfl⟩

/-! ### ParseWebhook (C9, C10) -/

/-- C9. When the adapter returns an event whose normalized type is succeeded,
failed or canceled, ParseWebhook issues exactly one UpdateStatus, on the
transaction repository, whose new status is the constant of that event type (the
status constants are the event type constants) and whose filter map has the one
entry payment_intent_id = event.PaymentIntent; it issues no Create on the
transaction repository. -/
theorem parseWebhook_updates_status_once {σ : Type} (s : PaymentService σ) (ctx : Context)
    (provider : PaymentProvider) (raw : List UInt8) (headers : List (String × List String))
    (w w1 : σ) (processor : IPaymentProcessor σ)
    (transaction payment_method : ITransactionRepository σ) (event : PaymentEvent)
    (hp : s.providerRegistry.Get provider = .ok processor)
    (ht : s.repositoryRegistry.Get TransactionRepo = .ok transaction)
    (hm : s.repositoryRegistry.Get PaymentRepo = .ok payment_method)
    (hparse : processor.ParseWebhook (ctx.WithTimeout 5) raw headers w = (.ok event, w1))
    (htype : event.Type_ = PaymentSucceeded ∨ event.Type_ = PaymentFailed ∨
      event.Type_ = PaymentCancelled) :
    statusUpdates (s.ParseWebhook ctx provider raw headers w).trace =
      [(TransactionRepo, event.Type_, [("payment_intent_id", Any.str event.PaymentIntent)])] ∧
    createdOn TransactionRepo (s.ParseWebhook ctx provider raw headers w).trace = [] := by
  have hfs : ¬ (PaymentFailed = PaymentSucceeded) := by decide
  have hcs : ¬ (PaymentCancelled = PaymentSucceeded) := by decide
  have hcf : ¬ (PaymentCancelled = PaymentFailed) := by decide
  rw [parseWebhook_of_lookups s ctx provider raw headers w processor transaction payment_method
    hp ht hm]
  simp only [hparse]
  unfold dispatch
  rcases htype with h | h | h
  · simp only [h, if_true]
    rcases hu : transaction.UpdateStatus (ctx.WithTimeout 5) PaymentSucceeded
      (intentFilter event) w1 with ⟨r, w2⟩
    cases r with
    | error e => simp [Run.after, Run.done, statusUpdates, createdOn, intentFilter]
    | ok u =>
      have hT := succeededTail_writes transaction payment_method (ctx.WithTimeout 5) provider
        event w2
      simp only []
      generalize succeededTail transaction payment_method (ctx.WithTimeout 5) provider
        event w2 = tail at hT ⊢
      simp [Run.after, statusUpdates, createdOn, hT.1, hT.2, intentFilter]
  · simp only [h, hfs, if_true, if_false]
    rcases hu : transaction.UpdateStatus (ctx.WithTimeout 5) PaymentFailed
      (intentFilter event) w1 with ⟨r, w2⟩
    cases r <;> simp [Run.after, Run.done, statusUpdates, createdOn, intentFilter]
  · simp only [h, hcs, hcf, if_true, if_false]
    rcases hu : transaction.UpdateStatus (ctx.WithTimeout 5) PaymentCancelled
      (intentFilter event) w1 with ⟨r, w2⟩
    cases r <;> simp [Run.after, Run.done, statusUpdates, createdOn, intentFilter]

/-- Witness of C9: a canceled event for a stored pending transaction. -/
theorem parseWebhook_updates_status_once_witness :
    statusUpdates
      ((main.paymentService (sample.provider (sample.event PaymentCancelled))
          postgres.pool).ParseWebhook sample.background "stripe" [] [] sample.pendingStore).trace =
      [("transactionRepo", "payment_intent.canceled",
        [("payment_intent_id", Any.str "pi_1")])] ∧
    ((main.paymentService (sample.provider (sample.event PaymentCancelled))
          postgres.pool).ParseWebhook sample.background "stripe" [] []
          sample.pendingStore).state.transactions.map (fun r => r.TxStatus) =
      ["payment_intent.canceled"] :=
  ⟨(parseWebhook_updates_status_once
      (main.paymentService (sample.provider (sample.event PaymentCancelled)) postgres.pool)
      sample.background "stripe" [] [] sample.pendingStore sample.pendingStore
      (sample.provider (sample.event PaymentCancelled))
      (NewTransactionRepository postgres.pool).asRepository
      (NewPaymentMethodRepository postgres.pool).asRepository
      (sample.event PaymentCancelled) rfl rfl rfl rfl (Or.inr (Or.inr rfl))).1, rfl⟩

/-- C10. On the database, with the transaction repository of the sources: when
the adapter returns an event of type succeeded, failed or canceled and no stored
transaction has the payment intent id of the event, ParseWebhook returns an
error and no event, the database is left as it was (no transaction row is
changed and no payment-method row is added), and the payment-method repository
is not called. -/
theorem parseWebhook_unknown_intent (s : PaymentService postgres.Store) (ctx : Context)
    (provider : PaymentProvider) (raw : List UInt8) (headers : List (String × List String))
    (w w1 : postgres.Store) (processor : IPaymentProcessor postgres.Store)
    (payment_method : ITransactionRepository postgres.Store) (event : PaymentEvent)
    (hp : s.providerRegistry.Get provider = .ok processor)
    (ht : s.repositoryRegistry.Get TransactionRepo =
      .ok (NewTransactionRepository postgres.pool).asRepository)
    (hm : s.repositoryRegistry.Get PaymentRepo = .ok payment_method)
    (hparse : processor.ParseWebhook (ctx.WithTimeout 5) raw headers w = (.ok event, w1))
    (htype : event.Type_ = PaymentSucceeded ∨ event.Type_ = PaymentFailed ∨
      event.Type_ = PaymentCancelled)
    (hnone : ∀ r ∈ w1.transactions, r.PaymentIntentID ≠ event.PaymentIntent) :
    (s.ParseWebhook ctx provider raw headers w).result =
      .error "no matching transaction found" ∧
    (s.ParseWebhook ctx provider raw headers w).state = w1 ∧
    (s.ParseWebhook ctx provider raw headers w).state.transactions = w1.transactions ∧
    (s.ParseWebhook ctx provider raw headers w).state.payment_methods = w1.payment_methods ∧
    callsOn PaymentRepo (s.ParseWebhook ctx provider raw headers w).trace = [] ∧
    createdOn PaymentRepo (s.ParseWebhook ctx provider raw headers w).trace = [] := by
  have hfs : ¬ (PaymentFailed = PaymentSucceeded) := by decide
  have hcs : ¬ (PaymentCancelled = PaymentSucceeded) := by decide
  have hcf : ¬ (PaymentCancelled = PaymentFailed) := by decide
  have hne : ¬ (TransactionRepo = PaymentRepo) := by decide
  have hu : ∀ status, (NewTransactionRepository postgres.pool).asRepository.UpdateStatus
      (ctx.WithTimeout 5) status (intentFilter event) w1 =
      (Except.error "no matching transaction found", w1) := fun status =>
    pool_updateStatus_no_match (ctx.WithTimeout 5) status event.PaymentIntent w1 hnone
  rw [parseWebhook_of_lookups s ctx provider raw headers w processor
    (NewTransactionRepository postgres.pool).asRepository payment_method hp ht hm]
  simp only [hparse]
  unfold dispatch
  rcases htype with h | h | h
  · simp only [h, if_true, hu]
    simp [Run.after, Run.done, callsOn, createdOn, hne]
  · simp only [h, hfs, if_true, if_false, hu]
    simp [Run.after, Run.done, callsOn, createdOn, hne]
  · simp only [h, hcs, hcf, if_true, if_false, hu]
    simp [Run.after, Run.done, callsOn, createdOn, hne]

/-- Witness of C10: a succeeded event for the unknown intent `pi_404` on a
database that holds a pending transaction of another intent. -/
theorem parseWebhook_unknown_intent_witness :
    ((main.paymentService (sample.provider (sample.unknownEvent PaymentSucceeded))
        postgres.pool).ParseWebhook sample.background "stripe" [] []
        sample.pendingStore).result = .error "no matching transaction found" ∧
    ((main.paymentService (sample.provider (sample.unknownEvent PaymentSucceeded))
        postgres.pool).ParseWebhook sample.background "stripe" [] []
        sample.pendingStore).state = sample.pendingStore :=
  ⟨(parseWebhook_unknown_intent
      (main.paymentService (sample.provider (sample.unknownEvent PaymentSucceeded))
        postgres.pool)
      sample.background "stripe" [] [] sample.pendingStore sample.pendingStore
      (sample.provider (sample.unknownEvent PaymentSucceeded))
      (NewPaymentMethodRepository postgres.pool).asRepository
      (sample.unknownEvent PaymentSucceeded) rfl rfl rfl rfl (Or.inl rfl)
      (by decide)).1,
   (parseWebhook_unknown_intent
      (main.paymentService (sample.provider (sample.unknownEvent PaymentSucceeded))
        postgres.pool)
      sample.background "stripe" [] [] sample.pendingStore sample.pendingStore
      (sample.provider (sample.unknownEvent PaymentSucceeded))
      (NewPaymentMethodRepository postgres.pool).asRepository
      (sample.unknownEvent PaymentSucceeded) rfl rfl rfl rfl (Or.inl rfl)
      (by decide)).2.1⟩

/-! ### Webhooks through the Stripe adapter (C11, C12, C13, C14) -/

/-- Counterexample to C11 as stated: a verified payment_intent.payment_failed
event for intent `pi_1`, whose transaction is stored as pending, is returned with
the normalized failed type, and the status stored afterwards is
"payment_failed", the value of that constant, not "failed". -/
theorem parseWebhook_failed_event_stores_payment_failed :
    sample.pendingStore.transactions.map (fun r => (r.PaymentIntentID, r.TxStatus)) =
      [("pi_1", "pending")] ∧
    ((main.paymentService sample.stripeProvider postgres.pool).ParseWebhook
        sample.background "stripe" [1] sample.signedHeaders sample.pendingStore).result =
      .ok { Type_ := PaymentFailed, PaymentIntent := "pi_1", PaymentMethod := "pm_1",
            Payload := EventPayload.intent
              { ID := "pi_1", Amount := 1000, Currency := "usd",
                Status := "requires_payment_method", ClientSecret := "" } } ∧
    ((main.paymentService sample.stripeProvider postgres.pool).ParseWebhook
        sample.background "stripe" [1] sample.signedHeaders
        sample.pendingStore).state.transactions.map
          (fun r => (r.PaymentIntentID, r.TxStatus)) = [("pi_1", "payment_failed")] ∧
    ((main.paymentService sample.stripeProvider postgres.pool).ParseWebhook
        sample.background "stripe" [1] sample.signedHeaders
        sample.pendingStore).state.transactions.map
          (fun r => (r.PaymentIntentID, r.TxStatus)) ≠ [("pi_1", "failed")] :=
  ⟨rfl, rfl, rfl, by
    rw [show ((main.paymentService sample.stripeProvider postgres.pool).ParseWebhook
        sample.background "stripe" [1] sample.signedHeaders
        sample.pendingStore).state.transactions.map
          (fun r => (r.PaymentIntentID, r.TxStatus)) = [("pi_1", "payment_failed")] from rfl]
    decide⟩

/-- C11, amended. For a verified webhook whose provider event type is
payment_intent.payment_failed and which references an existing pending
transaction, ParseWebhook returns an event whose type is the normalized failed
constant, and afterwards every stored transaction of that intent has that
constant, "payment_failed", as its status; the other rows and the payment
methods are unchanged. -/
theorem parseWebhook_failed_event_stores_failed_constant
    (s : PaymentService postgres.Store) (ctx : Context) (provider : PaymentProvider)
    (raw : List UInt8) (headers : List (String × List String)) (w : postgres.Store)
    (processor : IPaymentProcessor postgres.Store)
    (payment_method : ITransactionRepository postgres.Store)
    (a : adapters.StripeAdapter) (lib : adapters.Library) (event : stripe.Event)
    (paymentIntent : stripe.PaymentIntent)
    (hp : s.providerRegistry.Get provider = .ok processor)
    (ht : s.repositoryRegistry.Get TransactionRepo =
      .ok (NewTransactionRepository postgres.pool).asRepository)
    (hm : s.repositoryRegistry.Get PaymentRepo = .ok payment_method)
    (ha : processor.ParseWebhook = a.webhookMethod lib)
    (hsig : utils.GetHeader lib.EqualFold headers "Stripe-Signature" ≠ "")
    (hev : lib.ConstructEvent raw (utils.GetHeader lib.EqualFold headers "Stripe-Signature")
      a.webhookSecret = .ok event)
    (htype : event.Type_ = "payment_intent.payment_failed")
    (hdec : lib.Unmarshal event.DataRaw = .ok paymentIntent)
    (hrow : ∃ r ∈ w.transactions, r.PaymentIntentID = paymentIntent.ID ∧ r.TxStatus = Pending) :
    (∃ ev, (s.ParseWebhook ctx provider raw headers w).result = .ok ev ∧
      ev.Type_ = PaymentFailed ∧ ev.PaymentIntent = paymentIntent.ID) ∧
    (s.ParseWebhook ctx provider raw headers w).state.transactions =
      updatedRows PaymentFailed paymentIntent.ID w.now w.transactions ∧
    (∃ r ∈ (s.ParseWebhook ctx provider raw headers w).state.transactions,
      r.PaymentIntentID = paymentIntent.ID) ∧
    (∀ r ∈ (s.ParseWebhook ctx provider raw headers w).state.transactions,
      r.PaymentIntentID = paymentIntent.ID → r.TxStatus = "payment_failed") ∧
    (s.ParseWebhook ctx provider raw headers w).state.payment_methods = w.payment_methods := by
  have hadapter := stripe_parseWebhook_failed a lib (ctx.WithTimeout 5) raw headers event
    paymentIntent hsig hev htype hdec
  have hcall : processor.ParseWebhook (ctx.WithTimeout 5) raw headers w =
      (a.ParseWebhook lib (ctx.WithTimeout 5) raw headers, w) := by
    rw [ha]; rfl
  obtain ⟨r, hr, hid, _⟩ := hrow
  rw [parseWebhook_of_lookups s ctx provider raw headers w processor
    (NewTransactionRepository postgres.pool).asRepository payment_method hp ht hm]
  simp only [hcall, hadapter]
  rw [pool_dispatch_failed (ctx.WithTimeout 5) provider _ w payment_method rfl ⟨r, hr, hid⟩]
  refine ⟨⟨_, rfl, rfl, rfl⟩, rfl, ?_, ?_, rfl⟩
  · refine ⟨{ r with TxStatus := PaymentFailed, UpdatedAt := w.now }, ?_, hid⟩
    simp only [Run.after, Run.done, updatedRows, List.mem_map]
    exact ⟨r, hr, by simp [hid]⟩
  · intro r' hr' hid'
    exact updatedRows_status PaymentFailed paymentIntent.ID w.now w.transactions r' hr' hid'

/-- Witness of amended C11: the failed event for the pending transaction of
intent `pi_1`. -/
theorem parseWebhook_failed_event_stores_failed_constant_witness :
    ((main.paymentService sample.stripeProvider postgres.pool).ParseWebhook
        sample.background "stripe" [1] sample.signedHeaders
        sample.pendingStore).state.transactions =
      updatedRows PaymentFailed "pi_1" 7 sample.pendingStore.transactions :=
  (parseWebhook_failed_event_stores_failed_constant
    (main.paymentService sample.stripeProvider postgres.pool) sample.background "stripe" [1]
    sample.signedHeaders sample.pendingStore sample.stripeProvider
    (NewPaymentMethodRepository postgres.pool).asRepository
    sample.adapter sample.library { Type_ := "payment_intent.payment_failed", DataRaw := [1] }
    { ID := "pi_1", Amount := 1000, Currency := "usd", Status := "requires_payment_method",
      PaymentMethod := some { ID := "pm_1" }, LastPaymentError := none }
    rfl rfl rfl rfl (by decide) rfl rfl rfl
    ⟨_, List.mem_cons_self _ _, rfl, rfl⟩).2.1

/-- Counterexample to C12 as stated: a verified event whose type is none of the
three payment-intent types but reads like the normalized succeeded type is passed
through by the adapter with its type and the payload marker, and the service
then issues a status update on the transaction repository and returns an error
instead of the event. -/
theorem parseWebhook_acts_on_passed_through_type :
    sample.adapter.ParseWebhook sample.library ⟨some 5⟩ [3] sample.signedHeaders =
      .ok { Type_ := "payment_succeeded", PaymentIntent := "", PaymentMethod := "",
            Payload := EventPayload.text "Omitted" } ∧
    ((main.paymentService sample.stripeProvider postgres.pool).ParseWebhook
        sample.background "stripe" [3] sample.signedHeaders sample.pendingStore).trace =
      [Call.ProcParseWebhook "stripe" ⟨some 5⟩ [3] sample.signedHeaders,
       Call.UpdateStatus "transactionRepo" ⟨some 5⟩ "payment_succeeded"
         [("payment_intent_id", Any.str "")]] ∧
    ((main.paymentService sample.stripeProvider postgres.pool).ParseWebhook
        sample.background "stripe" [3] sample.signedHeaders sample.pendingStore).result =
      .error "no matching transaction found" :=
  ⟨rfl, rfl, rfl⟩

/-- C12, amended. For every verified event whose type is none of
payment_intent.succeeded, payment_intent.payment_failed and
payment_intent.canceled, the adapter passes the event through with its type
unchanged, empty ids and the payload marker "Omitted"; when moreover the type is
not one of the normalized constants payment_succeeded and payment_failed, the
service issues no call but the adapter call, leaves the state as the adapter
call left it and returns that event. -/
theorem parseWebhook_passes_other_events_through {σ : Type} (s : PaymentService σ)
    (ctx : Context) (provider : PaymentProvider) (raw : List UInt8)
    (headers : List (String × List String)) (w : σ) (processor : IPaymentProcessor σ)
    (transaction payment_method : ITransactionRepository σ)
    (a : adapters.StripeAdapter) (lib : adapters.Library) (event : stripe.Event)
    (hp : s.providerRegistry.Get provider = .ok processor)
    (ht : s.repositoryRegistry.Get TransactionRepo = .ok transaction)
    (hm : s.repositoryRegistry.Get PaymentRepo = .ok payment_method)
    (ha : processor.ParseWebhook = a.webhookMethod lib)
    (hsig : utils.GetHeader lib.EqualFold headers "Stripe-Signature" ≠ "")
    (hev : lib.ConstructEvent raw (utils.GetHeader lib.EqualFold headers "Stripe-Signature")
      a.webhookSecret = .ok event)
    (h1 : event.Type_ ≠ "payment_intent.succeeded")
    (h2 : event.Type_ ≠ "payment_intent.payment_failed")
    (h3 : event.Type_ ≠ "payment_intent.canceled")
    (h4 : event.Type_ ≠ PaymentSucceeded) (h5 : event.Type_ ≠ PaymentFailed) :
    a.ParseWebhook lib (ctx.WithTimeout 5) raw headers =
      .ok { Type_ := event.Type_, PaymentIntent := "", PaymentMethod := "",
            Payload := EventPayload.text "Omitted" } ∧
    (s.ParseWebhook ctx provider raw headers w).result =
      .ok { Type_ := event.Type_, PaymentIntent := "", PaymentMethod := "",
            Payload := EventPayload.text "Omitted" } ∧
    (s.ParseWebhook ctx provider raw headers w).trace =
      [Call.ProcParseWebhook provider (ctx.WithTimeout 5) raw headers] ∧
    (s.ParseWebhook ctx provider raw headers w).state = w := by
  have hadapter := stripe_parseWebhook_other a lib (ctx.WithTimeout 5) raw headers event hsig hev
    h1 h2 h3
  have hcall : processor.ParseWebhook (ctx.WithTimeout 5) raw headers w =
      (.ok { Type_ := event.Type_, PaymentIntent := "", PaymentMethod := "",
             Payload := EventPayload.text "Omitted" }, w) := by
    rw [ha]
    simp only [adapters.StripeAdapter.webhookMethod, hadapter]
  have h6 : event.Type_ ≠ PaymentCancelled := h3
  rw [parseWebhook_of_lookups s ctx provider raw headers w processor transaction payment_method
    hp ht hm]
  simp only [hcall]
  rw [dispatch_other transaction payment_method (ctx.WithTimeout 5) provider _ w h4 h5 h6]
  exact ⟨hadapter, rfl, rfl, rfl⟩

/-- Witness of amended C12: a refund event on the sample adapter. -/
theorem parseWebhook_passes_other_events_through_witness :
    ((main.paymentService sample.stripeProvider postgres.pool).ParseWebhook
        sample.background "stripe" [9] sample.signedHeaders sample.pendingStore).result =
      .ok { Type_ := "charge.refunded", PaymentIntent := "", PaymentMethod := "",
            Payload := EventPayload.text "Omitted" } ∧
    ((main.paymentService sample.stripeProvider postgres.pool).ParseWebhook
        sample.background "stripe" [9] sample.signedHeaders sample.pendingStore).state =
      sample.pendingStore :=
  ⟨(parseWebhook_passes_other_events_through
      (main.paymentService sample.stripeProvider postgres.pool) sample.background "stripe" [9]
      sample.signedHeaders sample.pendingStore sample.stripeProvider
      (NewTransactionRepository postgres.pool).asRepository
      (NewPaymentMethodRepository postgres.pool).asRepository
      sample.adapter sample.library { Type_ := "charge.refunded", DataRaw := [9] }
      rfl rfl rfl rfl (by decide) rfl (by decide) (by decide) (by decide) (by decide)
      (by decide)).2.1,
   (parseWebhook_passes_other_events_through
      (main.paymentService sample.stripeProvider postgres.pool) sample.background "stripe" [9]
      sample.signedHeaders sample.pendingStore sample.stripeProvider
      (NewTransactionRepository postgres.pool).asRepository
      (NewPaymentMethodRepository postgres.pool).asRepository
      sample.adapter sample.library { Type_ := "charge.refunded", DataRaw := [9] }
      rfl rfl rfl rfl (by decide) rfl (by decide) (by decide) (by decide) (by decide)
      (by decide)).2.2.2⟩

/-- Counterexample to C13 as stated: the adapter verifies and decodes a succeeded
event for intent `pi_1`, no transaction of that intent is stored, and the service
returns the error of the status update instead of the event. -/
theorem parseWebhook_drops_event_on_update_error :
    sample.adapter.ParseWebhook sample.library ⟨some 5⟩ [0] sample.signedHeaders =
      .ok { Type_ := "payment_succeeded", PaymentIntent := "pi_1", PaymentMethod := "pm_1",
            Payload := EventPayload.intent
              { ID := "pi_1", Amount := 1000, Currency := "usd",
                Status := "requires_payment_method", ClientSecret := "" } } ∧
    ((main.paymentService sample.stripeProvider postgres.pool).ParseWebhook
        sample.background "stripe" [0] sample.signedHeaders sample.emptyStore).result =
      .error "no matching transaction found" :=
  ⟨rfl, rfl⟩

/-- C13, amended. Whenever the adapter returns an event, ParseWebhook returns
either that event or an error, never another event. It returns the event when
the type is none of the three normalized types; for a failed or canceled event
exactly when the status update succeeds, else the error of the update; for a
succeeded event exactly when the status update and the transaction lookup after
it succeed, whatever the payment-method lookup and insert return. -/
theorem parseWebhook_returns_event_unless_persistence_fails {σ : Type} (s : PaymentService σ)
    (ctx : Context) (provider : PaymentProvider) (raw : List UInt8)
    (headers : List (String × List String)) (w w1 : σ) (processor : IPaymentProcessor σ)
    (transaction payment_method : ITransactionRepository σ) (event : PaymentEvent)
    (hp : s.providerRegistry.Get provider = .ok processor)
    (ht : s.repositoryRegistry.Get TransactionRepo = .ok transaction)
    (hm : s.repositoryRegistry.Get PaymentRepo = .ok payment_method)
    (hparse : processor.ParseWebhook (ctx.WithTimeout 5) raw headers w = (.ok event, w1)) :
    (∀ ev, (s.ParseWebhook ctx provider raw headers w).result = .ok ev → ev = event) ∧
    (event.Type_ ≠ PaymentSucceeded → event.Type_ ≠ PaymentFailed →
      event.Type_ ≠ PaymentCancelled →
      (s.ParseWebhook ctx provider raw headers w).result = .ok event) ∧
    (event.Type_ = PaymentFailed ∨ event.Type_ = PaymentCancelled →
      (s.ParseWebhook ctx provider raw headers w).result =
        match (transaction.UpdateStatus (ctx.WithTimeout 5) event.Type_
            (intentFilter event) w1).1 with
        | .error err => .error err
        | .ok _ => .ok event) ∧
    (event.Type_ = PaymentSucceeded →
      (s.ParseWebhook ctx provider raw headers w).result =
        match transaction.UpdateStatus (ctx.WithTimeout 5) PaymentSucceeded
            (intentFilter event) w1 with
        | (.error err, _) => .error err
        | (.ok _, w2) =>
          match (transaction.FindByPaymentIntent (ctx.WithTimeout 5) event.PaymentIntent
              w2).1 with
          | .error err => .error ("Error while finding payment intent: " ++ err)
          | .ok _ => .ok event) := by
  have hfs : ¬ (PaymentFailed = PaymentSucceeded) := by decide
  have hcs : ¬ (PaymentCancelled = PaymentSucceeded) := by decide
  have hcf : ¬ (PaymentCancelled = PaymentFailed) := by decide
  rw [parseWebhook_of_lookups s ctx provider raw headers w processor transaction payment_method
    hp ht hm]
  simp only [hparse, Run.after_result]
  have hother : event.Type_ ≠ PaymentSucceeded → event.Type_ ≠ PaymentFailed →
      event.Type_ ≠ PaymentCancelled →
      (dispatch transaction payment_method (ctx.WithTimeout 5) provider event w1).result =
        .ok event := by
    intro h1 h2 h3
    rw [dispatch_other transaction payment_method (ctx.WithTimeout 5) provider event w1 h1 h2 h3]
    rfl
  have hfc : event.Type_ = PaymentFailed ∨ event.Type_ = PaymentCancelled →
      (dispatch transaction payment_method (ctx.WithTimeout 5) provider event w1).result =
        match (transaction.UpdateStatus (ctx.WithTimeout 5) event.Type_
            (intentFilter event) w1).1 with
        | .error err => .error err
        | .ok _ => .ok event := by
    intro h
    unfold dispatch
    rcases h with h | h
    · simp only [h, hfs, if_true, if_false]
      rcases hu : transaction.UpdateStatus (ctx.WithTimeout 5) PaymentFailed
        (intentFilter event) w1 with ⟨r, w2⟩
      cases r <;> rfl
    · simp only [h, hcs, hcf, if_true, if_false]
      rcases hu : transaction.UpdateStatus (ctx.WithTimeout 5) PaymentCancelled
        (intentFilter event) w1 with ⟨r, w2⟩
      cases r <;> rfl
  have hsucc : event.Type_ = PaymentSucceeded →
      (dispatch transaction payment_method (ctx.WithTimeout 5) provider event w1).result =
        match transaction.UpdateStatus (ctx.WithTimeout 5) PaymentSucceeded
            (intentFilter event) w1 with
        | (.error err, _) => .error err
        | (.ok _, w2) =>
          match (transaction.FindByPaymentIntent (ctx.WithTimeout 5) event.PaymentIntent
              w2).1 with
          | .error err => .error ("Error while finding payment intent: " ++ err)
          | .ok _ => .ok event := by
    intro h
    unfold dispatch
    simp only [h, if_true]
    rcases hu : transaction.UpdateStatus (ctx.WithTimeout 5) PaymentSucceeded
      (intentFilter event) w1 with ⟨r, w2⟩
    cases r with
    | error e => rfl
    | ok x =>
      simp only [Run.after_result]
      exact succeededTail_result transaction payment_method (ctx.WithTimeout 5) provider event w2
  refine ⟨?_, hother, hfc, hsucc⟩
  intro ev hres
  by_cases h1 : event.Type_ = PaymentSucceeded
  · rw [hsucc h1] at hres
    rcases hu : transaction.UpdateStatus (ctx.WithTimeout 5) PaymentSucceeded
      (intentFilter event) w1 with ⟨r, w2⟩
    rw [hu] at hres
    cases r with
    | error e => simp at hres
    | ok x =>
      simp only [] at hres
      cases hf : (transaction.FindByPaymentIntent (ctx.WithTimeout 5) event.PaymentIntent w2).1
        with
      | error e => rw [hf] at hres; simp at hres
      | ok tx => rw [hf] at hres; simp at hres; exact hres.symm
  · by_cases h2 : event.Type_ = PaymentFailed ∨ event.Type_ = PaymentCancelled
    · rw [hfc h2] at hres
      cases hu : (transaction.UpdateStatus (ctx.WithTimeout 5) event.Type_
          (intentFilter event) w1).1 with
      | error e => rw [hu] at hres; simp at hres
      | ok x => rw [hu] at hres; simp at hres; exact hres.symm
    · have h3 : event.Type_ ≠ PaymentFailed := fun h => h2 (Or.inl h)
      have h4 : event.Type_ ≠ PaymentCancelled := fun h => h2 (Or.inr h)
      rw [hother h1 h3 h4] at hres
      simp at hres
      exact hres.symm

/-- Witness of amended C13: a failed event for the stored intent `pi_1` is
returned. -/
theorem parseWebhook_returns_event_unless_persistence_fails_witness :
    ((main.paymentService (sample.provider (sample.event PaymentFailed))
        postgres.pool).ParseWebhook sample.background "stripe" [] []
        sample.pendingStore).result = .ok (sample.event PaymentFailed) :=
  (parseWebhook_returns_event_unless_persistence_fails
      (main.paymentService (sample.provider (sample.event PaymentFailed)) postgres.pool)
      sample.background "stripe" [] [] sample.pendingStore sample.pendingStore
      (sample.provider (sample.event PaymentFailed))
      (NewTransactionRepository postgres.pool).asRepository
      (NewPaymentMethodRepository postgres.pool).asRepository
      (sample.event PaymentFailed) rfl rfl rfl rfl).2.2.1 (Or.inl rfl)

/-- C14. When the headers hold no entry whose name equals Stripe-Signature with
case ignored, or the signature found there fails verification, the adapter
returns an error and no event (the missing-header error in the first case, the
missing-header or the invalid-signature error in the second), and the service
returns that same error after the adapter call alone: it calls no repository and
leaves the state as it was. -/
theorem parseWebhook_rejects_unsigned {σ : Type} (s : PaymentService σ)
    (ctx : Context) (provider : PaymentProvider) (raw : List UInt8)
    (headers : List (String × List String)) (w : σ) (processor : IPaymentProcessor σ)
    (transaction payment_method : ITransactionRepository σ)
    (a : adapters.StripeAdapter) (lib : adapters.Library)
    (hp : s.providerRegistry.Get provider = .ok processor)
    (ht : s.repositoryRegistry.Get TransactionRepo = .ok transaction)
    (hm : s.repositoryRegistry.Get PaymentRepo = .ok payment_method)
    (ha : processor.ParseWebhook = a.webhookMethod lib)
    (hsig : (∀ kv ∈ headers, lib.EqualFold kv.1 "Stripe-Signature" = false) ∨
      (∃ e, lib.ConstructEvent raw
        (utils.GetHeader lib.EqualFold headers "Stripe-Signature") a.webhookSecret =
          .error e)) :
    (∃ msg, (msg = "missing stripe-signature header" ∨ msg = "invalid webhook signature") ∧
      a.ParseWebhook lib (ctx.WithTimeout 5) raw headers = .error msg ∧
      (s.ParseWebhook ctx provider raw headers w).result = .error msg) ∧
    ((∀ kv ∈ headers, lib.EqualFold kv.1 "Stripe-Signature" = false) →
      a.ParseWebhook lib (ctx.WithTimeout 5) raw headers =
        .error "missing stripe-signature header") ∧
    (s.ParseWebhook ctx provider raw headers w).trace =
      [Call.ProcParseWebhook provider (ctx.WithTimeout 5) raw headers] ∧
    callsOn TransactionRepo (s.ParseWebhook ctx provider raw headers w).trace = [] ∧
    callsOn PaymentRepo (s.ParseWebhook ctx provider raw headers w).trace = [] ∧
    (s.ParseWebhook ctx provider raw headers w).state = w := by
  have hmissing : (∀ kv ∈ headers, lib.EqualFold kv.1 "Stripe-Signature" = false) →
      a.ParseWebhook lib (ctx.WithTimeout 5) raw headers =
        .error "missing stripe-signature header" := fun h =>
    stripe_parseWebhook_missing a lib _ raw headers
      (getHeader_no_entry lib.EqualFold headers "Stripe-Signature" h)
  have hadapter : ∃ msg,
      (msg = "missing stripe-signature header" ∨ msg = "invalid webhook signature") ∧
      a.ParseWebhook lib (ctx.WithTimeout 5) raw headers = .error msg := by
    rcases hsig with h | ⟨e, h⟩
    · exact ⟨_, Or.inl rfl, hmissing h⟩
    · by_cases hg : utils.GetHeader lib.EqualFold headers "Stripe-Signature" = ""
      · exact ⟨_, Or.inl rfl, stripe_parseWebhook_missing a lib _ raw headers hg⟩
      · exact ⟨_, Or.inr rfl, stripe_parseWebhook_invalid a lib _ raw headers e hg h⟩
  obtain ⟨msg, hmsg, herr⟩ := hadapter
  have hcall : processor.ParseWebhook (ctx.WithTimeout 5) raw headers w = (.error msg, w) := by
    rw [ha]
    simp only [adapters.StripeAdapter.webhookMethod, herr]
  rw [parseWebhook_of_lookups s ctx provider raw headers w processor transaction payment_method
    hp ht hm]
  simp only [hcall]
  refine ⟨⟨msg, hmsg, herr, rfl⟩, hmissing, rfl, ?_, ?_, rfl⟩
  · simp [Run.after, Run.done, callsOn]
  · simp [Run.after, Run.done, callsOn]

/-- Witness of C14: a request without signature header, and one whose signature
is not accepted. -/
theorem parseWebhook_rejects_unsigned_witness :
    ((main.paymentService sample.stripeProvider postgres.pool).ParseWebhook
        sample.background "stripe" [0] [("Content-Type", ["application/json"])]
        sample.pendingStore).state = sample.pendingStore ∧
    ((main.paymentService sample.stripeProvider postgres.pool).ParseWebhook
        sample.background "stripe" [0] [("STRIPE-SIGNATURE", ["tampered"])]
        sample.pendingStore).trace =
      [Call.ProcParseWebhook "stripe" ⟨some 5⟩ [0] [("STRIPE-SIGNATURE", ["tampered"])]] ∧
    ((main.paymentService sample.stripeProvider postgres.pool).ParseWebhook
        sample.background "stripe" [0] [("STRIPE-SIGNATURE", ["tampered"])]
        sample.pendingStore).result = .error "invalid webhook signature" :=
  ⟨(parseWebhook_rejects_unsigned
      (main.paymentService sample.stripeProvider postgres.pool) sample.background "stripe" [0]
      [("Content-Type", ["application/json"])] sample.pendingStore sample.stripeProvider
      (NewTransactionRepository postgres.pool).asRepository
      (NewPaymentMethodRepository postgres.pool).asRepository
      sample.adapter sample.library rfl rfl rfl rfl (Or.inl (by decide))).2.2.2.2.2,
   (parseWebhook_rejects_unsigned
      (main.paymentService sample.stripeProvider postgres.pool) sample.background "stripe" [0]
      [("STRIPE-SIGNATURE", ["tampered"])] sample.pendingStore sample.stripeProvider
      (NewTransactionRepository postgres.pool).asRepository
      (NewPaymentMethodRepository postgres.pool).asRepository
      sample.adapter sample.library rfl rfl rfl rfl
      (Or.inr ⟨"signature mismatch", rfl⟩)).2.2.1,
   rfl⟩

/-! ### Replays and the order of statuses (C15, C16) -/

/-- Counterexample to C16 as stated: the transaction of intent `pi_1` is stored
as succeeded; a later verified payment_intent.payment_failed event for that
intent is accepted and changes the stored status to failed. -/
theorem parseWebhook_overwrites_terminal_status :
    sample.succeededStore.transactions.map (fun r => (r.PaymentIntentID, r.TxStatus)) =
      [("pi_1", PaymentSucceeded)] ∧
    ((main.paymentService sample.stripeProvider postgres.pool).ParseWebhook
        sample.background "stripe" [1] sample.signedHeaders sample.succeededStore).result =
      .ok { Type_ := PaymentFailed, PaymentIntent := "pi_1", PaymentMethod := "pm_1",
            Payload := EventPayload.intent
              { ID := "pi_1", Amount := 1000, Currency := "usd",
                Status := "requires_payment_method", ClientSecret := "" } } ∧
    ((main.paymentService sample.stripeProvider postgres.pool).ParseWebhook
        sample.background "stripe" [1] sample.signedHeaders
        sample.succeededStore).state.transactions.map
          (fun r => (r.PaymentIntentID, r.TxStatus)) = [("pi_1", PaymentFailed)] :=
  ⟨rfl, rfl, rfl⟩

/-- C16, amended. Over every sequence of service operations, the only status
writes are these: CreatePaymentIntent hands the transaction repository records
at pending and ChargeClient records at succeeded, neither issues a status
update; ParseWebhook hands it no record, and each of its status updates sets one
of succeeded, failed or canceled. The previous status is not checked: on the
database a status update for an intent that has a row succeeds and sets the new
status on every row of the intent, whatever status the row had, so a
transaction already in a terminal status takes the status of a later webhook
event. -/
theorem status_writes_target_terminal_statuses {σ : Type} (s : PaymentService σ)
    (ctx : Context) (provider : PaymentProvider) (req : PaymentIntentRequest)
    (raw : List UInt8) (headers : List (String × List String)) (w : σ) :
    (statusUpdates (s.CreatePaymentIntent ctx provider req w).trace = [] ∧
      ∀ tx ∈ createdOn TransactionRepo (s.CreatePaymentIntent ctx provider req w).trace,
        tx.TxStatus = Pending) ∧
    (statusUpdates (s.ChargeClient ctx provider req w).trace = [] ∧
      ∀ tx ∈ createdOn TransactionRepo (s.ChargeClient ctx provider req w).trace,
        tx.TxStatus = PaymentSucceeded) ∧
    ((∀ u ∈ statusUpdates (s.ParseWebhook ctx provider raw headers w).trace,
        u.1 = TransactionRepo ∧
        (u.2.1 = PaymentSucceeded ∨ u.2.1 = PaymentFailed ∨ u.2.1 = PaymentCancelled)) ∧
      createdOn TransactionRepo (s.ParseWebhook ctx provider raw headers w).trace = []) ∧
    (∀ (status id : String) (db : postgres.Store),
      (∃ r ∈ db.transactions, r.PaymentIntentID = id) →
      (NewTransactionRepository postgres.pool).UpdateStatus ctx status
          [("payment_intent_id", Any.str id)] db =
        (Except.ok (),
         { db with transactions := updatedRows status id db.now db.transactions }) ∧
      ∀ r ∈ updatedRows status id db.now db.transactions,
        r.PaymentIntentID = id → r.TxStatus = status) :=
  ⟨createPaymentIntent_statuses s ctx provider req w,
   chargeClient_statuses s ctx provider req w,
   parseWebhook_statuses s ctx provider raw headers w,
   fun status id db h =>
     ⟨pool_updateStatus_existing ctx status id db h,
      updatedRows_status status id db.now db.transactions⟩⟩

/-! ### The persistence contract (C17, C18, C19, C20) -/

/-- C17. For every record, the INSERT built by TransactionRepository.Create lists
the required columns amount, currency, customer_id, tx_status followed by exactly
those of id, internal_reference, payment_intent_id, save_payment_method, metadata
whose field is set, in that order; the arguments are the field values in the same
order and the placeholders are $1 to $n, so the three lists have equal length;
every column name belongs to the fixed list; and this statement with these
arguments is what Create hands to the database. The same holds for
PaymentMethodRepository.Create with required customer_id, payment_method_id,
pm_provider and optional method_type, pm_status. -/
theorem create_lists_set_columns {σ : Type} (db : DB σ) (ctx : Context) (tx : Transaction)
    (w : σ) (log : List Statement) :
    ((TransactionRepository.insertBuilder tx).fields =
        (transactionInsertColumns tx).map Prod.fst ∧
     (TransactionRepository.insertBuilder tx).values =
        (transactionInsertColumns tx).map Prod.snd ∧
     (TransactionRepository.insertBuilder tx).params =
        placeholders (transactionInsertColumns tx).length ∧
     (TransactionRepository.insertBuilder tx).fields.length =
        (TransactionRepository.insertBuilder tx).params.length ∧
     (TransactionRepository.insertBuilder tx).fields.length =
        (TransactionRepository.insertBuilder tx).values.length ∧
     (∀ f ∈ (TransactionRepository.insertBuilder tx).fields, f ∈ transactionInsertNames) ∧
     ((NewTransactionRepository db.journaled).Create ctx tx (w, log)).2.2 =
       log ++ [{ sql := Sql.Insert "transactions"
                   ((transactionInsertColumns tx).map Prod.fst)
                   (placeholders (transactionInsertColumns tx).length),
                 args := (transactionInsertColumns tx).map Prod.snd }]) ∧
    ((PaymentMethodRepository.insertBuilder tx).fields =
        (paymentMethodInsertColumns tx).map Prod.fst ∧
     (PaymentMethodRepository.insertBuilder tx).values =
        (paymentMethodInsertColumns tx).map Prod.snd ∧
     (PaymentMethodRepository.insertBuilder tx).params =
        placeholders (paymentMethodInsertColumns tx).length ∧
     (PaymentMethodRepository.insertBuilder tx).fields.length =
        (PaymentMethodRepository.insertBuilder tx).params.length ∧
     (PaymentMethodRepository.insertBuilder tx).fields.length =
        (PaymentMethodRepository.insertBuilder tx).values.length ∧
     (∀ f ∈ (PaymentMethodRepository.insertBuilder tx).fields, f ∈ paymentMethodInsertNames) ∧
     ((NewPaymentMethodRepository db.journaled).Create ctx tx (w, log)).2.2 =
       log ++ [{ sql := Sql.Insert "payment_methods"
                   ((paymentMethodInsertColumns tx).map Prod.fst)
                   (placeholders (paymentMethodInsertColumns tx).length),
                 args := (paymentMethodInsertColumns tx).map Prod.snd }]) := by
  constructor
  · have hj := journaled_create_transaction db ctx tx w log
    rw [transaction_insertBuilder_eq] at hj ⊢
    obtain ⟨h1, h2, h3⟩ := init_addAll (transactionInsertColumns tx)
    rw [h1, h2, h3] at hj
    refine ⟨h1, h2, h3, ?_, ?_, ?_, hj⟩
    · rw [h1, h3]; simp [placeholders]
    · rw [h1, h2]; simp
    · rw [h1]; exact transactionInsertColumns_names tx
  · have hj := journaled_create_paymentMethod db ctx tx w log
    rw [paymentMethod_insertBuilder_eq] at hj ⊢
    obtain ⟨h1, h2, h3⟩ := init_addAll (paymentMethodInsertColumns tx)
    rw [h1, h2, h3] at hj
    refine ⟨h1, h2, h3, ?_, ?_, ?_, hj⟩
    · rw [h1, h3]; simp [placeholders]
    · rw [h1, h2]; simp
    · rw [h1]; exact paymentMethodInsertColumns_names tx

/-- C18. For every column name outside the allow-list of the repository, the
empty name and names with SQL metacharacters included, FindByColumn returns the
invalid-column error and hands no statement to the database, on both
repositories; every statement FindByColumn does hand over is the SELECT with a
column of the allow-list in its WHERE clause. -/
theorem findByColumn_checks_allow_list {σ : Type} (db : DB σ) (ctx : Context)
    (column : String) (value : Any) (w : σ) (log : List Statement) :
    (column ∉ TransactionRepository.validColumns →
      (NewTransactionRepository db.journaled).FindByColumn ctx column value (w, log) =
        (.error ("invalid column name: " ++ column), (w, log))) ∧
    (column ∉ PaymentMethodRepository.validColumns →
      (NewPaymentMethodRepository db.journaled).FindByColumn ctx column value (w, log) =
        (.error ("invalid column name: " ++ column), (w, log))) ∧
    (∀ st ∈ ((NewTransactionRepository db.journaled).FindByColumn ctx column value (w, [])).2.2,
      ∃ c ∈ TransactionRepository.validColumns,
        st.sql = Sql.Select TransactionRepository.columns "transactions" [(c, "=", 1)] true) ∧
    (∀ st ∈ ((NewPaymentMethodRepository db.journaled).FindByColumn ctx column value
        (w, [])).2.2,
      ∃ c ∈ PaymentMethodRepository.validColumns,
        st.sql = Sql.Select PaymentMethodRepository.columns "payment_methods"
          [(c, "=", 1)] true) := by
  refine ⟨?_, ?_, ?_, ?_⟩
  · intro h
    unfold TransactionRepository.FindByColumn
    simp only [h, not_false_eq_true, if_true]
  · intro h
    unfold PaymentMethodRepository.FindByColumn
    simp only [h, not_false_eq_true, if_true]
  · intro st hst
    rw [journaled_findByColumn_transaction] at hst
    by_cases h : column ∈ TransactionRepository.validColumns
    · simp only [h, if_true, List.nil_append, List.mem_singleton] at hst
      exact ⟨column, h, by rw [hst]⟩
    · simp [h] at hst
  · intro st hst
    rw [journaled_findByColumn_paymentMethod] at hst
    by_cases h : column ∈ PaymentMethodRepository.validColumns
    · simp only [h, if_true, List.nil_append, List.mem_singleton] at hst
      exact ⟨column, h, by rw [hst]⟩
    · simp [h] at hst

/-- Witness of C18: the empty column name and a name with SQL metacharacters on
the database, a journal being kept. -/
theorem findByColumn_checks_allow_list_witness :
    (NewTransactionRepository postgres.pool.journaled).FindByColumn sample.background ""
        (Any.str "x") (sample.pendingStore, []) =
      (.error "invalid column name: ", (sample.pendingStore, [])) ∧
    (NewPaymentMethodRepository postgres.pool.journaled).FindByColumn sample.background
        "customer_id = customer_id; DROP TABLE payment_methods; --" (Any.str "x")
        (sample.pendingStore, []) =
      (.error "invalid column name: customer_id = customer_id; DROP TABLE payment_methods; --",
       (sample.pendingStore, [])) :=
  ⟨(findByColumn_checks_allow_list postgres.pool sample.background "" (Any.str "x")
      sample.pendingStore []).1 (by decide),
   (findByColumn_checks_allow_list postgres.pool sample.background
      "customer_id = customer_id; DROP TABLE payment_methods; --" (Any.str "x")
      sample.pendingStore []).2.1 (by decide)⟩

/-- C19, the code at the failing input: a status update whose filter name is not
a column is not rejected. On both repositories the name is written into the
WHERE clause of the UPDATE and the statement is handed to the database. -/
theorem updateStatus_interpolates_filter_name {σ : Type} (db : DB σ) (ctx : Context) (w : σ) :
    ((NewTransactionRepository db.journaled).UpdateStatus ctx "payment_succeeded"
        [("1 = 1 OR payment_intent_id", Any.str "pi_1")] (w, [])).2.2 =
      [{ sql := Sql.Update "transactions" "tx_status" [("1 = 1 OR payment_intent_id", 2)],
         args := [Any.str "payment_succeeded", Any.str "pi_1"] }] ∧
    (Sql.Update "transactions" "tx_status" [("1 = 1 OR payment_intent_id", 2)]).text =
      "UPDATE transactions SET tx_status = $1, updated_at = NOW() WHERE 1 = 1 OR payment_intent_id = $2" ∧
    ((NewPaymentMethodRepository db.journaled).UpdateStatus ctx "inactive"
        [("1 = 1 OR payment_method_id", Any.str "pm_1")] (w, [])).2.2 =
      [{ sql := Sql.Update "payment_methods" "pm_status" [("1 = 1 OR payment_method_id", 2)],
         args := [Any.str "inactive", Any.str "pm_1"] }] ∧
    (Sql.Update "payment_methods" "pm_status" [("1 = 1 OR payment_method_id", 2)]).text =
      "UPDATE payment_methods SET pm_status = $1, updated_at = NOW() WHERE 1 = 1 OR payment_method_id = $2" := by
  refine ⟨?_, by decide, ?_, by decide⟩
  · rw [journaled_updateStatus_transaction db ctx _ _ w [] (by simp)]
    rfl
  · rw [journaled_updateStatus_paymentMethod db ctx _ _ w [] (by simp)]
    rfl

/-- C20. UpdateStatus on both repositories: with no filter it returns the
filters-required error and hands no statement to the database; with n filters,
n at least 1, it hands over exactly one UPDATE whose WHERE clause is the AND of
the n conditions name = placeholder, the placeholders being $2 to $(n+1), with
the new status as first argument followed by the n filter values in the same
order; and it returns the no-match error exactly when that statement ran without
error and affected no row. -/
theorem updateStatus_requires_filters {σ : Type} (db : DB σ) (ctx : Context)
    (status : String) (filters : List (String × Any)) (w : σ) (log : List Statement) :
    (filters = [] →
      (NewTransactionRepository db.journaled).UpdateStatus ctx status filters (w, log) =
        (.error "at least one filter condition is required", (w, log)) ∧
      (NewPaymentMethodRepository db.journaled).UpdateStatus ctx status filters (w, log) =
        (.error "at least one filter condition is required", (w, log))) ∧
    (filters ≠ [] →
      ((NewTransactionRepository db.journaled).UpdateStatus ctx status filters (w, log)).2.2 =
        log ++ [{ sql := Sql.Update "transactions" "tx_status"
                    ((filters.map Prod.fst).zip (List.range' 2 filters.length)),
                  args := Any.str status :: filters.map Prod.snd }] ∧
      (((NewTransactionRepository db.journaled).UpdateStatus ctx status filters (w, log)).1 =
          .error "no matching transaction found" ↔
        (db.Exec ctx (Sql.Update "transactions" "tx_status"
            ((filters.map Prod.fst).zip (List.range' 2 filters.length)))
          (Any.str status :: filters.map Prod.snd) w).1 = .ok 0) ∧
      ((NewPaymentMethodRepository db.journaled).UpdateStatus ctx status filters (w, log)).2.2 =
        log ++ [{ sql := Sql.Update "payment_methods" "pm_status"
                    ((filters.map Prod.fst).zip (List.range' 2 filters.length)),
                  args := Any.str status :: filters.map Prod.snd }] ∧
      (((NewPaymentMethodRepository db.journaled).UpdateStatus ctx status filters (w, log)).1 =
          .error "no matching payment method found" ↔
        (db.Exec ctx (Sql.Update "payment_methods" "pm_status"
            ((filters.map Prod.fst).zip (List.range' 2 filters.length)))
          (Any.str status :: filters.map Prod.snd) w).1 = .ok 0)) ∧
    (∀ (table column : String) (conditions : List (String × Nat)),
      (Sql.Update table column conditions).text =
        "UPDATE " ++ table ++ " SET " ++ column ++ " = $1, updated_at = NOW()" ++ " WHERE " ++
          " AND ".intercalate (conditions.map (fun c => c.1 ++ " = $" ++ toString c.2))) := by
  refine ⟨?_, ?_, ?_⟩
  · intro h
    subst h
    exact ⟨rfl, rfl⟩
  · intro hne
    rw [journaled_updateStatus_transaction db ctx status filters w log hne,
      journaled_updateStatus_paymentMethod db ctx status filters w log hne]
    simp only [filterConditions, List.length_map]
    refine ⟨trivial, ?_, trivial, ?_⟩
    · exact no_match_iff _ _ wrapped_ne_no_match_transaction _
    · exact no_match_iff _ _ wrapped_ne_no_match_paymentMethod _
  · intro table column conditions
    rfl

/-- Witness of C20 on the database: no filter, and one filter that matches no
row. -/
theorem updateStatus_requires_filters_witness :
    (NewTransactionRepository postgres.pool.journaled).UpdateStatus sample.background
        "payment_failed" [] (sample.pendingStore, []) =
      (.error "at least one filter condition is required", (sample.pendingStore, [])) ∧
    ((NewTransactionRepository postgres.pool.journaled).UpdateStatus sample.background
        "payment_failed" [("payment_intent_id", Any.str "pi_404")]
        (sample.pendingStore, [])).2.2 =
      [{ sql := Sql.Update "transactions" "tx_status" [("payment_intent_id", 2)],
         args := [Any.str "payment_failed", Any.str "pi_404"] }] :=
  ⟨((updateStatus_requires_filters postgres.pool sample.background "payment_failed" []
      sample.pendingStore []).1 rfl).1,
   ((updateStatus_requires_filters postgres.pool sample.background "payment_failed"
      [("payment_intent_id", Any.str "pi_404")] sample.pendingStore []).2.1 (by simp)).1⟩

/-! ### Storage transactions (C21) -/

/-- C21. WithTransaction on both repositories. When Begin fails, fn is not run,
nothing is committed and the begin error is returned, wrapped. Once the
transaction has begun, Commit is called exactly when fn returns no error, and
the result of Commit is then returned; when fn returns an error, Rollback is
called, Commit is not, and an error is returned, which is the error of fn when
the rollback succeeds; when fn panics, Rollback is called, Commit is not, and the
panic goes on. -/
theorem withTransaction_commits_iff_fn_succeeds {σ : Type}
    (r : TransactionRepository σ) (p : PaymentMethodRepository σ)
    (Begin : Context → σ → Except Error (Tx σ) × σ) (ctx : Context)
    (fn : TransactionRepository σ → σ → Outcome (Except Error Unit) × σ)
    (gn : PaymentMethodRepository σ → σ → Outcome (Except Error Unit) × σ) (w : σ) :
    (TransactionContract Begin ctx (fun tx => fn { db := tx.db }) w
        (r.WithTransaction Begin ctx fn w) ∧
      TransactionContract Begin ctx (fun tx => gn { db := tx.db }) w
        (p.WithTransaction Begin ctx gn w)) ∧
    (∀ err w1, Begin ctx w = (.error err, w1) →
      (r.WithTransaction Begin ctx fn w).outcome =
        .returned (.error ("failed to begin transaction: " ++ err)) ∧
      (r.WithTransaction Begin ctx fn w).calls = [TxCall.Begin ctx] ∧
      (p.WithTransaction Begin ctx gn w).outcome =
        .returned (.error ("failed to begin transaction: " ++ err)) ∧
      (p.WithTransaction Begin ctx gn w).calls = [TxCall.Begin ctx]) ∧
    (∀ tx w1, Begin ctx w = (.ok tx, w1) →
      (∀ w2, fn { db := tx.db } w1 = (.returned (.ok ()), w2) →
        (r.WithTransaction Begin ctx fn w).calls =
          [TxCall.Begin ctx, TxCall.Fn, TxCall.Commit ctx] ∧
        (r.WithTransaction Begin ctx fn w).outcome = .returned (tx.Commit ctx w2).1 ∧
        (r.WithTransaction Begin ctx fn w).state = (tx.Commit ctx w2).2) ∧
      (∀ err w2, fn { db := tx.db } w1 = (.returned (.error err), w2) →
        (r.WithTransaction Begin ctx fn w).calls =
          [TxCall.Begin ctx, TxCall.Fn, TxCall.Rollback ctx] ∧
        (r.WithTransaction Begin ctx fn w).state = (tx.Rollback ctx w2).2) ∧
      (∀ msg w2, fn { db := tx.db } w1 = (.panicked msg, w2) →
        (r.WithTransaction Begin ctx fn w).calls =
          [TxCall.Begin ctx, TxCall.Fn, TxCall.Rollback ctx] ∧
        (r.WithTransaction Begin ctx fn w).outcome = .panicked msg) ∧
      (∀ w2, gn { db := tx.db } w1 = (.returned (.ok ()), w2) →
        (p.WithTransaction Begin ctx gn w).calls =
          [TxCall.Begin ctx, TxCall.Fn, TxCall.Commit ctx] ∧
        (p.WithTransaction Begin ctx gn w).outcome = .returned (tx.Commit ctx w2).1 ∧
        (p.WithTransaction Begin ctx gn w).state = (tx.Commit ctx w2).2) ∧
      (∀ err w2, gn { db := tx.db } w1 = (.returned (.error err), w2) →
        (p.WithTransaction Begin ctx gn w).calls =
          [TxCall.Begin ctx, TxCall.Fn, TxCall.Rollback ctx] ∧
        (p.WithTransaction Begin ctx gn w).state = (tx.Rollback ctx w2).2) ∧
      (∀ msg w2, gn { db := tx.db } w1 = (.panicked msg, w2) →
        (p.WithTransaction Begin ctx gn w).calls =
          [TxCall.Begin ctx, TxCall.Fn, TxCall.Rollback ctx] ∧
        (p.WithTransaction Begin ctx gn w).outcome = .panicked msg)) := by
  refine ⟨⟨transaction_withTransaction_contract r Begin ctx fn w,
    paymentMethod_withTransaction_contract p Begin ctx gn w⟩, ?_, ?_⟩
  · intro err w1 hb
    simp [TransactionRepository.WithTransaction, PaymentMethodRepository.WithTransaction, hb]
  · intro tx w1 hb
    refine ⟨?_, ?_, ?_, ?_, ?_, ?_⟩
    · intro w2 hf
      simp [TransactionRepository.WithTransaction, hb, hf]
    · intro err w2 hf
      rcases hr : tx.Rollback ctx w2 with ⟨rb, w3⟩
      cases rb <;> simp [TransactionRepository.WithTransaction, hb, hf, hr]
    · intro msg w2 hf
      simp [TransactionRepository.WithTransaction, hb, hf]
    · intro w2 hf
      simp [PaymentMethodRepository.WithTransaction, hb, hf]
    · intro err w2 hf
      rcases hr : tx.Rollback ctx w2 with ⟨rb, w3⟩
      cases rb <;> simp [PaymentMethodRepository.WithTransaction, hb, hf, hr]
    · intro msg w2 hf
      simp [PaymentMethodRepository.WithTransaction, hb, hf]

/-- Witness of C21: on the database, a unit of work that inserts a transaction
and then fails is rolled back, and a pool that cannot begin returns the begin
error. -/
theorem withTransaction_commits_iff_fn_succeeds_witness :
    ((NewTransactionRepository postgres.pool).WithTransaction postgres.Begin sample.background
        sample.failingWork sample.pendingStore).calls =
      [TxCall.Begin sample.background, TxCall.Fn, TxCall.Rollback sample.background] ∧
    ((NewTransactionRepository postgres.pool).WithTransaction postgres.Begin sample.background
        sample.failingWork sample.pendingStore).state = sample.pendingStore ∧
    ((NewTransactionRepository postgres.pool).WithTransaction postgres.Begin sample.background
        sample.failingWork sample.pendingStore).outcome = .returned (.error "work failed") ∧
    ((NewTransactionRepository postgres.pool).WithTransaction postgres.refused
        sample.background sample.failingWork sample.pendingStore).outcome =
      .returned (.error "failed to begin transaction: connection refused") :=
  ⟨(((withTransaction_commits_iff_fn_succeeds (NewTransactionRepository postgres.pool)
        (NewPaymentMethodRepository postgres.pool) postgres.Begin sample.background
        sample.failingWork (fun _ db => (.returned (.ok ()), db)) sample.pendingStore).2.2
      (postgres.session sample.pendingStore)
      sample.pendingStore rfl).2.1 "work failed"
      (sample.failingWork (NewTransactionRepository postgres.pool) sample.pendingStore).2
      rfl).1,
   rfl, rfl, rfl⟩
/-! ### The remembered payment method of a succeeded webhook (C22) -/

/-- Counterexample to C22 as stated, two deliveries of the succeeded event for
intent `pi_1`, whose stored flag is true and whose status update matches. In the
first the payment method `pm_1` is already stored and the lookup of the
payment-method repository fails: a second record of `pm_1` is created. In the
second no payment method is stored and the transaction lookup after the update
fails: the delivery returns that error and creates nothing. -/
theorem parseWebhook_creates_on_failed_lookup :
    paymentMethodCount "pm_1" sample.rememberedStore = 1 ∧
    ((sample.blindMethods (sample.event PaymentSucceeded)).ParseWebhook sample.background
        "stripe" [] [] sample.rememberedStore).result = .ok (sample.event PaymentSucceeded) ∧
    createdOn PaymentRepo
      ((sample.blindMethods (sample.event PaymentSucceeded)).ParseWebhook sample.background
        "stripe" [] [] sample.rememberedStore).trace = [newPm "cust_1" "pm_1" "stripe"] ∧
    paymentMethodCount "pm_1"
      ((sample.blindMethods (sample.event PaymentSucceeded)).ParseWebhook sample.background
        "stripe" [] [] sample.rememberedStore).state = 2 ∧
    sample.pendingStore.transactions.map (fun r => (r.PaymentIntentID, r.SavePaymentMethod)) =
      [("pi_1", some true)] ∧
    sample.pendingStore.payment_methods = [] ∧
    ((sample.blindTransactions (sample.event PaymentSucceeded)).ParseWebhook sample.background
        "stripe" [] [] sample.pendingStore).state.transactions.map
          (fun r => (r.PaymentIntentID, r.TxStatus)) = [("pi_1", PaymentSucceeded)] ∧
    ((sample.blindTransactions (sample.event PaymentSucceeded)).ParseWebhook sample.background
        "stripe" [] [] sample.pendingStore).result =
      .error ("Error while finding payment intent: error getting transaction: " ++
        "canceling statement due to statement timeout") ∧
    callsOn PaymentRepo
      ((sample.blindTransactions (sample.event PaymentSucceeded)).ParseWebhook sample.background
        "stripe" [] [] sample.pendingStore).trace = [] ∧
    ((sample.blindTransactions (sample.event PaymentSucceeded)).ParseWebhook sample.background
        "stripe" [] [] sample.pendingStore).state.payment_methods = [] :=
  ⟨rfl, rfl, rfl, rfl, rfl, rfl, rfl, rfl, rfl, rfl⟩

/-- C22, amended. On a succeeded webhook event whose status update matched, the
transaction is read back. When that lookup fails, ParseWebhook returns its
error and the payment-method repository is not called. When it returns the
transaction, the calls on the payment-method repository are: none when the
stored remember-method flag is false or unset; otherwise one FindByID for the
payment method of the event, followed by one Create exactly when that lookup
returned no record, which is the case when no record of that id exists and also
whenever the lookup itself fails. The record handed to Create has the customer id
of the transaction, the payment method id of the event, status "active" and the
provider key. On the database, a status update that matched leaves a row of the
intent and the transaction lookup returns the flag and the customer id of the
first such row; the payment-method lookup returns no record exactly when no row
has that payment method id, and on every database handle it returns none when
the row query fails. -/
theorem parseWebhook_remembers_payment_method {σ : Type} (s : PaymentService σ)
    (ctx : Context) (provider : PaymentProvider) (raw : List UInt8)
    (headers : List (String × List String)) (w w1 w2 : σ)
    (processor : IPaymentProcessor σ) (transaction payment_method : ITransactionRepository σ)
    (event : PaymentEvent)
    (hp : s.providerRegistry.Get provider = .ok processor)
    (ht : s.repositoryRegistry.Get TransactionRepo = .ok transaction)
    (hm : s.repositoryRegistry.Get PaymentRepo = .ok payment_method)
    (hparse : processor.ParseWebhook (ctx.WithTimeout 5) raw headers w = (.ok event, w1))
    (htype : event.Type_ = PaymentSucceeded)
    (hupdate : transaction.UpdateStatus (ctx.WithTimeout 5) PaymentSucceeded
      (intentFilter event) w1 = (.ok (), w2)) :
    callsOn PaymentRepo (s.ParseWebhook ctx provider raw headers w).trace =
      (match transaction.FindByPaymentIntent (ctx.WithTimeout 5) event.PaymentIntent w2 with
       | (.error _, _) => []
       | (.ok txdata, w3) =>
         if txdata.SavePaymentMethod = some true then
           Call.FindByID PaymentRepo (ctx.WithTimeout 5) event.PaymentMethod ::
             (if isNil (payment_method.FindByID (ctx.WithTimeout 5) event.PaymentMethod
                 w3).1 then
               [Call.Create PaymentRepo (ctx.WithTimeout 5)
                 (newPm txdata.CustomerID event.PaymentMethod provider)]
              else [])
         else []) ∧
    createdOn PaymentRepo (s.ParseWebhook ctx provider raw headers w).trace =
      (match transaction.FindByPaymentIntent (ctx.WithTimeout 5) event.PaymentIntent w2 with
       | (.error _, _) => []
       | (.ok txdata, w3) =>
         if txdata.SavePaymentMethod = some true ∧
             isNil (payment_method.FindByID (ctx.WithTimeout 5) event.PaymentMethod w3).1 =
               true then
           [newPm txdata.CustomerID event.PaymentMethod provider]
         else []) ∧
    (s.ParseWebhook ctx provider raw headers w).result =
      (match transaction.FindByPaymentIntent (ctx.WithTimeout 5) event.PaymentIntent w2 with
       | (.error err, _) => .error ("Error while finding payment intent: " ++ err)
       | (.ok _, _) => .ok event) ∧
    (∀ customer : String,
      (newPm customer event.PaymentMethod provider).CustomerID = customer ∧
      (newPm customer event.PaymentMethod provider).PaymentMethodID = event.PaymentMethod ∧
      (newPm customer event.PaymentMethod provider).PaymentMethodStatus = "active" ∧
      (newPm customer event.PaymentMethod provider).PaymentProvider = provider) ∧
    (∀ (ctx2 : Context) (status id : String) (db db2 : postgres.Store),
      (NewTransactionRepository postgres.pool).UpdateStatus ctx2 status
          [("payment_intent_id", Any.str id)] db = (.ok (), db2) →
      ∃ row rest found,
        db2.transactions.filter (fun r => decide (r.PaymentIntentID = id)) = row :: rest ∧
        (NewTransactionRepository postgres.pool).FindByPaymentIntent ctx2 id db2 =
          (.ok found, db2) ∧
        found.SavePaymentMethod = row.SavePaymentMethod ∧ found.CustomerID = row.CustomerID) ∧
    (∀ (ctx2 : Context) (id : String) (db : postgres.Store),
      isNil ((NewPaymentMethodRepository postgres.pool).FindByID ctx2 id db).1 = true ↔
        ∀ r ∈ db.payment_methods, r.PaymentMethodID ≠ id) ∧
    (∀ (db : DB σ) (ctx2 : Context) (id : String) (v v2 : σ) (e : Error),
      db.QueryRow ctx2
          (Sql.Select PaymentMethodRepository.columns "payment_methods"
            [("payment_method_id", "=", 1)] false) [Any.str id] v = (.error e, v2) →
      isNil ((NewPaymentMethodRepository db).FindByID ctx2 id v).1 = true) := by
  have hne : ¬ (TransactionRepo = PaymentRepo) := by decide
  have htail := succeededTail_paymentMethod_total transaction payment_method
    (ctx.WithTimeout 5) provider event w2
  rw [parseWebhook_of_lookups s ctx provider raw headers w processor transaction payment_method
    hp ht hm]
  simp only [hparse]
  unfold dispatch
  simp only [htype, if_true, hupdate]
  generalize succeededTail transaction payment_method (ctx.WithTimeout 5) provider event w2 = tail
    at htail
  refine ⟨?_, ?_, ?_, fun _ => ⟨rfl, rfl, rfl, rfl⟩, ?_, ?_, ?_⟩
  · rw [← htail.1]
    simp [Run.after, callsOn, hne]
  · rw [← htail.2.1]
    simp [Run.after, createdOn, hne]
  · rw [← htail.2.2]
    rfl
  · intro ctx2 status id db db2 hu
    rw [pool_updateStatus_intent] at hu
    by_cases hz : db.transactions.countP (fun r => decide (r.PaymentIntentID = id)) = 0
    · simp [hz] at hu
    · have hrow : ∃ r ∈ db.transactions, r.PaymentIntentID = id := by
        by_contra hno
        apply hz
        rw [List.countP_eq_zero]
        intro r hr
        simp only [decide_eq_true_eq]
        intro hid
        exact hno ⟨r, hr, hid⟩
      obtain ⟨row, rest, hrows⟩ := filter_ne_nil_of_row id db.transactions hrow
      have hdb2 : db2 =
          { db with transactions := updatedRows status id db.now db.transactions } := by
        simp only [hz, if_false, Prod.mk.injEq, true_and] at hu
        rw [← hu]
        rfl
      have hflt : db2.transactions.filter (fun r => decide (r.PaymentIntentID = id)) =
          { row with TxStatus := status, UpdatedAt := db.now } ::
            rest.map (fun r => { r with TxStatus := status, UpdatedAt := db.now }) := by
        rw [hdb2]
        simp only [updatedRows_filter, hrows, List.map_cons]
      have hq := pool_findByPaymentIntent ctx2 id db2
      simp only [hflt] at hq
      exact ⟨_, _, _, hflt, hq, rfl, rfl⟩
  · intro ctx2 id db
    exact pool_findByID_nil_iff ctx2 id db
  · intro db ctx2 id v v2 e h
    exact findByID_nil_of_failed_query db ctx2 id v v2 e h

/-- Witness of amended C22: the succeeded event for the pending transaction of
intent `pi_1`, whose flag is true, on a database without payment methods: the
method is looked up and created. -/
theorem parseWebhook_remembers_payment_method_witness :
    callsOn PaymentRepo
      ((main.paymentService (sample.provider (sample.event PaymentSucceeded))
          postgres.pool).ParseWebhook sample.background "stripe" [] []
        sample.pendingStore).trace =
      [Call.FindByID PaymentRepo ⟨some 5⟩ "pm_1",
       Call.Create PaymentRepo ⟨some 5⟩ (newPm "cust_1" "pm_1" "stripe")] ∧
    ((main.paymentService (sample.provider (sample.event PaymentSucceeded))
          postgres.pool).ParseWebhook sample.background "stripe" [] []
        sample.pendingStore).state.payment_methods =
      [{ newPm "cust_1" "pm_1" "stripe" with CreatedAt := 7, UpdatedAt := 7 }] :=
  ⟨(parseWebhook_remembers_payment_method
      (main.paymentService (sample.provider (sample.event PaymentSucceeded)) postgres.pool)
      sample.background "stripe" [] [] sample.pendingStore sample.pendingStore
      { sample.pendingStore with
        transactions := updatedRows PaymentSucceeded "pi_1" 7 sample.pendingStore.transactions }
      (sample.provider (sample.event PaymentSucceeded))
      (NewTransactionRepository postgres.pool).asRepository
      (NewPaymentMethodRepository postgres.pool).asRepository
      (sample.event PaymentSucceeded)
      rfl rfl rfl rfl rfl rfl).1.trans rfl, rfl⟩

/-! ### Deadlines of the provider calls (C23) -/

/-- C23, the code at the failing input: every provider call of
CreatePaymentIntent, of GetPaymentIntent and of ChargeClient carries the context
of the caller cut to 2 seconds, every provider call of ParseWebhook the context
cut to 5 seconds. For a caller without deadline the charge on the sample service
gets the deadline of 2 seconds that intent creation and retrieval get, not a
longer one; the webhook gets 5 seconds. -/
theorem chargeClient_deadline_equals_creation_deadline {σ : Type} (s : PaymentService σ)
    (ctx : Context) (provider : PaymentProvider) (req : PaymentIntentRequest) (id : String)
    (raw : List UInt8) (headers : List (String × List String)) (w : σ) :
    (∀ c ∈ providerCalls (s.CreatePaymentIntent ctx provider req w).trace,
      c = Call.ProcCreatePaymentIntent provider (ctx.WithTimeout 2) req) ∧
    (∀ c ∈ providerCalls (s.GetPaymentIntent ctx provider id w).trace,
      c = Call.ProcGetPaymentIntent provider (ctx.WithTimeout 2) id) ∧
    (∀ c ∈ providerCalls (s.ChargeClient ctx provider req w).trace,
      c = Call.ProcChargeClient provider (ctx.WithTimeout 2) req) ∧
    (∀ c ∈ providerCalls (s.ParseWebhook ctx provider raw headers w).trace,
      c = Call.ProcParseWebhook provider (ctx.WithTimeout 5) raw headers) ∧
    providerCalls
      ((main.paymentService (sample.provider sample.otherEvent) postgres.pool).ChargeClient
        sample.background "stripe" (sample.request none) sample.emptyStore).trace =
      [Call.ProcChargeClient "stripe" ⟨some 2⟩ (sample.request none)] ∧
    providerCalls
      ((main.paymentService (sample.provider sample.otherEvent)
          postgres.pool).CreatePaymentIntent
        sample.background "stripe" (sample.request none) sample.emptyStore).trace =
      [Call.ProcCreatePaymentIntent "stripe" ⟨some 2⟩ (sample.request none)] ∧
    providerCalls
      ((main.paymentService (sample.provider sample.otherEvent) postgres.pool).GetPaymentIntent
        sample.background "stripe" "pi_1" sample.emptyStore).trace =
      [Call.ProcGetPaymentIntent "stripe" ⟨some 2⟩ "pi_1"] ∧
    providerCalls
      ((main.paymentService (sample.provider sample.otherEvent) postgres.pool).ParseWebhook
        sample.background "stripe" [] [] sample.emptyStore).trace =
      [Call.ProcParseWebhook "stripe" ⟨some 5⟩ [] []] :=
  ⟨createPaymentIntent_providerCalls s ctx provider req w,
   getPaymentIntent_providerCalls s ctx provider id w,
   chargeClient_providerCalls s ctx provider req w,
   parseWebhook_providerCalls s ctx provider raw headers w,
   rfl, rfl, rfl, rfl⟩

/-! ### The charge of the Stripe adapter (C24) -/

/-- C24, the code at the failing input: when the payment method of the token is
attached to no customer and the creation of a customer and the attachment both
succeed, ChargeClient of the adapter panics on the write of the customer id
through the nil customer pointer. The customer has been created and the method
attached, the charge is not confirmed and no response is returned. -/
theorem chargeClient_dereferences_nil_customer {σ : Type} (a : adapters.StripeAdapter)
    (api : adapters.Api σ) (ctx : Context) (req : PaymentIntentRequest) (w w1 w2 w3 : σ)
    (pm attached : stripe.PaymentMethod) (customer : stripe.Customer)
    (hget : api.PaymentMethodGet req.Token w = (.ok pm, w1))
    (hnil : pm.Customer = none)
    (hnew : api.CustomerNew w1 = (.ok customer, w2))
    (hattach : api.PaymentMethodAttach req.Token customer.ID w2 = (.ok attached, w3)) :
    (a.ChargeClient api ctx req w).outcome = .panicked nilDereference ∧
    (a.ChargeClient api ctx req w).calls =
      [adapters.ApiCall.PaymentMethodGet req.Token, adapters.ApiCall.CustomerNew,
       adapters.ApiCall.PaymentMethodAttach req.Token customer.ID] ∧
    (∀ params, adapters.ApiCall.PaymentIntentNew params ∉ (a.ChargeClient api ctx req w).calls) ∧
    (a.ChargeClient api ctx req w).state = w3 := by
  unfold adapters.StripeAdapter.ChargeClient
  simp only [hget, hnil, hnew, hattach, adapters.setCustomerID]
  refine ⟨trivial, trivial, ?_, trivial⟩
  intro params
  simp

/-- Witness of the evaluation for C24: on the sample Stripe account the charge
with the token `pm_1`, a payment method without customer, panics after the
attachment, while the charge with `pm_2`, attached to customer `cus_9`, is
confirmed for that customer and returns the response. -/
theorem chargeClient_dereferences_nil_customer_witness :
    (sample.adapter.ChargeClient sample.api sample.background (sample.request (some true))
        sample.emptyStore).outcome = .panicked nilDereference ∧
    (sample.adapter.ChargeClient sample.api sample.background (sample.request (some true))
        sample.emptyStore).calls =
      [adapters.ApiCall.PaymentMethodGet "pm_1", adapters.ApiCall.CustomerNew,
       adapters.ApiCall.PaymentMethodAttach "pm_1" "cus_1"] ∧
    (sample.adapter.ChargeClient sample.api sample.background
        { sample.request (some true) with Token := "pm_2" } sample.emptyStore).outcome =
      .returned (.ok { ID := "pi_2", Amount := 1000, Currency := "usd", Status := "succeeded",
                       ClientSecret := "", PaymentMethodID := "pm_2", PaymentMethodType := "",
                       PaymentProvider := "", PaymentMethodStatus := "" }) ∧
    (sample.adapter.ChargeClient sample.api sample.background
        { sample.request (some true) with Token := "pm_2" } sample.emptyStore).calls =
      [adapters.ApiCall.PaymentMethodGet "pm_2",
       adapters.ApiCall.PaymentIntentNew
         { Amount := some 1000, Currency := some "usd", Customer := some "cus_9",
           PaymentMethod := some "pm_2", Confirm := some true }] :=
  ⟨(chargeClient_dereferences_nil_customer sample.adapter sample.api sample.background
      (sample.request (some true)) sample.emptyStore sample.emptyStore sample.emptyStore
      sample.emptyStore { ID := "pm_1", Customer := none }
      { ID := "pm_1", Customer := some { ID := "cus_1" } } { ID := "cus_1" }
      rfl rfl rfl rfl).1,
   rfl, rfl, rfl⟩

end Theorems
